import Mathlib

/-!
# dx12_random: renderer contract, frame synchronisation and renderer switching

A shallow embedding of `Engine`, `GDIRenderer` and `DX12Renderer`.

Conventions of the embedding

* A nullable pointer or handle (`HWND`, `HDC`, `ComPtr<T>`, `std::unique_ptr<T>`)
  is an `Option`; `none` is `nullptr`.
* A `float` is a rational number: comparisons and arithmetic are exact, rounding
  is not modelled.
* `UINT64 m_fenceValue` is a natural number reduced modulo `2 ^ 64`.
* Every method returns a `Run`: the platform calls it made, in order, and how
  it ended (returned, threw a C++ exception, dereferenced a null pointer, or
  blocked forever in `WaitForSingleObject(…, INFINITE)`).
* What the platform answers (created handles, text extents, how far the GPU
  has got when the fence is polled) is a parameter of the method.
-/

set_option autoImplicit false

/-! ## Results of a call -/

/-- How a method call ends.  `threw` keeps the object state at the point of the throw,
because the object survives the exception. -/
inductive Outcome (σ : Type) where
  | ok (s : σ)
  | threw (s : σ) (what : String)
  | fault (what : String)
  | hung
  deriving DecidableEq, Repr

/-- Rounding of a rational to the nearest integer, a tie going to the even one. -/
def roundHalfEven (x : ℚ) : Int :=
  if x - (⌊x⌋ : ℚ) < 1 / 2 then ⌊x⌋
  else if 1 / 2 < x - (⌊x⌋ : ℚ) then ⌊x⌋ + 1
  else if ⌊x⌋ % 2 = 0 then ⌊x⌋ else ⌊x⌋ + 1

/-- The `float` (IEEE 754 binary32) nearest to `q`, a tie going to the even significand:
24 significant bits in the binade of `q`, whose exponent is taken no smaller than `-126`,
so that below `2 ^ (-126)` the spacing stays `2 ^ (-149)`.  Overflow to infinity, which
starts at `2 ^ 128`, is not represented. -/
def toFloat (q : ℚ) : ℚ :=
  if q = 0 then 0
  else
    (roundHalfEven (q / (2 : ℚ) ^ (max (Int.log 2 |q|) (-126) - 23)) : ℚ) *
      (2 : ℚ) ^ (max (Int.log 2 |q|) (-126) - 23)

/-- C-style conversion of a `float` to an integer: truncation toward zero. -/
def truncToInt (q : ℚ) : Int := Int.tdiv q.num (q.den : Int)

/-- Conversion `(T)(float)` to an unsigned type of `bits` bits, as the x86 code
generated for it behaves: `cvttss2si` to a 32-bit integer (the "integer indefinite"
value `0x80000000` when the truncated value does not fit), then the low `bits` bits. -/
def toUnsigned (bits : Nat) (q : ℚ) : Nat :=
  let t := truncToInt q
  if -(2 : Int) ^ 31 ≤ t ∧ t < (2 : Int) ^ 31 then (t % (2 : Int) ^ bits).toNat
  else ((2 : Int) ^ 31 % (2 : Int) ^ bits).toNat

/-- The conversion `(COLOR16)(x)`; `COLOR16` is `USHORT`. -/
def toCOLOR16 (q : ℚ) : Nat := toUnsigned 16 q

/-- The conversion `(BYTE)(x)`. -/
def toBYTE (q : ℚ) : Nat := toUnsigned 8 q

/-- Weight `FW_NORMAL` of `wingdi.h`. -/
def FW_NORMAL : Nat := 400

/-- Weight `FW_BOLD` of `wingdi.h`. -/
def FW_BOLD : Nat := 700

/-- A font variant: family, point size and weight. -/
structure FontVariant where
  family : String
  size : Int
  weight : Nat
  deriving DecidableEq, Repr

/-- Barrier states of a swap-chain image: `D3D12_RESOURCE_STATE_PRESENT` and
`D3D12_RESOURCE_STATE_RENDER_TARGET`. -/
inductive ResourceState where
  | PRESENT
  | RENDER_TARGET
  deriving DecidableEq, Repr

/-- Kinds of handle the renderers own. -/
inductive HandleKind where
  | dc
  | gdiObject
  | event
  | com
  | heapObject
  deriving DecidableEq, Repr

/-- A handle or object pointer of some kind. -/
structure Handle where
  kind : HandleKind
  id : Nat
  deriving DecidableEq, Repr

/-- Platform calls the renderers make.  Arguments that no property looks at are
left out; a handle argument is `none` when the code passes a null handle. -/
inductive Call where
  -- GDI
  | GetDC (hwnd : Option Nat) (result : Option Nat)
  | CreateCompatibleDC (dc : Option Nat) (result : Option Nat)
  | CreateCompatibleBitmap (dc : Option Nat) (width height : Nat) (result : Option Nat)
  | SelectObject (dc : Option Nat) (obj : Option Nat)
  | GradientFill (dc : Option Nat) (upperLeft lowerRight : Nat × Nat × Nat)
  | SetBkMode (dc : Option Nat)
  | SetTextColor (dc : Option Nat) (rgb : Nat × Nat × Nat)
  | CreateFontW (font : FontVariant) (result : Option Nat)
  | DrawTextW (dc : Option Nat) (text : String) (left top right bottom : Int)
  | GetTextExtentPoint32W (dc : Option Nat) (text : String)
  | DeleteObject (obj : Option Nat)
  | DeleteDC (dc : Option Nat)
  | ReleaseDC (hwnd : Option Nat) (dc : Option Nat)
  | BitBlt (dst : Option Nat) (width height : Nat) (src : Option Nat)
  -- DXGI / D3D12 object creation
  | CreateDXGIFactory2 (result : Option Nat)
  | EnumAdapters1 (result : Option Nat)
  | D3D12CreateDevice (result : Option Nat)
  | CreateCommandQueue (result : Option Nat)
  | CreateSwapChainForHwnd (hwnd : Option Nat) (width height : Nat) (result : Option Nat)
  | MakeWindowAssociation (hwnd : Option Nat)
  | CreateDescriptorHeap (result : Option Nat)
  | GetBuffer (n : Nat) (result : Option Nat)
  | CreateRenderTargetView (resource : Option Nat)
  | CreateCommandAllocator (result : Option Nat)
  | CreateCommandList (result : Option Nat)
  | CreateFence (initial : Nat) (result : Option Nat)
  | CreateEvent (result : Option Nat)
  | NewGraphicsMemory (result : Option Nat)
  | NewSpriteFont (file : String) (result : Option Nat)
  | NewSpriteBatch (result : Option Nat)
  | ResourceUploadBegin
  | ResourceUploadEnd
  -- command recording
  | AllocatorReset
  | CommandListReset
  | ResourceBarrier (image : Nat) (before after : ResourceState)
  | OMSetRenderTargets (image : Nat)
  | ClearRenderTargetView (image : Nat) (color : ℚ × ℚ × ℚ × ℚ)
  | RSSetViewports
  | RSSetScissorRects
  | SetDescriptorHeaps
  | SpriteBatchBegin
  | DrawString (font : FontVariant) (text : String) (x y : ℚ) (color : ℚ × ℚ × ℚ × ℚ)
  | MeasureString (font : FontVariant) (text : String)
  | SpriteBatchEnd
  | CommandListClose
  -- submission and synchronisation
  | ExecuteCommandLists
  | Present
  | Signal (queue : Nat) (fence : Option Nat) (value : Nat)
  | GetCompletedValue (fence : Nat) (result : Nat)
  | SetEventOnCompletion (fence : Nat) (value : Nat) (event : Option Nat)
  | WaitForSingleObject (event : Option Nat)
  | GetCurrentBackBufferIndex (swapChain : Nat) (result : Nat)
  | GraphicsMemoryCommit
  -- teardown
  | SetFullscreenState (swapChain : Nat)
  | CloseHandle (event : Nat)
  | Delete (obj : Nat)
  | Release (obj : Nat)
  deriving Repr

/-- The handles a call releases (closes, deletes, or drops the last reference to). -/
def Call.released : Call → List Handle
  | .DeleteObject (some h) => [⟨.gdiObject, h⟩]
  | .DeleteDC (some h) => [⟨.dc, h⟩]
  | .ReleaseDC _ (some h) => [⟨.dc, h⟩]
  | .CloseHandle h => [⟨.event, h⟩]
  | .Delete p => [⟨.heapObject, p⟩]
  | .Release p => [⟨.com, p⟩]
  | _ => []

/-- The handles a call acquires. -/
def Call.acquired : Call → List Handle
  | .GetDC _ (some h) => [⟨.dc, h⟩]
  | .CreateCompatibleDC _ (some h) => [⟨.dc, h⟩]
  | .CreateCompatibleBitmap _ _ _ (some h) => [⟨.gdiObject, h⟩]
  | .CreateFontW _ (some h) => [⟨.gdiObject, h⟩]
  | .CreateDXGIFactory2 (some p) => [⟨.com, p⟩]
  | .EnumAdapters1 (some p) => [⟨.com, p⟩]
  | .D3D12CreateDevice (some p) => [⟨.com, p⟩]
  | .CreateCommandQueue (some p) => [⟨.com, p⟩]
  | .CreateSwapChainForHwnd _ _ _ (some p) => [⟨.com, p⟩]
  | .CreateDescriptorHeap (some p) => [⟨.com, p⟩]
  | .GetBuffer _ (some p) => [⟨.com, p⟩]
  | .CreateCommandAllocator (some p) => [⟨.com, p⟩]
  | .CreateCommandList (some p) => [⟨.com, p⟩]
  | .CreateFence _ (some p) => [⟨.com, p⟩]
  | .CreateEvent (some h) => [⟨.event, h⟩]
  | .NewGraphicsMemory (some p) => [⟨.heapObject, p⟩]
  | .NewSpriteFont _ (some p) => [⟨.heapObject, p⟩]
  | .NewSpriteBatch (some p) => [⟨.heapObject, p⟩]
  | _ => []

/-- The handles a call is given as arguments, other than the ones it releases.  The
recording calls of a frame carry no handle argument in this embedding. -/
def Call.used : Call → List Handle
  | .CreateCompatibleDC (some h) _ => [⟨.dc, h⟩]
  | .CreateCompatibleBitmap (some h) _ _ _ => [⟨.dc, h⟩]
  | .SelectObject dc obj =>
      (dc.map (Handle.mk .dc)).toList ++ (obj.map (Handle.mk .gdiObject)).toList
  | .GradientFill (some h) _ _ => [⟨.dc, h⟩]
  | .SetBkMode (some h) => [⟨.dc, h⟩]
  | .SetTextColor (some h) _ => [⟨.dc, h⟩]
  | .DrawTextW (some h) _ _ _ _ _ => [⟨.dc, h⟩]
  | .GetTextExtentPoint32W (some h) _ => [⟨.dc, h⟩]
  | .BitBlt dst _ _ src =>
      (dst.map (Handle.mk .dc)).toList ++ (src.map (Handle.mk .dc)).toList
  | .Signal queue fence _ => ⟨.com, queue⟩ :: (fence.map (Handle.mk .com)).toList
  | .GetCompletedValue fence _ => [⟨.com, fence⟩]
  | .SetEventOnCompletion fence _ event =>
      ⟨.com, fence⟩ :: (event.map (Handle.mk .event)).toList
  | .WaitForSingleObject (some h) => [⟨.event, h⟩]
  | .GetCurrentBackBufferIndex swapChain _ => [⟨.com, swapChain⟩]
  | .SetFullscreenState swapChain => [⟨.com, swapChain⟩]
  | _ => []

/-- The platform calls a method made, in order, and how the method ended. -/
structure Run (σ : Type) where
  calls : List Call
  out : Outcome σ
  deriving Repr

/-- Sequencing of two steps on the same object: the second runs only when the first
returned normally. -/
def Run.bind {σ : Type} (r : Run σ) (k : σ → Run σ) : Run σ :=
  match r.out with
  | .ok s => ⟨r.calls ++ (k s).calls, (k s).out⟩
  | .threw s w => ⟨r.calls, .threw s w⟩
  | .fault w => ⟨r.calls, .fault w⟩
  | .hung => ⟨r.calls, .hung⟩

/-- The same run seen on a larger state, as when a method of a concrete renderer is
called through `IRenderer`. -/
def Run.map {σ τ : Type} (f : σ → τ) (r : Run σ) : Run τ :=
  match r.out with
  | .ok s => ⟨r.calls, .ok (f s)⟩
  | .threw s w => ⟨r.calls, .threw (f s) w⟩
  | .fault w => ⟨r.calls, .fault w⟩
  | .hung => ⟨r.calls, .hung⟩

/-- A call that returns a value and leaves the object unchanged, followed by a step
that uses the value. -/
def Run.andThen {α σ : Type} (r : Run α) (s : σ) (k : α → Run σ) : Run σ :=
  match r.out with
  | .ok a => ⟨r.calls ++ (k a).calls, (k a).out⟩
  | .threw _ w => ⟨r.calls, .threw s w⟩
  | .fault w => ⟨r.calls, .fault w⟩
  | .hung => ⟨r.calls, .hung⟩

/-- The state a run returned with, when it returned normally. -/
def Run.state? {σ : Type} (r : Run σ) : Option σ :=
  match r.out with
  | .ok s => some s
  | _ => none

/-- What the text-measuring services of the platform report for a string drawn in a
font variant: `(width, height)`. -/
abbrev TextMetrics := FontVariant → String → ℚ × ℚ

/-- Conversion `(int)(x)` and `(LONG)(x)` of a `float`: truncation toward zero, the
"integer indefinite" value when the result does not fit 32 bits. -/
def toLONG (q : ℚ) : Int :=
  let t := truncToInt q
  if -(2 : Int) ^ 31 ≤ t ∧ t < (2 : Int) ^ 31 then t else -(2 : Int) ^ 31

/-! ## GDIRenderer -/

/-- Fields of `GDIRenderer` (GDIRenderer.h). -/
structure GDIRenderer where
  m_hwnd : Option Nat
  m_width : Nat
  m_height : Nat
  m_windowDC : Option Nat
  m_memoryDC : Option Nat
  m_memoryBitmap : Option Nat
  m_oldBitmap : Option Nat
  deriving DecidableEq, Repr

/-- What GDI answers to the creation calls of `GDIRenderer::Initialize`. -/
structure GDIPlatform where
  windowDC : Option Nat
  memoryDC : Option Nat
  memoryBitmap : Option Nat
  oldBitmap : Option Nat
  deriving DecidableEq, Repr

/-- What GDI answers during one `DrawText` or `MeasureText`: the font handle that
`CreateFontW` returns (taken to succeed), the font `SelectObject` reports as
previously selected, and the text extents of the platform. -/
structure GDIFontPlatform where
  font : Nat
  oldFont : Option Nat
  metrics : TextMetrics

namespace GDIRenderer

/-- The constructor `GDIRenderer::GDIRenderer()`. -/
def new : GDIRenderer :=
  { m_hwnd := none, m_width := 0, m_height := 0, m_windowDC := none, m_memoryDC := none,
    m_memoryBitmap := none, m_oldBitmap := none }

/-- The name `GDIRenderer::GetName` returns. -/
def GetName : String := "GDI Renderer"

/-- `GDIRenderer::Initialize`: no result of a creation call is checked. -/
def Initialize (s : GDIRenderer) (hwnd : Option Nat) (width height : Nat)
    (p : GDIPlatform) : Run GDIRenderer :=
  { calls :=
      [ .GetDC hwnd p.windowDC,
        .CreateCompatibleDC p.windowDC p.memoryDC,
        .CreateCompatibleBitmap p.windowDC width height p.memoryBitmap,
        .SelectObject p.memoryDC p.memoryBitmap ]
    out := .ok
      { s with
        m_hwnd := hwnd, m_width := width, m_height := height,
        m_windowDC := p.windowDC, m_memoryDC := p.memoryDC,
        m_memoryBitmap := p.memoryBitmap, m_oldBitmap := p.oldBitmap } }

/-- `GDIRenderer::BeginFrame`: nothing. -/
def BeginFrame (s : GDIRenderer) : Run GDIRenderer :=
  { calls := [], out := .ok s }

/-- The two gradient stops `GDIRenderer::Clear` computes: the colour itself and the
colour brightened by `1.3`, the latter capped at `1.0` by `std::min`. -/
def gradientStops (r g b : ℚ) : (Nat × Nat × Nat) × (Nat × Nat × Nat) :=
  ( (toCOLOR16 (r * 65535), toCOLOR16 (g * 65535), toCOLOR16 (b * 65535)),
    (toCOLOR16 (min 1 (r * (13 / 10)) * 65535), toCOLOR16 (min 1 (g * (13 / 10)) * 65535),
     toCOLOR16 (min 1 (b * (13 / 10)) * 65535)) )

/-- `GDIRenderer::Clear`. -/
def Clear (s : GDIRenderer) (r g b : ℚ) : Run GDIRenderer :=
  { calls := [ .GradientFill s.m_memoryDC (gradientStops r g b).1 (gradientStops r g b).2 ]
    out := .ok s }

/-- The font `GDIRenderer::DrawText` creates: `CreateFontW((int)fontSize, …,
bold ? FW_BOLD : FW_NORMAL, …, L"Arial")`. -/
def drawFont (fontSize : ℚ) (bold : Bool) : FontVariant :=
  { family := "Arial", size := toLONG fontSize, weight := if bold then FW_BOLD else FW_NORMAL }

/-- The font `GDIRenderer::MeasureText` creates: `CreateFontW((int)fontSize, …,
FW_NORMAL, …, L"Arial")`. -/
def measureFont (fontSize : ℚ) : FontVariant :=
  { family := "Arial", size := toLONG fontSize, weight := FW_NORMAL }

/-- `GDIRenderer::DrawText`. -/
def DrawText (s : GDIRenderer) (text : String) (x y fontSize r g b : ℚ) (bold : Bool)
    (p : GDIFontPlatform) : Run GDIRenderer :=
  { calls :=
      [ .SetBkMode s.m_memoryDC,
        .SetTextColor s.m_memoryDC (toBYTE (r * 255), toBYTE (g * 255), toBYTE (b * 255)),
        .CreateFontW (drawFont fontSize bold) (some p.font),
        .SelectObject s.m_memoryDC (some p.font),
        .DrawTextW s.m_memoryDC text (toLONG x) (toLONG y) s.m_width s.m_height,
        .SelectObject s.m_memoryDC p.oldFont,
        .DeleteObject (some p.font) ]
    out := .ok s }

/-- `GDIRenderer::MeasureText`: the extents of the text in the font selected into the
memory device context; the renderer is unchanged. -/
def MeasureText (s : GDIRenderer) (text : String) (fontSize : ℚ)
    (p : GDIFontPlatform) : Run (ℚ × ℚ) :=
  { calls :=
      [ .CreateFontW (measureFont fontSize) (some p.font),
        .SelectObject s.m_memoryDC (some p.font),
        .GetTextExtentPoint32W s.m_memoryDC text,
        .SelectObject s.m_memoryDC p.oldFont,
        .DeleteObject (some p.font) ]
    out := .ok (p.metrics (measureFont fontSize) text) }

/-- `GDIRenderer::EndFrame`. -/
def EndFrame (s : GDIRenderer) : Run GDIRenderer :=
  { calls := [ .BitBlt s.m_windowDC s.m_width s.m_height s.m_memoryDC ], out := .ok s }

/-- `GDIRenderer::OnDestroy`. -/
def OnDestroy (s : GDIRenderer) : Run GDIRenderer :=
  let c1 : List Call :=
    match s.m_memoryDC with
    | some dc => [ .SelectObject (some dc) s.m_oldBitmap, .DeleteObject s.m_memoryBitmap,
                   .DeleteDC (some dc) ]
    | none => []
  let s1 : GDIRenderer :=
    match s.m_memoryDC with
    | some _ => { s with m_memoryDC := none }
    | none => s
  let c2 : List Call :=
    match s1.m_windowDC with
    | some dc => [ .ReleaseDC s1.m_hwnd (some dc) ]
    | none => []
  let s2 : GDIRenderer :=
    match s1.m_windowDC with
    | some _ => { s1 with m_windowDC := none }
    | none => s1
  { calls := c1 ++ c2, out := .ok s2 }

/-- The destructor `GDIRenderer::~GDIRenderer`: `OnDestroy()`; the members are plain
handles and destroy nothing. -/
def destroy (s : GDIRenderer) : Run GDIRenderer :=
  s.OnDestroy

end GDIRenderer

/-! ## DX12Renderer -/

/-- Work submitted to the command queue. -/
inductive GpuOp where
  | upload
  | execute
  | present
  | signal (value : Nat)
  | commit
  deriving DecidableEq, Repr

/-- A transition barrier as recorded, together with the state the image really was in
when the barrier was recorded (`none` when there is no such image). -/
structure BarrierRecord where
  image : Nat
  before : ResourceState
  after : ResourceState
  actual : Option ResourceState
  deriving DecidableEq, Repr

/-- The platform side of the objects a `DX12Renderer` owns: the swap chain's current
back buffer, the barrier state of each swap-chain image (as of the commands recorded so
far), the completed value of the fence, the queue's work not yet retired by the GPU,
whether the sprite batch is between `Begin` and `End`, and the barriers recorded. -/
structure Gpu where
  backBuffer : Nat
  bufferState : List ResourceState
  fenceCompleted : Nat
  pending : List GpuOp
  batchOpen : Bool
  barriers : List BarrierRecord
  deriving DecidableEq, Repr

/-- A `DirectX::SpriteFont` loaded from a `.spritefont` file: a font variant baked at
build time. -/
structure SpriteFont where
  ptr : Nat
  variant : FontVariant
  deriving DecidableEq, Repr

/-- The variant baked into `arial24.spritefont` ("Small font (24pt)"). -/
def bodyVariant : FontVariant := { family := "Arial", size := 24, weight := FW_NORMAL }

/-- The variant baked into `arial120.spritefont` ("Large font (120pt bold)"). -/
def displayVariant : FontVariant := { family := "Arial", size := 120, weight := FW_BOLD }

/-- Fields of `DX12Renderer` (DX12Renderer.h), and the platform side `gpu` of the
objects they point to. -/
structure DX12Renderer where
  m_device : Option Nat
  m_commandQueue : Option Nat
  m_swapChain : Option Nat
  m_rtvHeap : Option Nat
  m_renderTargets : List (Option Nat)
  m_commandAllocator : Option Nat
  m_commandList : Option Nat
  m_frameIndex : Nat
  m_fenceEvent : Option Nat
  m_fence : Option Nat
  m_fenceValue : Nat
  m_viewport : ℚ × ℚ × ℚ
  m_scissorRect : Int × Int
  m_rtvDescriptorSize : Nat
  m_graphicsMemory : Option Nat
  m_spriteBatch : Option Nat
  m_font : Option SpriteFont
  m_largeFont : Option SpriteFont
  m_fontHeap : Option Nat
  m_hwnd : Option Nat
  m_width : Nat
  m_height : Nat
  gpu : Gpu
  deriving DecidableEq, Repr

/-- What the platform answers to the creation calls of `DX12Renderer::Initialize`
(`none`: the call fails, or the constructor throws), and whether the font upload
submitted by `ResourceUploadBatch::End` ever completes. -/
structure DX12Platform where
  factory : Option Nat
  adapter : Option Nat
  device : Option Nat
  commandQueue : Option Nat
  swapChain : Option Nat
  rtvHeap : Option Nat
  rtvDescriptorSize : Nat
  buffers : List (Option Nat)
  commandAllocator : Option Nat
  commandList : Option Nat
  fence : Option Nat
  fenceEvent : Option Nat
  fontHeap : Option Nat
  graphicsMemory : Option Nat
  font : Option Nat
  largeFont : Option Nat
  spriteBatch : Option Nat
  uploadCompletes : Bool
  deriving DecidableEq, Repr

/-- How far the GPU has got when `WaitForPreviousFrame` polls the fence: the number of
queued operations it has retired since the last poll, and whether it goes on to retire
the rest (a removed or hung device does not). -/
structure GpuPace where
  retired : Nat
  responsive : Bool
  deriving DecidableEq, Repr

/-- The GPU retires the oldest pending operation; a retired `Signal` sets the fence. -/
def Gpu.retireOne (g : Gpu) : Gpu :=
  match g.pending with
  | [] => g
  | .signal v :: rest => { g with fenceCompleted := v, pending := rest }
  | _ :: rest => { g with pending := rest }

/-- The GPU retires the `k` oldest pending operations. -/
def Gpu.retire (g : Gpu) : Nat → Gpu
  | 0 => g
  | k + 1 => (g.retireOne).retire k

/-- The GPU retires pending operations, oldest first, until the fence has reached
`value`: what is then still pending and the completed value.  `none` when the fence
never reaches `value`. -/
def waitFence (value : Nat) : List GpuOp → Nat → Option (List GpuOp × Nat)
  | [], c => if value ≤ c then some ([], c) else none
  | op :: rest, c =>
      if value ≤ c then some (op :: rest, c)
      else waitFence value rest (match op with
        | .signal v => v
        | _ => c)

namespace DX12Renderer

/-- The constant `FRAME_COUNT`. -/
def FRAME_COUNT : Nat := 2

/-- The name `DX12Renderer::GetName` returns. -/
def GetName : String := "DirectX 12 Renderer"

/-- The constructor `DX12Renderer::DX12Renderer()`: every pointer empty, every number
zero. -/
def new : DX12Renderer :=
  { m_device := none, m_commandQueue := none, m_swapChain := none, m_rtvHeap := none,
    m_renderTargets := List.replicate FRAME_COUNT none,
    m_commandAllocator := none, m_commandList := none, m_frameIndex := 0,
    m_fenceEvent := none, m_fence := none, m_fenceValue := 0,
    m_viewport := (0, 0, 0), m_scissorRect := (0, 0), m_rtvDescriptorSize := 0,
    m_graphicsMemory := none, m_spriteBatch := none, m_font := none, m_largeFont := none,
    m_fontHeap := none, m_hwnd := none, m_width := 0, m_height := 0,
    gpu := { backBuffer := 0, bufferState := [], fenceCompleted := 0, pending := [],
             batchOpen := false, barriers := [] } }

/-- `DX12Renderer::LoadPipeline`.  `CHECK_HR` throws `std::runtime_error`; the results
of the other creation calls are not checked.  The local `ComPtr`s are released when the
scope is left; the reference of the local `swapChain` passes to `m_swapChain`.  A new
swap chain starts at back buffer 0 with every image in the `PRESENT` state. -/
def LoadPipeline (s : DX12Renderer) (hwnd : Option Nat) (p : DX12Platform) : Run DX12Renderer :=
  -- hr = CreateDXGIFactory2(…, &factory); CHECK_HR(hr, "Failed to create DXGI factory");
  match p.factory with
  | none => { calls := [.CreateDXGIFactory2 none], out := .threw s "Failed to create DXGI factory" }
  | some factory =>
  -- hr = factory->EnumAdapters1(0, &hardwareAdapter); CHECK_HR(hr, "Failed to enumerate adapters");
  match p.adapter with
  | none =>
    { calls := [.CreateDXGIFactory2 (some factory), .EnumAdapters1 none, .Release factory]
      out := .threw s "Failed to enumerate adapters" }
  | some adapter =>
  let c2 : List Call := [.CreateDXGIFactory2 (some factory), .EnumAdapters1 (some adapter)]
  -- hr = D3D12CreateDevice(…, &m_device); CHECK_HR(hr, "Failed to create D3D12 device");
  let s3 : DX12Renderer := { s with m_device := p.device }
  match p.device with
  | none =>
    { calls := c2 ++ [.D3D12CreateDevice none, .Release adapter, .Release factory]
      out := .threw s3 "Failed to create D3D12 device" }
  | some device =>
  let c3 : List Call := c2 ++ [.D3D12CreateDevice (some device)]
  -- hr = m_device->CreateCommandQueue(…, &m_commandQueue); CHECK_HR(hr, "Failed to create command queue");
  let s4 : DX12Renderer := { s3 with m_commandQueue := p.commandQueue }
  match p.commandQueue with
  | none =>
    { calls := c3 ++ [.CreateCommandQueue none, .Release adapter, .Release factory]
      out := .threw s4 "Failed to create command queue" }
  | some queue =>
  -- factory->CreateSwapChainForHwnd(m_commandQueue.Get(), hwnd, &swapChainDesc, …, &swapChain);
  -- factory->MakeWindowAssociation(hwnd, DXGI_MWA_NO_ALT_ENTER);
  let c5 : List Call :=
    c3 ++ [.CreateCommandQueue (some queue),
           .CreateSwapChainForHwnd hwnd s.m_width s.m_height p.swapChain,
           .MakeWindowAssociation hwnd]
  -- swapChain.As(&m_swapChain);
  match p.swapChain with
  | none => { calls := c5, out := .fault "swapChain" }
  | some sc =>
  let g6 : Gpu :=
    { s4.gpu with backBuffer := 0, bufferState := List.replicate FRAME_COUNT .PRESENT }
  -- m_frameIndex = m_swapChain->GetCurrentBackBufferIndex();
  let s6 : DX12Renderer :=
    { s4 with m_swapChain := some sc, gpu := g6, m_frameIndex := g6.backBuffer }
  -- m_device->CreateDescriptorHeap(&rtvHeapDesc, IID_PPV_ARGS(&m_rtvHeap));
  -- m_rtvDescriptorSize = m_device->GetDescriptorHandleIncrementSize(…);
  let s7 : DX12Renderer :=
    { s6 with m_rtvHeap := p.rtvHeap, m_rtvDescriptorSize := p.rtvDescriptorSize }
  let c7 : List Call :=
    c5 ++ [.GetCurrentBackBufferIndex sc g6.backBuffer, .CreateDescriptorHeap p.rtvHeap]
  -- rtvHandle(m_rtvHeap->GetCPUDescriptorHandleForHeapStart());
  match p.rtvHeap with
  | none => { calls := c7, out := .fault "m_rtvHeap" }
  | some _ =>
  -- for (n < FRAME_COUNT) { m_swapChain->GetBuffer(n, &m_renderTargets[n]);
  --                         m_device->CreateRenderTargetView(m_renderTargets[n].Get(), …); }
  let targets : List (Option Nat) := (List.range FRAME_COUNT).map fun n => (p.buffers.get? n).join
  let c8 : List Call :=
    c7 ++ (List.range FRAME_COUNT).flatMap fun n =>
      [.GetBuffer n (p.buffers.get? n).join, .CreateRenderTargetView (p.buffers.get? n).join]
  -- m_device->CreateCommandAllocator(…, IID_PPV_ARGS(&m_commandAllocator));
  { calls := c8 ++ [.CreateCommandAllocator p.commandAllocator, .Release adapter, .Release factory]
    out := .ok { s7 with m_renderTargets := targets, m_commandAllocator := p.commandAllocator } }

/-- `DX12Renderer::LoadAssets`.  No result is checked; `CreateCommandList` fails when
it is given no allocator. -/
def LoadAssets (s : DX12Renderer) (p : DX12Platform) : Run DX12Renderer :=
  -- m_device->CreateCommandList(0, …, m_commandAllocator.Get(), nullptr, IID_PPV_ARGS(&m_commandList));
  match s.m_device with
  | none => { calls := [], out := .fault "m_device" }
  | some _ =>
  let list : Option Nat := s.m_commandAllocator.bind fun _ => p.commandList
  -- m_commandList->Close();
  match list with
  | none =>
    { calls := [.CreateCommandList none], out := .fault "m_commandList" }
  | some l =>
  -- m_device->CreateFence(0, …, IID_PPV_ARGS(&m_fence)); m_fenceValue = 1;
  -- m_fenceEvent = CreateEvent(nullptr, FALSE, FALSE, nullptr);
  { calls := [.CreateCommandList (some l), .CommandListClose, .CreateFence 0 p.fence,
              .CreateEvent p.fenceEvent]
    out := .ok { s with
      m_commandList := some l, m_fence := p.fence, m_fenceValue := 1,
      m_fenceEvent := p.fenceEvent, gpu := { s.gpu with fenceCompleted := 0 } } }

/-- `DX12Renderer::InitializeSpriteBatch`.  The DirectXTK12 constructors throw when they
fail; the font upload is submitted to the queue and waited for. -/
def InitializeSpriteBatch (s : DX12Renderer) (p : DX12Platform) : Run DX12Renderer :=
  -- HRESULT hr = m_device->CreateDescriptorHeap(&heapDesc, IID_PPV_ARGS(&m_fontHeap));
  match s.m_device with
  | none => { calls := [], out := .fault "m_device" }
  | some _ =>
  let s1 : DX12Renderer := { s with m_fontHeap := p.fontHeap }
  -- CHECK_HR(hr, "Failed to create font descriptor heap");
  match p.fontHeap with
  | none =>
    { calls := [.CreateDescriptorHeap none], out := .threw s1 "Failed to create font descriptor heap" }
  | some heap =>
  let c1 : List Call := [.CreateDescriptorHeap (some heap)]
  -- m_graphicsMemory = std::make_unique<GraphicsMemory>(m_device.Get());
  match p.graphicsMemory with
  | none => { calls := c1 ++ [.NewGraphicsMemory none], out := .threw s1 "GraphicsMemory" }
  | some gm =>
  let s2 : DX12Renderer := { s1 with m_graphicsMemory := some gm }
  -- ResourceUploadBatch resourceUpload(m_device.Get()); resourceUpload.Begin();
  let c2 : List Call := c1 ++ [.NewGraphicsMemory (some gm), .ResourceUploadBegin]
  -- m_font = std::make_unique<SpriteFont>(…, L"arial24.spritefont", …);
  match p.font with
  | none =>
    { calls := c2 ++ [.NewSpriteFont "arial24.spritefont" none]
      out := .threw s2 "arial24.spritefont" }
  | some f =>
  let s3 : DX12Renderer := { s2 with m_font := some { ptr := f, variant := bodyVariant } }
  let c3 : List Call := c2 ++ [.NewSpriteFont "arial24.spritefont" (some f)]
  -- m_largeFont = std::make_unique<SpriteFont>(…, L"arial120.spritefont", …);
  match p.largeFont with
  | none =>
    { calls := c3 ++ [.NewSpriteFont "arial120.spritefont" none]
      out := .threw s3 "arial120.spritefont" }
  | some lf =>
  let s4 : DX12Renderer := { s3 with m_largeFont := some { ptr := lf, variant := displayVariant } }
  let c4 : List Call := c3 ++ [.NewSpriteFont "arial120.spritefont" (some lf)]
  -- m_spriteBatch = std::make_unique<SpriteBatch>(m_device.Get(), resourceUpload, pd, &m_viewport);
  match p.spriteBatch with
  | none => { calls := c4 ++ [.NewSpriteBatch none], out := .threw s4 "SpriteBatch" }
  | some sb =>
  let s5 : DX12Renderer := { s4 with m_spriteBatch := some sb }
  let c5 : List Call := c4 ++ [.NewSpriteBatch (some sb), .ResourceUploadEnd]
  -- auto uploadResourcesFinished = resourceUpload.End(m_commandQueue.Get());
  -- uploadResourcesFinished.wait();
  let g6 : Gpu := { s5.gpu with pending := s5.gpu.pending ++ [.upload] }
  if p.uploadCompletes then
    { calls := c5, out := .ok { s5 with gpu := g6.retire g6.pending.length } }
  else
    { calls := c5, out := .hung }

/-- `DX12Renderer::Initialize`.  The `catch` block logs and rethrows, so an exception
leaves the object as it was when the exception was thrown. -/
def Initialize (s : DX12Renderer) (hwnd : Option Nat) (width height : Nat)
    (p : DX12Platform) : Run DX12Renderer :=
  let s0 : DX12Renderer :=
    { s with
      m_hwnd := hwnd, m_width := width, m_height := height,
      m_viewport := ((width : ℚ), (height : ℚ), 1),
      m_scissorRect := ((width : Int), (height : Int)) }
  ((LoadPipeline s0 hwnd p).bind fun s1 => LoadAssets s1 p).bind fun s2 =>
    InitializeSpriteBatch s2 p

/-- `DX12Renderer::WaitForPreviousFrame`. -/
def WaitForPreviousFrame (s : DX12Renderer) (pace : GpuPace) : Run DX12Renderer :=
  -- const UINT64 fence = m_fenceValue;
  let fence := s.m_fenceValue
  -- m_commandQueue->Signal(m_fence.Get(), fence);
  match s.m_commandQueue with
  | none => { calls := [], out := .fault "m_commandQueue" }
  | some queue =>
    let c1 : List Call := [ .Signal queue s.m_fence fence ]
    let g1 : Gpu :=
      match s.m_fence with
      | some _ => { s.gpu with pending := s.gpu.pending ++ [.signal fence] }
      | none => s.gpu
    -- m_fenceValue++;
    let s1 : DX12Renderer := { s with m_fenceValue := (s.m_fenceValue + 1) % 2 ^ 64, gpu := g1 }
    -- if (m_fence->GetCompletedValue() < fence)
    match s1.m_fence with
    | none => { calls := c1, out := .fault "m_fence" }
    | some f =>
      let g2 : Gpu := g1.retire pace.retired
      let c2 : List Call := c1 ++ [ .GetCompletedValue f g2.fenceCompleted ]
      let waited : Run DX12Renderer :=
        if g2.fenceCompleted < fence then
          -- m_fence->SetEventOnCompletion(fence, m_fenceEvent);
          -- WaitForSingleObject(m_fenceEvent, INFINITE);
          let c3 : List Call :=
            c2 ++ [ .SetEventOnCompletion f fence s1.m_fenceEvent,
                    .WaitForSingleObject s1.m_fenceEvent ]
          if pace.responsive then
            match waitFence fence g2.pending g2.fenceCompleted with
            | some (rest, done) =>
                { calls := c3
                  out := .ok { s1 with gpu := { g2 with pending := rest, fenceCompleted := done } } }
            | none => { calls := c3, out := .hung }
          else { calls := c3, out := .hung }
        else { calls := c2, out := .ok { s1 with gpu := g2 } }
      waited.bind fun s2 =>
        -- m_frameIndex = m_swapChain->GetCurrentBackBufferIndex();
        match s2.m_swapChain with
        | none => { calls := [], out := .fault "m_swapChain" }
        | some sc =>
          { calls := [ .GetCurrentBackBufferIndex sc s2.gpu.backBuffer ]
            out := .ok { s2 with m_frameIndex := s2.gpu.backBuffer } }

/-- Recording of a transition barrier on `m_renderTargets[m_frameIndex]`: the image
moves to the declared after-state, and the barrier is logged with the state the image
was in. -/
def recordBarrier (g : Gpu) (image : Nat) (before after : ResourceState) : Gpu :=
  { g with
    bufferState := g.bufferState.set image after
    barriers := g.barriers ++
      [{ image := image, before := before, after := after,
         actual := g.bufferState.get? image }] }

/-- `DX12Renderer::BeginFrame`. -/
def BeginFrame (s : DX12Renderer) : Run DX12Renderer :=
  -- m_commandAllocator->Reset();
  match s.m_commandAllocator with
  | none => { calls := [], out := .fault "m_commandAllocator" }
  | some _ =>
  -- m_commandList->Reset(m_commandAllocator.Get(), nullptr);
  match s.m_commandList with
  | none => { calls := [.AllocatorReset], out := .fault "m_commandList" }
  | some _ =>
  -- barrier.Transition.pResource = m_renderTargets[m_frameIndex].Get();
  match s.m_renderTargets.get? s.m_frameIndex with
  | none => { calls := [.AllocatorReset, .CommandListReset], out := .fault "m_renderTargets[m_frameIndex]" }
  | some none => { calls := [.AllocatorReset, .CommandListReset], out := .fault "barrier.Transition.pResource" }
  | some (some _) =>
  -- m_commandList->ResourceBarrier(1, &barrier);
  let g1 := recordBarrier s.gpu s.m_frameIndex .PRESENT .RENDER_TARGET
  let c1 : List Call :=
    [ .AllocatorReset, .CommandListReset, .ResourceBarrier s.m_frameIndex .PRESENT .RENDER_TARGET ]
  -- rtvHandle(m_rtvHeap->GetCPUDescriptorHandleForHeapStart());
  match s.m_rtvHeap with
  | none => { calls := c1, out := .fault "m_rtvHeap" }
  | some _ =>
  -- m_commandList->OMSetRenderTargets(1, &rtvHandle, FALSE, nullptr);
  { calls := c1 ++ [ .OMSetRenderTargets s.m_frameIndex ], out := .ok { s with gpu := g1 } }

/-- `DX12Renderer::Clear`. -/
def Clear (s : DX12Renderer) (r g b : ℚ) : Run DX12Renderer :=
  -- rtvHandle(m_rtvHeap->GetCPUDescriptorHandleForHeapStart());
  match s.m_rtvHeap with
  | none => { calls := [], out := .fault "m_rtvHeap" }
  | some _ =>
  -- m_commandList->ClearRenderTargetView(rtvHandle, clearColor, 0, nullptr); …
  match s.m_commandList with
  | none => { calls := [], out := .fault "m_commandList" }
  | some _ =>
  let c1 : List Call :=
    [ .ClearRenderTargetView s.m_frameIndex (r, g, b, 1), .RSSetViewports, .RSSetScissorRects,
      .SetDescriptorHeaps ]
  -- m_spriteBatch->Begin(m_commandList.Get());
  match s.m_spriteBatch with
  | none => { calls := c1, out := .fault "m_spriteBatch" }
  | some _ =>
    if s.gpu.batchOpen then
      { calls := c1 ++ [.SpriteBatchBegin]
        out := .threw s "Cannot nest Begin calls on a single SpriteBatch" }
    else
      { calls := c1 ++ [.SpriteBatchBegin]
        out := .ok { s with gpu := { s.gpu with batchOpen := true } } }

/-- The font both `DX12Renderer::DrawText` and `DX12Renderer::MeasureText` choose:
`(fontSize > 60.0f) ? m_largeFont.get() : m_font.get()`. -/
def chooseFont (s : DX12Renderer) (fontSize : ℚ) : Option SpriteFont :=
  if fontSize > 60 then s.m_largeFont else s.m_font

/-- `DX12Renderer::DrawText`; `bold` is not looked at. -/
def DrawText (s : DX12Renderer) (text : String) (x y fontSize r g b : ℚ) (_bold : Bool) :
    Run DX12Renderer :=
  -- DirectX::SpriteFont* font = (fontSize > 60.0f) ? m_largeFont.get() : m_font.get();
  -- font->DrawString(m_spriteBatch.get(), text, XMFLOAT2(x, y), color);
  match s.chooseFont fontSize with
  | none => { calls := [], out := .fault "font" }
  | some font =>
    match s.m_spriteBatch with
    | none => { calls := [], out := .fault "m_spriteBatch" }
    | some _ =>
      if s.gpu.batchOpen then
        { calls := [ .DrawString font.variant text x y (r, g, b, 1) ], out := .ok s }
      else
        { calls := [ .DrawString font.variant text x y (r, g, b, 1) ]
          out := .threw s "Begin must be called before Draw" }

/-- `DX12Renderer::MeasureText`: the size `font->MeasureString(text)` reports. -/
def MeasureText (s : DX12Renderer) (text : String) (fontSize : ℚ) (metrics : TextMetrics) :
    Run (ℚ × ℚ) :=
  match s.chooseFont fontSize with
  | none => { calls := [], out := .fault "font" }
  | some font =>
    { calls := [ .MeasureString font.variant text ], out := .ok (metrics font.variant text) }

/-- `DX12Renderer::EndFrame`. -/
def EndFrame (s : DX12Renderer) (pace : GpuPace) : Run DX12Renderer :=
  -- m_spriteBatch->End();
  match s.m_spriteBatch with
  | none => { calls := [], out := .fault "m_spriteBatch" }
  | some _ =>
  if !s.gpu.batchOpen then
    { calls := [.SpriteBatchEnd], out := .threw s "Begin must be called before End" }
  else
  -- barrier.Transition.pResource = m_renderTargets[m_frameIndex].Get();
  match s.m_renderTargets.get? s.m_frameIndex with
  | none => { calls := [.SpriteBatchEnd], out := .fault "m_renderTargets[m_frameIndex]" }
  | some target =>
  -- m_commandList->ResourceBarrier(1, &barrier); m_commandList->Close();
  match s.m_commandList with
  | none => { calls := [.SpriteBatchEnd], out := .fault "m_commandList" }
  | some _ =>
  match target with
  | none => { calls := [.SpriteBatchEnd], out := .fault "barrier.Transition.pResource" }
  | some _ =>
  let g1 := recordBarrier { s.gpu with batchOpen := false } s.m_frameIndex .RENDER_TARGET .PRESENT
  let c1 : List Call :=
    [ .SpriteBatchEnd, .ResourceBarrier s.m_frameIndex .RENDER_TARGET .PRESENT, .CommandListClose ]
  -- m_commandQueue->ExecuteCommandLists(_countof(ppCommandLists), ppCommandLists);
  match s.m_commandQueue with
  | none => { calls := c1, out := .fault "m_commandQueue" }
  | some _ =>
  -- m_swapChain->Present(1, 0);
  match s.m_swapChain with
  | none => { calls := c1 ++ [.ExecuteCommandLists], out := .fault "m_swapChain" }
  | some _ =>
  let g2 : Gpu :=
    { g1 with
      pending := g1.pending ++ [.execute, .present]
      backBuffer := (g1.backBuffer + 1) % FRAME_COUNT }
  let submitted : Run DX12Renderer :=
    { calls := c1 ++ [.ExecuteCommandLists, .Present], out := .ok { s with gpu := g2 } }
  -- WaitForPreviousFrame();
  (submitted.bind fun s1 => s1.WaitForPreviousFrame pace).bind fun s2 =>
    -- m_graphicsMemory->Commit(m_commandQueue.Get());
    match s2.m_graphicsMemory with
    | none => { calls := [], out := .fault "m_graphicsMemory" }
    | some _ =>
      { calls := [.GraphicsMemoryCommit]
        out := .ok { s2 with gpu := { s2.gpu with pending := s2.gpu.pending ++ [.commit] } } }

/-- `DX12Renderer::OnDestroy`. -/
def OnDestroy (s : DX12Renderer) (pace : GpuPace) : Run DX12Renderer :=
  -- if (m_device) WaitForPreviousFrame();
  let waited : Run DX12Renderer :=
    match s.m_device with
    | some _ => s.WaitForPreviousFrame pace
    | none => { calls := [], out := .ok s }
  waited.bind fun s1 =>
    -- if (m_swapChain) m_swapChain->SetFullscreenState(FALSE, nullptr);
    let c1 : List Call :=
      match s1.m_swapChain with
      | some sc => [.SetFullscreenState sc]
      | none => []
    -- if (m_fenceEvent) { CloseHandle(m_fenceEvent); m_fenceEvent = nullptr; }
    let c2 : List Call :=
      match s1.m_fenceEvent with
      | some h => [.CloseHandle h]
      | none => []
    -- m_spriteBatch.reset(); m_font.reset(); m_largeFont.reset(); m_graphicsMemory.reset();
    let c3 : List Call :=
      (s1.m_spriteBatch.map Call.Delete).toList ++
      (s1.m_font.map fun f => Call.Delete f.ptr).toList ++
      (s1.m_largeFont.map fun f => Call.Delete f.ptr).toList ++
      (s1.m_graphicsMemory.map Call.Delete).toList
    { calls := c1 ++ c2 ++ c3
      out := .ok { s1 with
        m_fenceEvent := none, m_spriteBatch := none, m_font := none, m_largeFont := none,
        m_graphicsMemory := none } }

/-- The references the `ComPtr` members still hold are dropped when the object is
destroyed, in reverse order of declaration. -/
def memberReleases (s : DX12Renderer) : List Call :=
  (s.m_fontHeap.map Call.Release).toList ++
  (s.m_largeFont.map fun f => Call.Delete f.ptr).toList ++
  (s.m_font.map fun f => Call.Delete f.ptr).toList ++
  (s.m_spriteBatch.map Call.Delete).toList ++
  (s.m_graphicsMemory.map Call.Delete).toList ++
  (s.m_fence.map Call.Release).toList ++
  (s.m_commandList.map Call.Release).toList ++
  (s.m_commandAllocator.map Call.Release).toList ++
  (s.m_renderTargets.reverse.filterMap fun p => p.map Call.Release) ++
  (s.m_rtvHeap.map Call.Release).toList ++
  (s.m_swapChain.map Call.Release).toList ++
  (s.m_commandQueue.map Call.Release).toList ++
  (s.m_device.map Call.Release).toList

/-- The destructor `DX12Renderer::~DX12Renderer`: `OnDestroy()`, then the members are
destroyed. -/
def destroy (s : DX12Renderer) (pace : GpuPace) : Run DX12Renderer :=
  (s.OnDestroy pace).bind fun s1 =>
    { calls := memberReleases s1
      out := .ok { s1 with
        m_fontHeap := none, m_largeFont := none, m_font := none, m_spriteBatch := none,
        m_graphicsMemory := none, m_fence := none, m_commandList := none,
        m_commandAllocator := none, m_renderTargets := s1.m_renderTargets.map fun _ => none,
        m_rtvHeap := none, m_swapChain := none, m_commandQueue := none, m_device := none } }

end DX12Renderer

/-! ## IRenderer and Engine -/

/-- The two implementations of `IRenderer`. -/
inductive Renderer where
  | gdi (r : GDIRenderer)
  | dx12 (r : DX12Renderer)
  deriving DecidableEq, Repr

/-- A non-empty `std::unique_ptr<IRenderer>`: the address of the object and the
object. -/
structure RendererPtr where
  addr : Nat
  obj : Renderer
  deriving DecidableEq, Repr

/-- What the platform answers during one call of an `Engine` method: the creation
results for either kind of renderer, the GDI font services, the text extents of the
sprite fonts, and the pace of the GPU at the first and at the second fence poll of the
call. -/
structure Platform where
  gdi : GDIPlatform
  dx12 : DX12Platform
  gdiFont : GDIFontPlatform
  spriteMetrics : TextMetrics
  pace1 : GpuPace
  pace2 : GpuPace

namespace Renderer

/-- `IRenderer::GetName`. -/
def GetName : Renderer → String
  | .gdi _ => GDIRenderer.GetName
  | .dx12 _ => DX12Renderer.GetName

/-- `IRenderer::Initialize`. -/
def Initialize (r : Renderer) (hwnd : Option Nat) (width height : Nat) (p : Platform) :
    Run Renderer :=
  match r with
  | .gdi g => (g.Initialize hwnd width height p.gdi).map .gdi
  | .dx12 d => (d.Initialize hwnd width height p.dx12).map .dx12

/-- `IRenderer::BeginFrame`. -/
def BeginFrame : Renderer → Run Renderer
  | .gdi g => g.BeginFrame.map .gdi
  | .dx12 d => d.BeginFrame.map .dx12

/-- `IRenderer::Clear`. -/
def Clear (rd : Renderer) (r g b : ℚ) : Run Renderer :=
  match rd with
  | .gdi s => (s.Clear r g b).map .gdi
  | .dx12 d => (d.Clear r g b).map .dx12

/-- `IRenderer::DrawText`. -/
def DrawText (rd : Renderer) (text : String) (x y fontSize r g b : ℚ) (bold : Bool)
    (p : Platform) : Run Renderer :=
  match rd with
  | .gdi s => (s.DrawText text x y fontSize r g b bold p.gdiFont).map .gdi
  | .dx12 d => (d.DrawText text x y fontSize r g b bold).map .dx12

/-- `IRenderer::MeasureText`. -/
def MeasureText (rd : Renderer) (text : String) (fontSize : ℚ) (p : Platform) : Run (ℚ × ℚ) :=
  match rd with
  | .gdi s => s.MeasureText text fontSize p.gdiFont
  | .dx12 d => d.MeasureText text fontSize p.spriteMetrics

/-- `IRenderer::EndFrame`. -/
def EndFrame (rd : Renderer) (pace : GpuPace) : Run Renderer :=
  match rd with
  | .gdi s => s.EndFrame.map .gdi
  | .dx12 d => (d.EndFrame pace).map .dx12

/-- `IRenderer::OnDestroy`. -/
def OnDestroy (rd : Renderer) (pace : GpuPace) : Run Renderer :=
  match rd with
  | .gdi s => s.OnDestroy.map .gdi
  | .dx12 d => (d.OnDestroy pace).map .dx12

/-- The virtual destructor `IRenderer::~IRenderer`, run by `delete`. -/
def destroy (rd : Renderer) (pace : GpuPace) : Run Renderer :=
  match rd with
  | .gdi s => s.destroy.map .gdi
  | .dx12 d => (d.destroy pace).map .dx12

end Renderer

/-- What an `Engine` method does, as seen from outside: the `IRenderer` methods whose
calls start or end the life of a renderer (with the address of the renderer), the
platform calls each renderer makes, and the window calls of the engine itself. -/
inductive Event where
  | Initialize (renderer : Nat) (hwnd : Option Nat) (width height : Nat)
  | OnDestroy (renderer : Nat)
  | destructor (renderer : Nat)
  | platform (renderer : Nat) (c : Call)
  | InvalidateRect (hwnd : Option Nat)
  | UpdateWindow (hwnd : Option Nat)
  | SetWindowTextW (hwnd : Option Nat) (title : String)
  deriving Repr

/-- Fields of `Engine` (Engine.h); the random engine and the clock are left out. -/
structure Engine where
  m_hwnd : Option Nat
  m_width : Nat
  m_height : Nat
  m_renderer : Option RendererPtr
  m_randomNumber : Int
  deriving DecidableEq, Repr

/-- The events of an `Engine` method, in order, and how the method ended. -/
structure EngineRun where
  events : List Event
  out : Outcome Engine
  deriving Repr

/-- Sequencing of two steps of an `Engine` method. -/
def EngineRun.bind (r : EngineRun) (k : Engine → EngineRun) : EngineRun :=
  match r.out with
  | .ok e => ⟨r.events ++ (k e).events, (k e).out⟩
  | .threw e w => ⟨r.events, .threw e w⟩
  | .fault w => ⟨r.events, .fault w⟩
  | .hung => ⟨r.events, .hung⟩

namespace Engine

/-- A call of a method of the renderer at `ptr`, made by the engine `e`: the event
`call` of the method itself, then the platform calls of the renderer; the engine sees
the renderer in the state the method left it in. -/
def invoke (e : Engine) (ptr : RendererPtr) (call : List Event) (r : Run Renderer) :
    EngineRun :=
  let events := call ++ r.calls.map (Event.platform ptr.addr)
  match r.out with
  | .ok s => ⟨events, .ok { e with m_renderer := some { ptr with obj := s } }⟩
  | .threw s w => ⟨events, .threw { e with m_renderer := some { ptr with obj := s } } w⟩
  | .fault w => ⟨events, .fault w⟩
  | .hung => ⟨events, .hung⟩

/-- `Engine::GetRendererName`. -/
def GetRendererName (e : Engine) : String :=
  match e.m_renderer with
  | some ptr => ptr.obj.GetName
  | none => "No Renderer"

/-- `Engine::UpdateRandomNumber`; `draw` is the value the distribution over
`[0, 9999]` yields. -/
def UpdateRandomNumber (e : Engine) (draw : Fin 10000) : EngineRun :=
  let e1 : Engine := { e with m_randomNumber := (draw.val : Int) }
  match e1.m_hwnd with
  | some _ =>
    { events := [ .SetWindowTextW e1.m_hwnd
        ("Graphics Engine - " ++ e1.GetRendererName ++ " - Random Number: " ++
          toString e1.m_randomNumber) ]
      out := .ok e1 }
  | none => { events := [], out := .ok e1 }

/-- The constructor `Engine::Engine(width, height)`; `m_hwnd` is null, so
`UpdateRandomNumber` sets no title. -/
def new (width height : Nat) (draw : Fin 10000) : Engine :=
  { m_hwnd := none, m_width := width, m_height := height, m_renderer := none,
    m_randomNumber := (draw.val : Int) }

/-- `Engine::Initialize`. -/
def Initialize (e : Engine) (hwnd : Option Nat) (renderer : Option RendererPtr)
    (p : Platform) : EngineRun :=
  -- m_hwnd = hwnd; m_renderer = std::move(renderer);
  let replaced : EngineRun :=
    match e.m_renderer with
    | some old =>
      { events := .destructor old.addr :: (old.obj.destroy p.pace1).calls.map (Event.platform old.addr)
        out := match (old.obj.destroy p.pace1).out with
          | .ok _ => .ok { e with m_hwnd := hwnd, m_renderer := renderer }
          | .threw _ w => .fault w
          | .fault w => .fault w
          | .hung => .hung }
    | none => { events := [], out := .ok { e with m_hwnd := hwnd, m_renderer := renderer } }
  replaced.bind fun e1 =>
    -- m_renderer->Initialize(hwnd, m_width, m_height);
    match e1.m_renderer with
    | none => { events := [], out := .fault "m_renderer" }
    | some ptr =>
      e1.invoke ptr [.Initialize ptr.addr hwnd e1.m_width e1.m_height]
        (ptr.obj.Initialize hwnd e1.m_width e1.m_height p)

/-- The background colour `Engine::RenderScene` computes from the number shown, in
`float` arithmetic: `0.3f`, `0.4f` and `0.6f` are the floats nearest to the decimals, and
the quotient by `300.0f` and the sum are each rounded to a float.  The conversion of the
`int` remainder to `float` is exact, and so is `300.0f`. -/
def backgroundColor (n : Int) : ℚ × ℚ × ℚ :=
  ( toFloat (toFloat (3 / 10) + toFloat (((Int.tmod n 100 : Int) : ℚ) / 300)),
    toFloat (toFloat (4 / 10) + toFloat (((Int.tmod (Int.tdiv n 10) 100 : Int) : ℚ) / 300)),
    toFloat (toFloat (6 / 10) + toFloat (((Int.tmod (Int.tdiv n 100) 100 : Int) : ℚ) / 300)) )

/-- The frame `Engine::RenderScene` drives on the renderer `rd`. -/
def sceneOn (e : Engine) (name : String) (rd : Renderer) (p : Platform) : Run Renderer :=
  let c := backgroundColor e.m_randomNumber
  -- m_renderer->BeginFrame(); m_renderer->Clear(r, g, b);
  (rd.BeginFrame.bind fun rd => rd.Clear c.1 c.2.1 c.2.2).bind fun rd =>
  -- m_renderer->DrawText(rendererName.c_str(), 40.0f, 30.0f, 24.0f, 1.0f, 1.0f, 1.0f);
  (rd.DrawText name 40 30 24 1 1 1 false p).bind fun rd =>
  -- m_renderer->MeasureText(L"Random Number Generator", 24.0f, titleWidth, titleHeight);
  (rd.MeasureText "Random Number Generator" 24 p).andThen rd fun title =>
  -- m_renderer->DrawText(L"Random Number Generator", titleX, 80.0f, 24.0f, 1.0f, 1.0f, 1.0f);
  (rd.DrawText "Random Number Generator" (((e.m_width : ℚ) - title.1) / 2) 80 24 1 1 1 false p).bind
    fun rd =>
  -- m_renderer->MeasureText(numberText.c_str(), 120.0f, numberWidth, numberHeight);
  (rd.MeasureText (toString e.m_randomNumber) 120 p).andThen rd fun number =>
  -- m_renderer->DrawText(numberText.c_str(), numberX, numberY, 120.0f, 1.0f, 1.0f, 0.39f, true);
  (rd.DrawText (toString e.m_randomNumber) (((e.m_width : ℚ) - number.1) / 2)
    (((e.m_height : ℚ) - number.2) / 2) 120 1 1 (39 / 100) true p).bind fun rd =>
  -- m_renderer->MeasureText(L"Updates every 5 seconds", 20.0f, messageWidth, messageHeight);
  (rd.MeasureText "Updates every 5 seconds" 20 p).andThen rd fun message =>
  -- m_renderer->DrawText(L"Updates every 5 seconds", messageX, m_height - 100.0f, 20.0f, …);
  (rd.DrawText "Updates every 5 seconds" (((e.m_width : ℚ) - message.1) / 2)
    ((e.m_height : ℚ) - 100) 20 (78 / 100) (78 / 100) (78 / 100) false p).bind fun rd =>
  -- m_renderer->EndFrame();
  rd.EndFrame p.pace1

/-- `Engine::RenderScene`; `m_renderer` is dereferenced without a check. -/
def RenderScene (e : Engine) (p : Platform) : EngineRun :=
  match e.m_renderer with
  | none => { events := [], out := .fault "m_renderer" }
  | some ptr => e.invoke ptr [] (e.sceneOn e.GetRendererName ptr.obj p)

/-- `Engine::Render`. -/
def Render (e : Engine) (p : Platform) : EngineRun :=
  -- if (!m_renderer) return;
  match e.m_renderer with
  | none => { events := [], out := .ok e }
  | some _ => e.RenderScene p

/-- `Engine::OnDestroy`. -/
def OnDestroy (e : Engine) (p : Platform) : EngineRun :=
  match e.m_renderer with
  | some ptr => e.invoke ptr [.OnDestroy ptr.addr] (ptr.obj.OnDestroy p.pace1)
  | none => { events := [], out := .ok e }

/-- `Engine::SwitchRenderer`.  The move assignment puts the new renderer into
`m_renderer` and deletes the old one.  What the window procedure does when
`UpdateWindow` sends it a paint message is outside this method. -/
def SwitchRenderer (e : Engine) (newRenderer : Option RendererPtr) (p : Platform) :
    EngineRun :=
  -- if (m_renderer) m_renderer->OnDestroy();
  let shutDown : EngineRun :=
    match e.m_renderer with
    | some old => e.invoke old [.OnDestroy old.addr] (old.obj.OnDestroy p.pace1)
    | none => { events := [], out := .ok e }
  shutDown.bind fun e1 =>
    -- m_renderer = std::move(newRenderer);
    let replaced : EngineRun :=
      match e1.m_renderer with
      | some old =>
        { events :=
            .destructor old.addr :: (old.obj.destroy p.pace2).calls.map (Event.platform old.addr)
          out := match (old.obj.destroy p.pace2).out with
            | .ok _ => .ok { e1 with m_renderer := newRenderer }
            | .threw _ w => .fault w
            | .fault w => .fault w
            | .hung => .hung }
      | none => { events := [], out := .ok { e1 with m_renderer := newRenderer } }
    replaced.bind fun e2 =>
      -- m_renderer->Initialize(m_hwnd, m_width, m_height);
      let initialized : EngineRun :=
        match e2.m_renderer with
        | none => { events := [], out := .fault "m_renderer" }
        | some ptr =>
          e2.invoke ptr [.Initialize ptr.addr e2.m_hwnd e2.m_width e2.m_height]
            (ptr.obj.Initialize e2.m_hwnd e2.m_width e2.m_height p)
      initialized.bind fun e3 =>
        -- InvalidateRect(m_hwnd, nullptr, TRUE); UpdateWindow(m_hwnd);
        { events := [.InvalidateRect e3.m_hwnd, .UpdateWindow e3.m_hwnd], out := .ok e3 }

end Engine

/-! ## The per-frame call contract on the hardware backend -/

/-- The arguments of one `DrawText` call. -/
structure TextDraw where
  text : String
  x : ℚ
  y : ℚ
  fontSize : ℚ
  r : ℚ
  g : ℚ
  b : ℚ
  bold : Bool
  deriving DecidableEq, Repr

/-- What one frame is driven with: the clear colour, the texts, and the pace of the GPU
when `EndFrame` polls the fence. -/
structure Frame where
  clear : ℚ × ℚ × ℚ
  draws : List TextDraw
  pace : GpuPace
  deriving DecidableEq, Repr

namespace DX12Renderer

/-- The `DrawText` calls of one frame, in order. -/
def drawAll (s : DX12Renderer) : List TextDraw → Run DX12Renderer
  | [] => { calls := [], out := .ok s }
  | d :: ds =>
    (s.DrawText d.text d.x d.y d.fontSize d.r d.g d.b d.bold).bind fun s1 => s1.drawAll ds

/-- The recording half of a frame: `BeginFrame`, `Clear`, then the `DrawText` calls. -/
def recordFrame (s : DX12Renderer) (f : Frame) : Run DX12Renderer :=
  (s.BeginFrame.bind fun s1 => s1.Clear f.clear.1 f.clear.2.1 f.clear.2.2).bind fun s2 =>
    s2.drawAll f.draws

/-- One frame in the required order: `BeginFrame`, `Clear`, the `DrawText` calls,
`EndFrame`. -/
def frame (s : DX12Renderer) (f : Frame) : Run DX12Renderer :=
  (s.recordFrame f).bind fun s3 => s3.EndFrame f.pace

/-- Consecutive frames. -/
def frames (s : DX12Renderer) : List Frame → Run DX12Renderer
  | [] => { calls := [], out := .ok s }
  | f :: fs => (s.frame f).bind fun s1 => s1.frames fs

end DX12Renderer

/-- The fence values passed to `ID3D12CommandQueue::Signal`, in order. -/
def signaled : List Call → List Nat
  | [] => []
  | .Signal _ _ v :: cs => v :: signaled cs
  | _ :: cs => signaled cs

/-! ## A concrete platform, used to run the definitions -/

/-- A platform on which every creation call succeeds. -/
def samplePlatform : DX12Platform :=
  { factory := some 1, adapter := some 2, device := some 3, commandQueue := some 4,
    swapChain := some 5, rtvHeap := some 6, rtvDescriptorSize := 32,
    buffers := [some 7, some 8], commandAllocator := some 9, commandList := some 10,
    fence := some 11, fenceEvent := some 12, fontHeap := some 13, graphicsMemory := some 14,
    font := some 15, largeFont := some 16, spriteBatch := some 17, uploadCompletes := true }

/-- A hardware renderer after `Initialize` on `samplePlatform`, for a 1280 x 720
window. -/
def sampleDX12 : Run DX12Renderer :=
  DX12Renderer.new.Initialize (some 100) 1280 720 samplePlatform

/-- A frame that clears and draws one large and one small text, on a GPU that has
retired nothing when the fence is polled. -/
def sampleFrame : Frame :=
  { clear := (3 / 10, 4 / 10, 6 / 10)
    draws := [ { text := "1234", x := 500, y := 300, fontSize := 120, r := 1, g := 1, b := 0,
                 bold := true },
               { text := "title", x := 40, y := 30, fontSize := 24, r := 1, g := 1, b := 1,
                 bold := false } ]
    pace := { retired := 0, responsive := true } }

/-! ## Predicates used to state the properties -/

/-- Is the operation a fence signal? -/
def GpuOp.isSignal : GpuOp → Bool
  | .signal _ => true
  | _ => false

/-- The number of submitted command lists the GPU has not yet retired: the frames in
flight. -/
def Gpu.framesInFlight (g : Gpu) : Nat := g.pending.count .execute

/-- Every barrier recorded so far declared as before-state the state the image was
really in. -/
def Gpu.BarriersConsistent (g : Gpu) : Prop := ∀ b ∈ g.barriers, b.actual = some b.before

namespace DX12Renderer

/-- The platform gave the two resources that `Initialize` does not check and a frame
needs: the fence and both swap-chain images. -/
def Healthy (s : DX12Renderer) : Prop :=
  s.m_fence.isSome ∧ ∀ n, n < FRAME_COUNT → ∃ t, s.m_renderTargets.get? n = some (some t)

/-- Every object a frame dereferences is there. -/
def Operational (s : DX12Renderer) : Prop :=
  s.m_commandQueue.isSome ∧ s.m_swapChain.isSome ∧ s.m_rtvHeap.isSome ∧
  s.m_commandAllocator.isSome ∧ s.m_commandList.isSome ∧ s.m_graphicsMemory.isSome ∧
  s.m_spriteBatch.isSome ∧ s.m_font.isSome ∧ s.m_largeFont.isSome ∧ s.Healthy

/-- The state between two frames: the frame index is the swap chain's current back
buffer, every swap-chain image is in the `PRESENT` state, and the sprite batch is
closed. -/
def AtFrameBoundary (s : DX12Renderer) : Prop :=
  s.m_frameIndex = s.gpu.backBuffer ∧ s.gpu.backBuffer < FRAME_COUNT ∧
  s.gpu.bufferState = [.PRESENT, .PRESENT] ∧ s.gpu.batchOpen = false

end DX12Renderer

/-- Clamping of a colour component to `[0.0, 1.0]`. -/
def clamp01 (q : ℚ) : ℚ := max 0 (min 1 q)

/-- The font a call creates or draws with, if it is one that does. -/
def Call.font? : Call → Option FontVariant
  | .CreateFontW v _ => some v
  | .DrawString v _ _ _ _ => some v
  | .MeasureString v _ => some v
  | _ => none

/-- The fonts the calls of a run resolve, in order. -/
def resolvedFonts {σ : Type} (r : Run σ) : List FontVariant := r.calls.filterMap Call.font?

/-- The calls `WaitForPreviousFrame` can make when the renderer holds the fence event
`event`. -/
def Call.isFenceWait (event : Option Nat) : Call → Bool
  | .Signal _ _ _ => true
  | .GetCompletedValue _ _ => true
  | .SetEventOnCompletion _ _ e => e == event
  | .WaitForSingleObject e => e == event
  | .GetCurrentBackBufferIndex _ _ => true
  | _ => false

/-- Is the event the begin of an `IRenderer::Initialize` call? -/
def Event.isInitialize : Event → Bool
  | .Initialize _ _ _ _ => true
  | _ => false

/-- Is the event a call on the renderer at address `a`, or a platform call made by
it? -/
def Event.isOf (a : Nat) : Event → Bool
  | .Initialize r _ _ _ => r == a
  | .OnDestroy r => r == a
  | .destructor r => r == a
  | .platform r _ => r == a
  | _ => false

/-- The events before the first `Initialize` begins. -/
def beforeInitialize (events : List Event) : List Event :=
  events.takeWhile fun ev => !ev.isInitialize

/-- The events from the begin of the first `Initialize` on. -/
def fromInitialize (events : List Event) : List Event :=
  events.dropWhile fun ev => !ev.isInitialize

/-- The state `sampleDX12` returns. -/
def sampleState : DX12Renderer :=
  { m_device := some 3, m_commandQueue := some 4, m_swapChain := some 5, m_rtvHeap := some 6,
    m_renderTargets := [some 7, some 8], m_commandAllocator := some 9, m_commandList := some 10,
    m_frameIndex := 0, m_fenceEvent := some 12, m_fence := some 11, m_fenceValue := 1,
    m_viewport := (((1280 : Nat) : ℚ), ((720 : Nat) : ℚ), 1),
    m_scissorRect := (((1280 : Nat) : Int), ((720 : Nat) : Int)),
    m_rtvDescriptorSize := 32, m_graphicsMemory := some 14, m_spriteBatch := some 17,
    m_font := some { ptr := 15, variant := bodyVariant },
    m_largeFont := some { ptr := 16, variant := displayVariant },
    m_fontHeap := some 13, m_hwnd := some 100, m_width := 1280, m_height := 720,
    gpu := { backBuffer := 0, bufferState := [.PRESENT, .PRESENT], fenceCompleted := 0,
             pending := [], batchOpen := false, barriers := [] } }

/-- Three sample frames. -/
def sampleFrames : List Frame := [sampleFrame, sampleFrame, sampleFrame]

/-- The state after the three sample frames. -/
def sampleAfter : DX12Renderer :=
  ((sampleState.frames sampleFrames).state?).getD sampleState

/-- The state after the three sample frames and the next `BeginFrame`. -/
def sampleBegun : DX12Renderer :=
  (sampleAfter.BeginFrame.state?).getD sampleAfter

/-- A software renderer after `Initialize` for a 1280 x 720 window. -/
def sampleGDI : GDIRenderer :=
  { m_hwnd := some 100, m_width := 1280, m_height := 720, m_windowDC := some 21,
    m_memoryDC := some 22, m_memoryBitmap := some 23, m_oldBitmap := some 24 }

/-- Font services of GDI in which bold text is wider than regular text. -/
def sampleFonts : GDIFontPlatform :=
  { font := 30, oldFont := some 31
    metrics := fun v t => (if v.weight = FW_BOLD then 70 * t.length else 66 * t.length, 138) }

/-- A GPU that has retired nothing when the fence is polled, and goes on to. -/
def samplePace : GpuPace := { retired := 0, responsive := true }

/-- The sample renderer after one `OnDestroy`. -/
def sampleDestroyed : DX12Renderer :=
  ((sampleState.OnDestroy samplePace).state?).getD sampleState

/-- The sample renderer after a second `OnDestroy`. -/
def sampleDestroyedTwice : DX12Renderer :=
  ((sampleDestroyed.OnDestroy samplePace).state?).getD sampleState

/-- An engine for a 1280 x 720 window whose active renderer is the sample software
renderer, at address 1. -/
def sampleEngine : Engine :=
  { m_hwnd := some 100, m_width := 1280, m_height := 720,
    m_renderer := some { addr := 1, obj := .gdi sampleGDI }, m_randomNumber := 1234 }

/-- A fresh hardware renderer at address 2, as `CreateRenderer` makes it. -/
def freshDX12 : RendererPtr := { addr := 2, obj := .dx12 DX12Renderer.new }

/-- A platform on which every call succeeds. -/
def goodPlatform : Platform :=
  { gdi := { windowDC := some 21, memoryDC := some 22, memoryBitmap := some 23,
             oldBitmap := some 24 }
    dx12 := samplePlatform
    gdiFont := sampleFonts
    spriteMetrics := fun v t => (v.size * t.length / 2, v.size)
    pace1 := samplePace
    pace2 := samplePace }

/-- A platform on which `D3D12CreateDevice` fails. -/
def noDevicePlatform : Platform :=
  { goodPlatform with dx12 := { samplePlatform with device := none } }

/-- The engine after the switch to the hardware renderer failed on
`noDevicePlatform`: what the exception leaves. -/
def engineAfterFailedSwitch : Engine :=
  { sampleEngine with
    m_renderer := some
      { addr := 2
        obj := .dx12
          { DX12Renderer.new with
            m_hwnd := some 100, m_width := 1280, m_height := 720,
            m_viewport := (((1280 : Nat) : ℚ), ((720 : Nat) : ℚ), 1),
            m_scissorRect := (((1280 : Nat) : Int), ((720 : Nat) : Int)) } } }


/-! ## Initialisation that fails, and what is left of the renderer -/

namespace DX12Renderer

/-- The renderer as `Initialize` has set it up when it enters `LoadPipeline`: the window,
the size, the viewport and the scissor rectangle are stored, every resource field is as
the constructor left it. -/
def configured (hwnd : Option Nat) (width height : Nat) : DX12Renderer :=
  { new with
    m_hwnd := hwnd, m_width := width, m_height := height,
    m_viewport := ((width : ℚ), (height : ℚ), 1),
    m_scissorRect := ((width : Int), (height : Int)) }

/-- No resource field of the renderer holds anything, as in a freshly constructed
instance: device, command queue, swap chain, render-target heap and render targets,
command allocator and list, fence and fence event, font heap, fonts, sprite batch and
graphics memory. -/
def HoldsNoResource (s : DX12Renderer) : Prop :=
  s.m_device = none ∧ s.m_commandQueue = none ∧ s.m_swapChain = none ∧ s.m_rtvHeap = none ∧
  (∀ t ∈ s.m_renderTargets, t = none) ∧ s.m_commandAllocator = none ∧
  s.m_commandList = none ∧ s.m_fence = none ∧ s.m_fenceEvent = none ∧ s.m_fontHeap = none ∧
  s.m_font = none ∧ s.m_largeFont = none ∧ s.m_spriteBatch = none ∧
  s.m_graphicsMemory = none

end DX12Renderer

/-- A platform on which `CreateCommandQueue` fails. -/
def noQueuePlatform : DX12Platform := { samplePlatform with commandQueue := none }

/-- A platform on which the font descriptor heap cannot be created. -/
def noFontHeapPlatform : DX12Platform := { samplePlatform with fontHeap := none }

/-- A platform on which `CreateSwapChainForHwnd` fails. -/
def noSwapChainPlatform : DX12Platform := { samplePlatform with swapChain := none }

/-- Answers of GDI when `GetDC`, `CreateCompatibleDC` and `CreateCompatibleBitmap` all
fail. -/
def noSurfacePlatform : GDIPlatform :=
  { windowDC := none, memoryDC := none, memoryBitmap := none, oldBitmap := none }

/-- The renderer that the exception leaves when `CreateCommandQueue` fails on
`noQueuePlatform`: the device is there, the command queue is not. -/
def afterFailedQueue : DX12Renderer :=
  { DX12Renderer.configured (some 100) 1280 720 with m_device := some 3 }

/-- The renderer that the exception leaves when the font descriptor heap cannot be
created on `noFontHeapPlatform`. -/
def afterFailedFontHeap : DX12Renderer :=
  { sampleState with
    m_graphicsMemory := none, m_spriteBatch := none, m_font := none, m_largeFont := none,
    m_fontHeap := none }

/-- A platform for the engine on which `CreateCommandQueue` fails. -/
def noQueueEnginePlatform : Platform := { goodPlatform with dx12 := noQueuePlatform }

/-- The engine after the switch to the hardware renderer failed on
`noQueueEnginePlatform`: what the exception leaves. -/
def engineAfterFailedQueue : Engine :=
  { sampleEngine with m_renderer := some { addr := 2, obj := .dx12 afterFailedQueue } }

/-! ## The handle ledger of a session of switches -/

/-- The handles the calls acquire, in order. -/
def handlesAcquired (cs : List Call) : List Handle := cs.flatMap Call.acquired

/-- The handles the calls release, in order. -/
def handlesReleased (cs : List Call) : List Handle := cs.flatMap Call.released

/-- The handles held after a call, given those held before it: what the call releases is
taken out, what it acquires is put in. -/
def Call.settle (held : Multiset Handle) (c : Call) : Multiset Handle :=
  held - (c.released : Multiset Handle) + (c.acquired : Multiset Handle)

/-- The handles held after the calls. -/
def heldAfter (held : Multiset Handle) : List Call → Multiset Handle
  | [] => held
  | c :: cs => heldAfter (c.settle held) cs

/-- Every call releases only handles that are held when it is made: no handle is
released twice, and none that was not acquired. -/
def ReleasesHeld (held : Multiset Handle) : List Call → Prop
  | [] => True
  | c :: cs => (c.released : Multiset Handle) ≤ held ∧ ReleasesHeld (c.settle held) cs

/-- The ledger of handles along the events of the engine: every platform call releases
only handles that are held when it is made, and at the moment `Initialize` of a renderer
begins no handle is held any more. -/
def LeakFree (held : Multiset Handle) : List Event → Prop
  | [] => True
  | .Initialize _ _ _ _ :: es => held = 0 ∧ LeakFree held es
  | .platform _ c :: es => (c.released : Multiset Handle) ≤ held ∧ LeakFree (c.settle held) es
  | _ :: es => LeakFree held es

/-- The handles held after the events. -/
def heldAfterEvents (held : Multiset Handle) : List Event → Multiset Handle
  | [] => held
  | .platform _ c :: es => heldAfterEvents (c.settle held) es
  | _ :: es => heldAfterEvents held es

/-- The platform calls among the events, in order. -/
def platformCalls : List Event → List Call
  | [] => []
  | .platform _ c :: es => c :: platformCalls es
  | _ :: es => platformCalls es

/-- The handles a software renderer holds in its fields, in the order `OnDestroy`
releases them. -/
def GDIRenderer.owned (s : GDIRenderer) : List Handle :=
  (s.m_memoryBitmap.map (Handle.mk .gdiObject)).toList ++
  (s.m_memoryDC.map (Handle.mk .dc)).toList ++
  (s.m_windowDC.map (Handle.mk .dc)).toList

/-- The handles a hardware renderer holds in its fields, in the order `OnDestroy` and
then the destruction of the members release them. -/
def DX12Renderer.owned (s : DX12Renderer) : List Handle :=
  (s.m_fenceEvent.map (Handle.mk .event)).toList ++
  (s.m_spriteBatch.map (Handle.mk .heapObject)).toList ++
  (s.m_font.map fun f => Handle.mk .heapObject f.ptr).toList ++
  (s.m_largeFont.map fun f => Handle.mk .heapObject f.ptr).toList ++
  (s.m_graphicsMemory.map (Handle.mk .heapObject)).toList ++
  (s.m_fontHeap.map (Handle.mk .com)).toList ++
  (s.m_fence.map (Handle.mk .com)).toList ++
  (s.m_commandList.map (Handle.mk .com)).toList ++
  (s.m_commandAllocator.map (Handle.mk .com)).toList ++
  (s.m_renderTargets.reverse.filterMap fun p => p.map (Handle.mk .com)) ++
  (s.m_rtvHeap.map (Handle.mk .com)).toList ++
  (s.m_swapChain.map (Handle.mk .com)).toList ++
  (s.m_commandQueue.map (Handle.mk .com)).toList ++
  (s.m_device.map (Handle.mk .com)).toList

/-- The handles a renderer holds in its fields. -/
def Renderer.owned : Renderer → List Handle
  | .gdi g => g.owned
  | .dx12 d => d.owned

/-- The creation calls of `GDIRenderer::Initialize` all succeed. -/
def GDIPlatform.succeeds (p : GDIPlatform) : Prop :=
  p.windowDC.isSome ∧ p.memoryDC.isSome ∧ p.memoryBitmap.isSome

/-- A renderer as `CreateRenderer` makes it: `std::make_unique<GDIRenderer>()` or
`std::make_unique<DX12Renderer>()`. -/
def RendererPtr.isFresh (r : RendererPtr) : Prop :=
  r.obj = .gdi GDIRenderer.new ∨ r.obj = .dx12 DX12Renderer.new

namespace Engine

/-- Consecutive calls of `SwitchRenderer`, each with the renderer to switch to and what
the platform answers during the call. -/
def switchAll (e : Engine) : List (RendererPtr × Platform) → EngineRun
  | [] => { events := [], out := .ok e }
  | rp :: rest => (e.SwitchRenderer (some rp.1) rp.2).bind fun e1 => e1.switchAll rest

/-- A session of the program as far as renderers go: the engine is constructed,
`Initialize` is called with the first renderer, and then the renderer is switched any
number of times. -/
def session (width height : Nat) (draw : Fin 10000) (hwnd : Option Nat)
    (first : RendererPtr × Platform) (rest : List (RendererPtr × Platform)) : EngineRun :=
  ((new width height draw).Initialize hwnd (some first.1) first.2).bind fun e =>
    e.switchAll rest

end Engine

/-- A fresh software renderer at address 1. -/
def freshGDI : RendererPtr := { addr := 1, obj := .gdi GDIRenderer.new }

/-- Ten switches, starting from the hardware renderer: software, hardware, software, and
so on, each on the platform where every call succeeds. -/
def tenSwitches : List (RendererPtr × Platform) :=
  [(freshGDI, goodPlatform), (freshDX12, goodPlatform), (freshGDI, goodPlatform),
   (freshDX12, goodPlatform), (freshGDI, goodPlatform), (freshDX12, goodPlatform),
   (freshGDI, goodPlatform), (freshDX12, goodPlatform), (freshGDI, goodPlatform),
   (freshDX12, goodPlatform)]

/-- The creation calls of `Initialize` gave the renderer what its shutdown goes by: a
software renderer has its window device context, its memory device context and its
bitmap.  Nothing is asked of a hardware renderer. -/
def Renderer.Settled : Renderer → Prop
  | .gdi g => g.m_windowDC.isSome ∧ g.m_memoryDC.isSome ∧ g.m_memoryBitmap.isSome
  | .dx12 _ => True

/-- The engine at the end of the session that starts on the hardware renderer and makes
the ten switches of `tenSwitches`: it holds the hardware renderer of the last switch. -/
def sessionEnd : Engine :=
  { m_hwnd := some 100, m_width := 1280, m_height := 720,
    m_renderer := some { addr := 2, obj := .dx12 sampleState }, m_randomNumber := 42 }

/-! ## The text batch within a frame -/

/-- Is the call the begin of the sprite batch? -/
def Call.isBatchBegin : Call → Bool
  | .SpriteBatchBegin => true
  | _ => false

/-- Is the call the end of the sprite batch? -/
def Call.isBatchEnd : Call → Bool
  | .SpriteBatchEnd => true
  | _ => false

/-- Is the call a glyph draw, that is a `SpriteFont::DrawString`? -/
def Call.isGlyphDraw : Call → Bool
  | .DrawString _ _ _ _ _ => true
  | _ => false

/-- The state of the sample renderer after `BeginFrame`, `Clear` and the two `DrawText`
calls of the sample frame. -/
def sampleRecorded : DX12Renderer :=
  ((sampleState.recordFrame sampleFrame).state?).getD sampleState

/-! ## Where `RenderScene` puts the text -/

/-- The text and the top-left corner that a `DrawTextW` call is given. -/
def Call.textRect? : Call → Option (String × Int × Int)
  | .DrawTextW _ text left top _ _ => some (text, left, top)
  | _ => none

/-- The text and the position that a `DrawString` call is given. -/
def Call.glyphAnchor? : Call → Option (String × ℚ × ℚ)
  | .DrawString _ text x y _ => some (text, x, y)
  | _ => none

/-- An engine for an 800 x 600 window whose active renderer is a software renderer of
that size. -/
def smallEngine : Engine :=
  { m_hwnd := some 100, m_width := 800, m_height := 600,
    m_renderer := some
      { addr := 1
        obj := .gdi { sampleGDI with m_width := 800, m_height := 600 } }
    m_randomNumber := 1234 }

/-- An engine for a 1280 x 720 window whose active renderer is the sample hardware
renderer. -/
def sampleHardwareEngine : Engine :=
  { sampleEngine with m_renderer := some { addr := 2, obj := .dx12 sampleState } }

/-! ## The wait in `EndFrame` -/

/-- A GPU that has retired nothing when the fence is polled, and never completes. -/
def stalledPace : GpuPace := { retired := 0, responsive := false }
/-! ## General facts about runs -/

theorem Run.bind_out_ok {σ : Type} (r : Run σ) (k : σ → Run σ) (s' : σ) :
    (r.bind k).out = .ok s' ↔ ∃ s, r.out = .ok s ∧ (k s).out = .ok s' := by
  unfold Run.bind
  cases h : r.out <;> simp

theorem Run.bind_calls_of_ok {σ : Type} (r : Run σ) (k : σ → Run σ) (s : σ)
    (h : r.out = .ok s) : (r.bind k).calls = r.calls ++ (k s).calls := by
  unfold Run.bind
  simp [h]

theorem Run.bind_of_ok {σ : Type} (r : Run σ) (k : σ → Run σ) (s : σ)
    (h : r.out = .ok s) : r.bind k = ⟨r.calls ++ (k s).calls, (k s).out⟩ := by
  unfold Run.bind
  simp [h]

/-! ## The GPU queue -/

theorem Gpu.retireOne_fields (g : Gpu) :
    g.retireOne.backBuffer = g.backBuffer ∧ g.retireOne.bufferState = g.bufferState ∧
    g.retireOne.batchOpen = g.batchOpen ∧ g.retireOne.barriers = g.barriers := by
  unfold Gpu.retireOne
  split <;> simp

theorem Gpu.retire_fields (g : Gpu) (k : Nat) :
    (g.retire k).backBuffer = g.backBuffer ∧ (g.retire k).bufferState = g.bufferState ∧
    (g.retire k).batchOpen = g.batchOpen ∧ (g.retire k).barriers = g.barriers := by
  induction k generalizing g with
  | zero => simp [Gpu.retire]
  | succ k ih =>
    have h1 := ih g.retireOne
    have h2 := g.retireOne_fields
    simp only [Gpu.retire]
    exact ⟨h1.1.trans h2.1, h1.2.1.trans h2.2.1, h1.2.2.1.trans h2.2.2.1, h1.2.2.2.trans h2.2.2.2⟩

theorem waitFence_reached (value : Nat) (ops : List GpuOp) (c : Nat) (rest : List GpuOp)
    (done : Nat) (h : waitFence value ops c = some (rest, done)) : value ≤ done := by
  induction ops generalizing c with
  | nil =>
    simp only [waitFence] at h
    split at h
    · simp at h; omega
    · simp at h
  | cons op ops ih =>
    simp only [waitFence] at h
    split at h
    · simp at h; omega
    · exact ih _ h

namespace DX12Renderer

/-- What a returning `WaitForPreviousFrame` leaves: the counter advanced by one modulo
`2 ^ 64`, the frame index re-read from the swap chain, the fence at or past the value
signaled, and nothing else of the renderer touched. -/
theorem WaitForPreviousFrame_ok (s s' : DX12Renderer) (pace : GpuPace)
    (h : (s.WaitForPreviousFrame pace).out = .ok s') :
    s' = { s with m_fenceValue := (s.m_fenceValue + 1) % 2 ^ 64,
                  m_frameIndex := s.gpu.backBuffer, gpu := s'.gpu } ∧
    s'.gpu.backBuffer = s.gpu.backBuffer ∧ s'.gpu.bufferState = s.gpu.bufferState ∧
    s'.gpu.batchOpen = s.gpu.batchOpen ∧ s'.gpu.barriers = s.gpu.barriers ∧
    s.m_fenceValue ≤ s'.gpu.fenceCompleted ∧
    (∃ q f sc, s.m_commandQueue = some q ∧ s.m_fence = some f ∧ s.m_swapChain = some sc) := by
  have hr := Gpu.retire_fields
      { s.gpu with pending := s.gpu.pending ++ [.signal s.m_fenceValue] } pace.retired
  obtain ⟨dev, queue, sc, heap, rts, alloc, list, fi, fe, fence, fv, vp, sr, ds, gm, sb, font,
    lfont, fheap, hwnd, w, ht, gpu⟩ := s
  simp only at hr
  rcases queue with _ | q
  · simp [WaitForPreviousFrame] at h
  rcases fence with _ | f
  · simp [WaitForPreviousFrame] at h
  rcases sc with _ | sc
  · simp only [WaitForPreviousFrame, Run.bind_out_ok] at h
    obtain ⟨s2, h2, h3⟩ := h
    split at h2
    · split at h2
      · split at h2
        · simp only [Outcome.ok.injEq] at h2
          subst h2
          simp at h3
        · simp at h2
      · simp at h2
    · simp only [Outcome.ok.injEq] at h2
      subst h2
      simp at h3
  simp only [WaitForPreviousFrame, Run.bind_out_ok] at h
  obtain ⟨s2, h2, h3⟩ := h
  split at h2
  · split at h2
    · split at h2
      · rename_i rest done hw
        simp only [Outcome.ok.injEq] at h2
        subst h2
        simp only [Outcome.ok.injEq] at h3
        subst h3
        have := waitFence_reached _ _ _ _ _ hw
        exact ⟨by simp only [hr.1], hr.1, hr.2.1, hr.2.2.1, hr.2.2.2, this, q, f, sc, rfl, rfl, rfl⟩
      · simp at h2
    · simp at h2
  · rename_i hlt
    simp only [Outcome.ok.injEq] at h2
    subst h2
    simp only [Outcome.ok.injEq] at h3
    subst h3
    exact ⟨by simp only [hr.1], hr.1, hr.2.1, hr.2.2.1, hr.2.2.2, Nat.le_of_not_lt hlt, q, f, sc, rfl, rfl, rfl⟩

/-- What a returning `BeginFrame` leaves: the barrier `PRESENT → RENDER_TARGET` recorded
on the current image, nothing else touched. -/
theorem BeginFrame_ok (s s' : DX12Renderer) (h : s.BeginFrame.out = .ok s') :
    s' = { s with gpu := recordBarrier s.gpu s.m_frameIndex .PRESENT .RENDER_TARGET } := by
  unfold BeginFrame at h
  split at h
  · simp at h
  split at h
  · simp at h
  split at h
  · simp at h
  · simp at h
  split at h
  · simp at h
  · simp only [Outcome.ok.injEq] at h
    exact h.symm

/-- What a returning `Clear` leaves: the sprite batch, closed before, is open. -/
theorem Clear_ok (s s' : DX12Renderer) (r g b : ℚ) (h : (s.Clear r g b).out = .ok s') :
    s' = { s with gpu := { s.gpu with batchOpen := true } } ∧ s.gpu.batchOpen = false := by
  unfold Clear at h
  split at h
  · simp at h
  split at h
  · simp at h
  split at h
  · simp at h
  split at h
  · simp at h
  · rename_i hb
    simp only [Outcome.ok.injEq] at h
    exact ⟨h.symm, by simpa using hb⟩

/-- A returning `DrawText` leaves the renderer as it was, and the batch was open. -/
theorem DrawText_ok (s s' : DX12Renderer) (text : String) (x y fontSize r g b : ℚ) (bold : Bool)
    (h : (s.DrawText text x y fontSize r g b bold).out = .ok s') :
    s' = s ∧ s.gpu.batchOpen = true := by
  unfold DrawText at h
  split at h
  · simp at h
  split at h
  · simp at h
  split at h
  · rename_i hb
    simp only [Outcome.ok.injEq] at h
    exact ⟨h.symm, hb⟩
  · simp at h

theorem drawAll_ok (s s' : DX12Renderer) (ds : List TextDraw) (h : (s.drawAll ds).out = .ok s') :
    s' = s := by
  induction ds generalizing s with
  | nil =>
    simp only [drawAll, Outcome.ok.injEq] at h
    exact h.symm
  | cons d ds ih =>
    simp only [drawAll, Run.bind_out_ok] at h
    obtain ⟨s1, h1, h2⟩ := h
    have := (DrawText_ok _ _ _ _ _ _ _ _ _ _ h1).1
    subst this
    exact ih _ h2

/-- What a returning `EndFrame` leaves. -/
theorem EndFrame_ok (s s' : DX12Renderer) (pace : GpuPace) (h : (s.EndFrame pace).out = .ok s') :
    s' = { s with m_fenceValue := (s.m_fenceValue + 1) % 2 ^ 64,
                  m_frameIndex := (s.gpu.backBuffer + 1) % FRAME_COUNT, gpu := s'.gpu } ∧
    s'.gpu.backBuffer = (s.gpu.backBuffer + 1) % FRAME_COUNT ∧
    s'.gpu.bufferState = s.gpu.bufferState.set s.m_frameIndex .PRESENT ∧
    s'.gpu.batchOpen = false ∧
    s'.gpu.barriers = s.gpu.barriers ++
      [{ image := s.m_frameIndex, before := .RENDER_TARGET, after := .PRESENT,
         actual := s.gpu.bufferState.get? s.m_frameIndex }] ∧
    s.m_fenceValue ≤ s'.gpu.fenceCompleted ∧ s.gpu.batchOpen = true := by
  unfold EndFrame at h
  split at h
  · simp at h
  split at h
  · simp at h
  rename_i hopen
  split at h
  · simp at h
  split at h
  · simp at h
  split at h
  · simp at h
  split at h
  · simp at h
  split at h
  · simp at h
  simp only [Run.bind_out_ok] at h
  obtain ⟨s2, ⟨s1, h1, hw⟩, h3⟩ := h
  simp only [Outcome.ok.injEq] at h1
  subst h1
  have := WaitForPreviousFrame_ok _ _ _ hw
  obtain ⟨e2, hb, hbs, hbo, hbar, hle, -⟩ := this
  split at h3
  · simp at h3
  simp only [Outcome.ok.injEq] at h3
  subst h3
  simp only [recordBarrier] at hb hbs hbo hbar hle e2 ⊢
  refine ⟨?_, hb, hbs, hbo, hbar, hle, by simpa using hopen⟩
  rw [e2]

end DX12Renderer

namespace DX12Renderer

/-- The state a successful `Initialize` of a fresh renderer returns: every checked
resource is there, the fence, its event and the swap-chain images are whatever the
platform answered, the counter is 1, the frame index 0, and nothing is pending. -/
theorem Initialize_ok (hwnd : Option Nat) (width height : Nat) (p : DX12Platform)
    (s0 : DX12Renderer) (h : (new.Initialize hwnd width height p).out = .ok s0) :
    ∃ dev q sc heap al cl fh gm f lf sb,
      s0 =
        { m_device := some dev, m_commandQueue := some q, m_swapChain := some sc,
          m_rtvHeap := some heap,
          m_renderTargets := [(p.buffers.get? 0).join, (p.buffers.get? 1).join],
          m_commandAllocator := some al, m_commandList := some cl, m_frameIndex := 0,
          m_fenceEvent := p.fenceEvent, m_fence := p.fence, m_fenceValue := 1,
          m_viewport := ((width : ℚ), (height : ℚ), 1),
          m_scissorRect := ((width : Int), (height : Int)),
          m_rtvDescriptorSize := p.rtvDescriptorSize, m_graphicsMemory := some gm,
          m_spriteBatch := some sb, m_font := some { ptr := f, variant := bodyVariant },
          m_largeFont := some { ptr := lf, variant := displayVariant },
          m_fontHeap := some fh, m_hwnd := hwnd, m_width := width, m_height := height,
          gpu := { backBuffer := 0, bufferState := [.PRESENT, .PRESENT], fenceCompleted := 0,
                   pending := [], batchOpen := false, barriers := [] } } := by
  obtain ⟨factory, adapter, device, queue, swapChain, rtvHeap, ds, buffers, alloc, list, fence,
    fenceEvent, fontHeap, gm, font, largeFont, sb, upload⟩ := p
  simp only [Initialize, Run.bind_out_ok] at h
  obtain ⟨s2, ⟨s1, h1, h2⟩, h3⟩ := h
  -- LoadPipeline
  rcases factory with _ | factory
  · simp [LoadPipeline] at h1
  rcases adapter with _ | adapter
  · simp [LoadPipeline] at h1
  rcases device with _ | device
  · simp [LoadPipeline] at h1
  rcases queue with _ | queue
  · simp [LoadPipeline] at h1
  rcases swapChain with _ | swapChain
  · simp [LoadPipeline] at h1
  rcases rtvHeap with _ | rtvHeap
  · simp [LoadPipeline] at h1
  simp only [LoadPipeline, Outcome.ok.injEq] at h1
  subst h1
  -- LoadAssets
  rcases alloc with _ | alloc
  · simp [LoadAssets] at h2
  rcases list with _ | list
  · simp [LoadAssets] at h2
  simp only [LoadAssets, Option.some_bind, Outcome.ok.injEq] at h2
  subst h2
  -- InitializeSpriteBatch
  rcases fontHeap with _ | fontHeap
  · simp [InitializeSpriteBatch] at h3
  rcases gm with _ | gm
  · simp [InitializeSpriteBatch] at h3
  rcases font with _ | font
  · simp [InitializeSpriteBatch] at h3
  rcases largeFont with _ | largeFont
  · simp [InitializeSpriteBatch] at h3
  rcases sb with _ | sb
  · simp [InitializeSpriteBatch] at h3
  rcases upload with _ | _
  · simp [InitializeSpriteBatch] at h3
  simp only [InitializeSpriteBatch, if_true, Outcome.ok.injEq] at h3
  subst h3
  refine ⟨device, queue, swapChain, rtvHeap, alloc, list, fontHeap, gm, font, largeFont, sb, ?_⟩
  simp [new, FRAME_COUNT, Gpu.retire, Gpu.retireOne, List.range, List.range.loop]

end DX12Renderer

/-! ## Frames: what is preserved, and that they return -/

theorem Gpu.retire_nil (g : Gpu) (k : Nat) (h : g.pending = []) : g.retire k = g := by
  induction k with
  | zero => rfl
  | succ k ih =>
    have : g.retireOne = g := by simp [Gpu.retireOne, h]
    simp only [Gpu.retire, this, ih]

/-- When the last operation queued is `Signal(v)`, the GPU either still has it queued,
or has retired everything and the fence stands at `v`. -/
theorem Gpu.retire_signal_last (k : Nat) (g : Gpu) (ops : List GpuOp) (v : Nat)
    (h : g.pending = ops ++ [.signal v]) :
    (∃ ops', (g.retire k).pending = ops' ++ [.signal v]) ∨
    ((g.retire k).fenceCompleted = v ∧ (g.retire k).pending = []) := by
  induction k generalizing g ops with
  | zero => exact Or.inl ⟨ops, h⟩
  | succ k ih =>
    simp only [Gpu.retire]
    cases ops with
    | nil =>
      have h1 : g.retireOne.pending = [] := by simp [Gpu.retireOne, h]
      have h2 : g.retireOne.fenceCompleted = v := by simp [Gpu.retireOne, h]
      rw [Gpu.retire_nil _ _ h1]
      exact Or.inr ⟨h2, h1⟩
    | cons op ops =>
      have h1 : g.retireOne.pending = ops ++ [.signal v] := by
        cases op <;> simp [Gpu.retireOne, h]
      exact ih _ _ h1

theorem waitFence_signal_last (v : Nat) (ops : List GpuOp) (c : Nat) :
    ∃ rest done, waitFence v (ops ++ [.signal v]) c = some (rest, done) := by
  induction ops generalizing c with
  | nil =>
    by_cases hc : v ≤ c
    · exact ⟨[.signal v], c, by simp [waitFence, hc]⟩
    · exact ⟨[], v, by simp [waitFence, hc]⟩
  | cons op ops ih =>
    by_cases hc : v ≤ c
    · exact ⟨op :: (ops ++ [.signal v]), c, by simp [waitFence, hc]⟩
    · rw [List.cons_append]
      unfold waitFence
      simp only [hc, if_false]
      exact ih _

namespace DX12Renderer

/-- On a responsive GPU `WaitForPreviousFrame` returns whenever the queue, the fence and
the swap chain are there. -/
theorem WaitForPreviousFrame_returns (s : DX12Renderer) (pace : GpuPace)
    (hq : s.m_commandQueue.isSome) (hf : s.m_fence.isSome) (hsc : s.m_swapChain.isSome)
    (hp : pace.responsive = true) : ∃ s', (s.WaitForPreviousFrame pace).out = .ok s' := by
  obtain ⟨q, hq⟩ := Option.isSome_iff_exists.mp hq
  obtain ⟨f, hf⟩ := Option.isSome_iff_exists.mp hf
  obtain ⟨sc, hsc⟩ := Option.isSome_iff_exists.mp hsc
  have hr := Gpu.retire_signal_last pace.retired
    ({ s.gpu with pending := s.gpu.pending ++ [.signal s.m_fenceValue] } : Gpu) s.gpu.pending
    s.m_fenceValue rfl
  simp only at hr
  simp only [WaitForPreviousFrame, hq, hf, hp, if_true, Run.bind_out_ok]
  split
  · rename_i hlt
    rcases hr with ⟨ops', h'⟩ | ⟨h1, _⟩
    · obtain ⟨rest, done, hw⟩ := waitFence_signal_last s.m_fenceValue ops'
        (({ s.gpu with pending := s.gpu.pending ++ [.signal s.m_fenceValue] } : Gpu).retire
          pace.retired).fenceCompleted
      simp only at hw
      rw [h', hw]
      simp [hsc]
    · omega
  · simp [hsc]

theorem Operational_of_eq (s s' : DX12Renderer) (fv fi : Nat) (g : Gpu)
    (h : s' = { s with m_fenceValue := fv, m_frameIndex := fi, gpu := g })
    (ho : s.Operational) : s'.Operational := by
  subst h
  exact ho

end DX12Renderer

namespace DX12Renderer

/-- What the recording half of a frame leaves when it returns: the barrier into
`RENDER_TARGET` recorded and the sprite batch open. -/
theorem recordFrame_ok (s s3 : DX12Renderer) (f : Frame) (h : (s.recordFrame f).out = .ok s3) :
    s3 = { s with gpu :=
      { recordBarrier s.gpu s.m_frameIndex .PRESENT .RENDER_TARGET with batchOpen := true } } := by
  simp only [recordFrame, Run.bind_out_ok] at h
  obtain ⟨s2, ⟨s1, h1, h2⟩, h3⟩ := h
  have e1 := BeginFrame_ok _ _ h1
  have e2 := (Clear_ok _ _ _ _ _ h2).1
  have e3 := drawAll_ok _ _ _ h3
  subst e1 e2 e3
  rfl

/-- The state `BeginFrame` leaves when it starts at a frame boundary: the current image
is in `RENDER_TARGET`, the other image in `PRESENT`, and the barrier declared the state
the image was in. -/
theorem recordBarrier_begin (g : Gpu) (i : Nat) (hi : i < FRAME_COUNT)
    (hs : g.bufferState = [.PRESENT, .PRESENT]) :
    (recordBarrier g i .PRESENT .RENDER_TARGET).bufferState.get? i = some .RENDER_TARGET ∧
    (∀ j, j < FRAME_COUNT → j ≠ i →
      (recordBarrier g i .PRESENT .RENDER_TARGET).bufferState.get? j = some .PRESENT) ∧
    (recordBarrier g i .PRESENT .RENDER_TARGET).barriers = g.barriers ++
      [{ image := i, before := .PRESENT, after := .RENDER_TARGET, actual := some .PRESENT }] ∧
    ((recordBarrier g i .PRESENT .RENDER_TARGET).bufferState.set i .PRESENT =
      [.PRESENT, .PRESENT]) := by
  simp only [FRAME_COUNT] at hi ⊢
  have : i = 0 ∨ i = 1 := by omega
  rcases this with rfl | rfl
  · refine ⟨by simp [recordBarrier, hs], ?_, by simp [recordBarrier, hs], by simp [recordBarrier, hs]⟩
    intro j hj hne
    have : j = 1 := by omega
    subst this
    simp [recordBarrier, hs]
  · refine ⟨by simp [recordBarrier, hs], ?_, by simp [recordBarrier, hs], by simp [recordBarrier, hs]⟩
    intro j hj hne
    have : j = 0 := by omega
    subst this
    simp [recordBarrier, hs]

/-- What a whole frame leaves when it starts at a frame boundary and returns. -/
theorem frame_ok (s s' : DX12Renderer) (f : Frame) (hb : s.AtFrameBoundary)
    (h : (s.frame f).out = .ok s') :
    s' = { s with m_fenceValue := (s.m_fenceValue + 1) % 2 ^ 64,
                  m_frameIndex := (s.gpu.backBuffer + 1) % FRAME_COUNT, gpu := s'.gpu } ∧
    s'.AtFrameBoundary ∧
    s'.gpu.backBuffer = (s.gpu.backBuffer + 1) % FRAME_COUNT ∧
    s'.gpu.barriers = s.gpu.barriers ++
      [{ image := s.m_frameIndex, before := .PRESENT, after := .RENDER_TARGET,
         actual := some .PRESENT },
       { image := s.m_frameIndex, before := .RENDER_TARGET, after := .PRESENT,
         actual := some .RENDER_TARGET }] ∧
    s.m_fenceValue ≤ s'.gpu.fenceCompleted := by
  simp only [frame, Run.bind_out_ok] at h
  obtain ⟨s3, h3, h4⟩ := h
  have e3 := recordFrame_ok _ _ _ h3
  subst e3
  obtain ⟨hfi, hlt, hbs, hbo⟩ := hb
  have hi : s.m_frameIndex < FRAME_COUNT := by rw [hfi]; exact hlt
  obtain ⟨e, hbb, hst, hopen, hbar, hle, -⟩ := EndFrame_ok _ _ _ h4
  obtain ⟨b1, b2, b3, b4⟩ := recordBarrier_begin s.gpu s.m_frameIndex hi hbs
  simp only at e hbb hst hopen hbar hle
  have hbb' : s'.gpu.backBuffer = (s.gpu.backBuffer + 1) % FRAME_COUNT := by
    rw [hbb]; rfl
  refine ⟨?_, ⟨?_, ?_, ?_, hopen⟩, hbb', ?_, hle⟩
  · rw [e]; rfl
  · rw [e, hbb']; rfl
  · rw [hbb']; exact Nat.mod_lt _ (by decide)
  · rw [hst]; exact b4
  · rw [hbar, b1, b3]; simp
  
/-- Frames keep the renderer at a frame boundary; each advances the back buffer by one
modulo `FRAME_COUNT` and the fence counter by one modulo `2 ^ 64`. -/
theorem frames_ok (fs : List Frame) (s s' : DX12Renderer) (hb : s.AtFrameBoundary)
    (hfv : s.m_fenceValue < 2 ^ 64) (h : (s.frames fs).out = .ok s') :
    s'.AtFrameBoundary ∧
    s'.gpu.backBuffer = (s.gpu.backBuffer + fs.length) % FRAME_COUNT ∧
    s'.m_fenceValue = (s.m_fenceValue + fs.length) % 2 ^ 64 ∧
    (s.gpu.BarriersConsistent → s'.gpu.BarriersConsistent) ∧
    (s.Operational → s'.Operational) := by
  induction fs generalizing s with
  | nil =>
    simp only [frames, Outcome.ok.injEq] at h
    subst h
    refine ⟨hb, ?_, ?_, fun hc => hc, fun ho => ho⟩
    · simp only [List.length_nil, Nat.add_zero]
      exact (Nat.mod_eq_of_lt hb.2.1).symm
    · simp only [List.length_nil, Nat.add_zero]
      exact (Nat.mod_eq_of_lt hfv).symm
  | cons f fs ih =>
    simp only [frames, Run.bind_out_ok] at h
    obtain ⟨s1, h1, h2⟩ := h
    obtain ⟨e1, hb1, hbb1, hbar1, -⟩ := frame_ok _ _ _ hb h1
    have hfv1 : s1.m_fenceValue < 2 ^ 64 := by
      rw [e1]; exact Nat.mod_lt _ (by norm_num)
    have hfv1' : s1.m_fenceValue = (s.m_fenceValue + 1) % 2 ^ 64 := by rw [e1]
    obtain ⟨i1, i2, i3, i4, i5⟩ := ih s1 hb1 hfv1 h2
    refine ⟨i1, ?_, ?_, ?_, ?_⟩
    · rw [i2, hbb1]
      simp only [FRAME_COUNT, List.length_cons]
      omega
    · rw [i3, hfv1']
      simp only [List.length_cons]
      omega
    · intro hc
      apply i4
      intro b hbm
      rw [hbar1] at hbm
      simp only [List.mem_append, List.mem_cons, List.mem_singleton, List.not_mem_nil,
        or_false] at hbm
      rcases hbm with hbm | rfl | rfl
      · exact hc b hbm
      · rfl
      · rfl
    · intro ho
      exact i5 (Operational_of_eq _ _ _ _ _ e1 ho)

/-- At a frame boundary, on a responsive GPU and with every object there, a frame
returns. -/
theorem frame_returns (s : DX12Renderer) (f : Frame) (hb : s.AtFrameBoundary)
    (ho : s.Operational) (hp : f.pace.responsive = true) :
    ∃ s', (s.frame f).out = .ok s' := by
  obtain ⟨hq, hsc, hheap, hal, hcl, hgm, hsb, hfont, hlf, hfence, hrt⟩ := ho
  obtain ⟨hfi, hlt, hbs, hbo⟩ := hb
  obtain ⟨t, ht⟩ := hrt s.m_frameIndex (by rw [hfi]; exact hlt)
  rw [List.get?_eq_getElem?] at ht
  obtain ⟨queue, hq'⟩ := Option.isSome_iff_exists.mp hq
  obtain ⟨sc, hsc'⟩ := Option.isSome_iff_exists.mp hsc
  obtain ⟨heap, hheap'⟩ := Option.isSome_iff_exists.mp hheap
  obtain ⟨alloc, hal'⟩ := Option.isSome_iff_exists.mp hal
  obtain ⟨list, hcl'⟩ := Option.isSome_iff_exists.mp hcl
  obtain ⟨gm, hgm'⟩ := Option.isSome_iff_exists.mp hgm
  obtain ⟨sb, hsb'⟩ := Option.isSome_iff_exists.mp hsb
  obtain ⟨font, hfont'⟩ := Option.isSome_iff_exists.mp hfont
  obtain ⟨lfont, hlf'⟩ := Option.isSome_iff_exists.mp hlf
  -- the DrawText calls return
  have h3 : ∀ (st : DX12Renderer) (ds : List TextDraw),
      st.m_font = some font → st.m_largeFont = some lfont → st.m_spriteBatch = some sb →
      st.gpu.batchOpen = true → (st.drawAll ds).out = .ok st := by
    intro st ds h1 h2 h3 h4
    induction ds with
    | nil => rfl
    | cons d ds ih =>
      have hd : (st.DrawText d.text d.x d.y d.fontSize d.r d.g d.b d.bold).out = .ok st := by
        by_cases hsz : d.fontSize > 60 <;> simp [DrawText, chooseFont, hsz, h1, h2, h3, h4]
      simp only [drawAll, Run.bind_out_ok]
      exact ⟨_, hd, ih⟩
  -- BeginFrame and Clear return
  obtain ⟨s1, h1⟩ : ∃ s1, s.BeginFrame.out = .ok s1 :=
    ⟨_, by simp only [BeginFrame, List.get?_eq_getElem?, hal', hcl', ht, hheap']; rfl⟩
  have e1 := BeginFrame_ok _ _ h1
  obtain ⟨s2, h2⟩ : ∃ s2, (s1.Clear f.clear.1 f.clear.2.1 f.clear.2.2).out = .ok s2 := by
    have a1 : s1.m_rtvHeap = some heap := by rw [e1]; exact hheap'
    have a2 : s1.m_commandList = some list := by rw [e1]; exact hcl'
    have a3 : s1.m_spriteBatch = some sb := by rw [e1]; exact hsb'
    have a4 : s1.gpu.batchOpen = false := by rw [e1]; exact hbo
    exact ⟨_, by simp only [Clear, a1, a2, a3, a4, Bool.false_eq_true, if_false]; rfl⟩
  have e2 := (Clear_ok _ _ _ _ _ h2).1
  have h3' : (s2.drawAll f.draws).out = .ok s2 :=
    h3 s2 f.draws (by rw [e2, e1]; exact hfont') (by rw [e2, e1]; exact hlf')
      (by rw [e2, e1]; exact hsb') (by rw [e2])
  -- EndFrame returns
  have b1 : s2.m_spriteBatch = some sb := by rw [e2, e1]; exact hsb'
  have b2 : s2.gpu.batchOpen = true := by rw [e2]
  have b3 : s2.m_renderTargets[s2.m_frameIndex]? = some (some t) := by rw [e2, e1]; exact ht
  have b4 : s2.m_commandList = some list := by rw [e2, e1]; exact hcl'
  have b5 : s2.m_commandQueue = some queue := by rw [e2, e1]; exact hq'
  have b6 : s2.m_swapChain = some sc := by rw [e2, e1]; exact hsc'
  have b7 : s2.m_fence.isSome = true := by rw [e2, e1]; exact hfence
  have b8 : s2.m_graphicsMemory = some gm := by rw [e2, e1]; exact hgm'
  obtain ⟨s4, hw⟩ := WaitForPreviousFrame_returns
    ({ s2 with gpu :=
      { recordBarrier ({ s2.gpu with batchOpen := false } : Gpu) s2.m_frameIndex
          .RENDER_TARGET .PRESENT with
        pending := (recordBarrier ({ s2.gpu with batchOpen := false } : Gpu) s2.m_frameIndex
          .RENDER_TARGET .PRESENT).pending ++ [.execute, .present]
        backBuffer := ((recordBarrier ({ s2.gpu with batchOpen := false } : Gpu) s2.m_frameIndex
          .RENDER_TARGET .PRESENT).backBuffer + 1) % FRAME_COUNT } } : DX12Renderer) f.pace
    (by simp [b5]) b7 (by simp [b6]) hp
  have e4 := (WaitForPreviousFrame_ok _ _ _ hw).1
  have c1 : s4.m_graphicsMemory = some gm := by rw [e4]; exact b8
  refine ⟨{ s4 with gpu := { s4.gpu with pending := s4.gpu.pending ++ [.commit] } }, ?_⟩
  simp only [frame, recordFrame, Run.bind_out_ok]
  refine ⟨s2, ⟨s2, ⟨s1, h1, h2⟩, h3'⟩, ?_⟩
  simp only [EndFrame, List.get?_eq_getElem?, b1, b2, b3, b4, b5, b6, Run.bind_out_ok,
    Bool.not_true, Bool.false_eq_true, if_false]
  refine ⟨s4, ⟨_, rfl, ?_⟩, ?_⟩
  · simpa only [b1, b4, b5, b6] using hw
  · simp only [c1]

/-- On a responsive GPU and with every object there, consecutive frames return. -/
theorem frames_return (fs : List Frame) (s : DX12Renderer) (hb : s.AtFrameBoundary)
    (ho : s.Operational) (hp : ∀ f ∈ fs, f.pace.responsive = true) :
    ∃ s', (s.frames fs).out = .ok s' := by
  induction fs generalizing s with
  | nil => exact ⟨s, rfl⟩
  | cons f fs ih =>
    obtain ⟨s1, h1⟩ := frame_returns s f hb ho (hp f (List.mem_cons_self _ _))
    obtain ⟨e1, hb1, -⟩ := frame_ok _ _ _ hb h1
    obtain ⟨s', h'⟩ := ih s1 hb1 (Operational_of_eq _ _ _ _ _ e1 ho)
      (fun g hg => hp g (List.mem_cons_of_mem _ hg))
    exact ⟨s', by simp only [frames, Run.bind_out_ok]; exact ⟨s1, h1, h'⟩⟩

/-- After a successful `Initialize` the renderer is at a frame boundary, the fence
counter is 1, no barrier has been recorded, and every object that `Initialize` checks
is there. -/
theorem Initialize_boundary (hwnd : Option Nat) (width height : Nat) (p : DX12Platform)
    (s0 : DX12Renderer) (h : (new.Initialize hwnd width height p).out = .ok s0) :
    s0.AtFrameBoundary ∧ s0.m_fenceValue = 1 ∧ s0.gpu.barriers = [] ∧ s0.m_frameIndex = 0 ∧
    s0.gpu.fenceCompleted = 0 ∧ s0.gpu.pending = [] ∧ (s0.Healthy → s0.Operational) := by
  obtain ⟨dev, q, sc, heap, al, cl, fh, gm, f, lf, sb, rfl⟩ := Initialize_ok _ _ _ _ _ h
  refine ⟨⟨rfl, Nat.zero_lt_two, rfl, rfl⟩, rfl, rfl, rfl, rfl, rfl, ?_⟩
  intro hh
  exact ⟨rfl, rfl, rfl, rfl, rfl, rfl, rfl, rfl, rfl, hh⟩

end DX12Renderer

/-! ## The fence counter -/

theorem signaled_append (a b : List Call) : signaled (a ++ b) = signaled a ++ signaled b := by
  induction a with
  | nil => rfl
  | cons c cs ih => cases c <;> simp [signaled, ih]

theorem Run.bind_calls {σ : Type} (r : Run σ) (k : σ → Run σ) (s' : σ)
    (h : (r.bind k).out = .ok s') :
    ∃ s, r.out = .ok s ∧ (k s).out = .ok s' ∧ (r.bind k).calls = r.calls ++ (k s).calls := by
  obtain ⟨s, h1, h2⟩ := (Run.bind_out_ok r k s').mp h
  exact ⟨s, h1, h2, Run.bind_calls_of_ok r k s h1⟩

namespace DX12Renderer

/-- A returning `WaitForPreviousFrame` passes exactly one value to `Signal`: the stored
counter. -/
theorem WaitForPreviousFrame_signaled (s s' : DX12Renderer) (pace : GpuPace)
    (h : (s.WaitForPreviousFrame pace).out = .ok s') :
    signaled (s.WaitForPreviousFrame pace).calls = [s.m_fenceValue] := by
  obtain ⟨-, -, -, -, -, -, q, f, sc, hq, hf, hsc⟩ := WaitForPreviousFrame_ok _ _ _ h
  unfold WaitForPreviousFrame at h ⊢
  simp only [hq, hf] at h ⊢
  obtain ⟨s2, h2, h3, hc⟩ := Run.bind_calls _ _ _ h
  rw [hc, signaled_append]
  have hsc2 : s2.m_swapChain = some sc := by
    split at h2
    · split at h2
      · split at h2
        · simp only [Outcome.ok.injEq] at h2
          rw [← h2]; exact hsc
        · simp at h2
      · simp at h2
    · simp only [Outcome.ok.injEq] at h2
      rw [← h2]; exact hsc
  simp only [hsc2]
  split
  · split
    · split <;> simp [signaled]
    · simp [signaled]
  · simp [signaled]

theorem BeginFrame_signaled (s : DX12Renderer) : signaled s.BeginFrame.calls = [] := by
  unfold BeginFrame
  repeat' split
  all_goals simp [signaled]

theorem Clear_signaled (s : DX12Renderer) (r g b : ℚ) : signaled (s.Clear r g b).calls = [] := by
  unfold Clear
  repeat' split
  all_goals simp [signaled]

theorem DrawText_signaled (s : DX12Renderer) (text : String) (x y fontSize r g b : ℚ)
    (bold : Bool) : signaled (s.DrawText text x y fontSize r g b bold).calls = [] := by
  unfold DrawText
  repeat' split
  all_goals simp [signaled]

theorem drawAll_signaled (ds : List TextDraw) (s s' : DX12Renderer)
    (h : (s.drawAll ds).out = .ok s') : signaled (s.drawAll ds).calls = [] := by
  induction ds generalizing s with
  | nil => rfl
  | cons d ds ih =>
    simp only [drawAll] at h ⊢
    obtain ⟨s1, h1, h2, hc⟩ := Run.bind_calls _ _ _ h
    rw [hc, signaled_append, DrawText_signaled, ih _ h2]
    rfl

theorem EndFrame_signaled (s s' : DX12Renderer) (pace : GpuPace)
    (h : (s.EndFrame pace).out = .ok s') : signaled (s.EndFrame pace).calls = [s.m_fenceValue] := by
  unfold EndFrame at h ⊢
  split at h
  · simp at h
  split at h
  · simp at h
  split at h
  · simp at h
  split at h
  · simp at h
  split at h
  · simp at h
  split at h
  · simp at h
  split at h
  · simp at h
  have hbo : ¬(!s.gpu.batchOpen) = true := by assumption
  dsimp only at h ⊢
  rw [if_neg hbo]
  obtain ⟨s2, h12, h3, hc⟩ := Run.bind_calls _ _ _ h
  obtain ⟨s1, h1, hw, hc1⟩ := Run.bind_calls _ _ _ h12
  rw [hc, hc1, signaled_append, signaled_append, WaitForPreviousFrame_signaled _ _ _ hw]
  simp only [Outcome.ok.injEq] at h1
  subst h1
  have e3 : signaled (match s2.m_graphicsMemory with
      | none => ({ calls := [], out := Outcome.fault "m_graphicsMemory" } : Run DX12Renderer)
      | some _ =>
        { calls := [Call.GraphicsMemoryCommit]
          out := Outcome.ok
            { s2 with gpu := { s2.gpu with pending := s2.gpu.pending ++ [GpuOp.commit] } } }).calls
      = [] := by
    split <;> simp [signaled]
  rw [e3]
  simp [signaled]

theorem recordFrame_signaled (s s' : DX12Renderer) (f : Frame)
    (h : (s.recordFrame f).out = .ok s') : signaled (s.recordFrame f).calls = [] := by
  unfold recordFrame at h ⊢
  obtain ⟨s2, h12, h3, hc⟩ := Run.bind_calls _ _ _ h
  obtain ⟨s1, h1, h2, hc1⟩ := Run.bind_calls _ _ _ h12
  rw [hc, hc1, signaled_append, signaled_append, BeginFrame_signaled, Clear_signaled,
    drawAll_signaled _ _ _ h3]
  rfl

/-- A returning frame passes exactly one value to `Signal`: the counter stored when the
frame began. -/
theorem frame_signaled (s s' : DX12Renderer) (f : Frame)
    (h : (s.frame f).out = .ok s') : signaled (s.frame f).calls = [s.m_fenceValue] := by
  unfold frame at h ⊢
  obtain ⟨s3, h3, h4, hc⟩ := Run.bind_calls _ _ _ h
  rw [hc, signaled_append, recordFrame_signaled _ _ _ h3, EndFrame_signaled _ _ _ h4,
    recordFrame_ok _ _ _ h3]
  rfl

/-- The values returning frames pass to `Signal`: the stored counter, then one more each
frame, modulo `2 ^ 64`. -/
theorem frames_signaled (fs : List Frame) (s s' : DX12Renderer) (hb : s.AtFrameBoundary)
    (hfv : s.m_fenceValue < 2 ^ 64) (h : (s.frames fs).out = .ok s') :
    signaled (s.frames fs).calls =
      (List.range fs.length).map fun k => (s.m_fenceValue + k) % 2 ^ 64 := by
  induction fs generalizing s with
  | nil => rfl
  | cons f fs ih =>
    simp only [frames] at h ⊢
    obtain ⟨s1, h1, h2, hc⟩ := Run.bind_calls _ _ _ h
    obtain ⟨e1, hb1, -⟩ := frame_ok _ _ _ hb h1
    have hfv1' : s1.m_fenceValue = (s.m_fenceValue + 1) % 2 ^ 64 := by rw [e1]
    have hfv1 : s1.m_fenceValue < 2 ^ 64 := by
      rw [hfv1']; exact Nat.mod_lt _ (by norm_num)
    rw [hc, signaled_append, frame_signaled _ _ _ h1, ih s1 hb1 hfv1 h2, hfv1']
    simp only [List.length_cons, List.range_succ_eq_map, List.map_cons, List.map_map,
      List.singleton_append, Nat.add_zero, Nat.mod_eq_of_lt hfv]
    congr 1
    apply List.map_congr_left
    intro k _
    simp only [Function.comp]
    omega


end DX12Renderer

/-! ## Frames in flight -/

/-- When no older signal is queued and the last operation queued is `Signal(v)`, the GPU
has either left the fence alone and still has `Signal(v)` queued, or has retired
everything and the fence stands at `v`. -/
theorem Gpu.retire_nosignal (k : Nat) (g : Gpu) (ops : List GpuOp) (v : Nat)
    (h : g.pending = ops ++ [.signal v]) (hn : ∀ op ∈ ops, op.isSignal = false) :
    ((g.retire k).fenceCompleted = g.fenceCompleted ∧
      ∃ ops', (g.retire k).pending = ops' ++ [.signal v] ∧ ∀ op ∈ ops', op.isSignal = false) ∨
    ((g.retire k).fenceCompleted = v ∧ (g.retire k).pending = []) := by
  induction k generalizing g ops with
  | zero => exact Or.inl ⟨rfl, ops, h, hn⟩
  | succ k ih =>
    simp only [Gpu.retire]
    cases ops with
    | nil =>
      have h1 : g.retireOne.pending = [] := by simp [Gpu.retireOne, h]
      have h2 : g.retireOne.fenceCompleted = v := by simp [Gpu.retireOne, h]
      rw [Gpu.retire_nil _ _ h1]
      exact Or.inr ⟨h2, h1⟩
    | cons op ops =>
      have hop : op.isSignal = false := hn op (List.mem_cons_self _ _)
      have h1 : g.retireOne.pending = ops ++ [.signal v] := by
        cases op <;> simp [Gpu.retireOne, h]
      have h2 : g.retireOne.fenceCompleted = g.fenceCompleted := by
        cases op <;> simp_all [Gpu.retireOne, GpuOp.isSignal]
      rcases ih _ _ h1 (fun o ho => hn o (List.mem_cons_of_mem _ ho)) with ⟨a, b⟩ | c
      · exact Or.inl ⟨a.trans h2, b⟩
      · exact Or.inr c

theorem waitFence_nosignal (v c : Nat) (ops : List GpuOp)
    (hn : ∀ op ∈ ops, op.isSignal = false) (hc : c < v) :
    waitFence v (ops ++ [.signal v]) c = some ([], v) := by
  induction ops with
  | nil => simp [waitFence, Nat.not_le.mpr hc]
  | cons op ops ih =>
    have hop : op.isSignal = false := hn op (List.mem_cons_self _ _)
    have ih' := ih (fun o ho => hn o (List.mem_cons_of_mem _ ho))
    rw [List.cons_append]
    unfold waitFence
    simp only [Nat.not_le.mpr hc, if_false]
    cases op with
    | signal u => simp [GpuOp.isSignal] at hop
    | upload => exact ih'
    | execute => exact ih'
    | present => exact ih'
    | commit => exact ih'

namespace DX12Renderer

/-- The wait inside a returning `WaitForPreviousFrame`: after the signal is queued and
the GPU has retired what the pace says, either the fence is seen at or past the value
signaled and nothing more is retired, or the wait retires up to the point where it is. -/
theorem WaitForPreviousFrame_gpu (s s' : DX12Renderer) (pace : GpuPace)
    (h : (s.WaitForPreviousFrame pace).out = .ok s') :
    let g2 := ({ s.gpu with pending := s.gpu.pending ++ [.signal s.m_fenceValue] } : Gpu).retire
      pace.retired
    (¬ g2.fenceCompleted < s.m_fenceValue ∧ s'.gpu = g2) ∨
    (g2.fenceCompleted < s.m_fenceValue ∧ ∃ rest done,
      waitFence s.m_fenceValue g2.pending g2.fenceCompleted = some (rest, done) ∧
      s'.gpu = { g2 with pending := rest, fenceCompleted := done }) := by
  obtain ⟨-, -, -, -, -, -, q, f, sc, hq, hf, hsc⟩ := WaitForPreviousFrame_ok _ _ _ h
  simp only [WaitForPreviousFrame, hq, hf, Run.bind_out_ok] at h
  obtain ⟨s2, h2, h3⟩ := h
  have hg : s'.gpu = s2.gpu := by
    split at h3
    · simp at h3
    · simp only [Outcome.ok.injEq] at h3
      rw [← h3]
  intro g2
  split at h2
  · rename_i hlt
    split at h2
    · split at h2
      · rename_i rest done hw
        simp only [Outcome.ok.injEq] at h2
        refine Or.inr ⟨hlt, rest, done, hw, ?_⟩
        rw [hg, ← h2]
      · simp at h2
    · simp at h2
  · rename_i hlt
    simp only [Outcome.ok.injEq] at h2
    refine Or.inl ⟨hlt, ?_⟩
    rw [hg, ← h2]

/-- When the fence is behind the counter and no older signal is queued, a returning
`WaitForPreviousFrame` leaves the queue empty and the fence at the value signaled. -/
theorem WaitForPreviousFrame_drained (s s' : DX12Renderer) (pace : GpuPace)
    (h : (s.WaitForPreviousFrame pace).out = .ok s')
    (hn : ∀ op ∈ s.gpu.pending, op.isSignal = false)
    (hc : s.gpu.fenceCompleted < s.m_fenceValue) :
    s'.gpu.pending = [] ∧ s'.gpu.fenceCompleted = s.m_fenceValue := by
  have hr := Gpu.retire_nosignal pace.retired
    ({ s.gpu with pending := s.gpu.pending ++ [.signal s.m_fenceValue] } : Gpu) s.gpu.pending
    s.m_fenceValue rfl hn
  simp only at hr
  rcases WaitForPreviousFrame_gpu _ _ _ h with ⟨hge, hg⟩ | ⟨hlt, rest, done, hw, hg⟩
  · rw [hg]
    rcases hr with ⟨a, -⟩ | ⟨a, b⟩
    · rw [a] at hge
      exact absurd hc hge
    · exact ⟨b, a⟩
  · rw [hg]
    rcases hr with ⟨a, ops', b, hn'⟩ | ⟨a, -⟩
    · rw [b, a, waitFence_nosignal _ _ _ hn' hc] at hw
      simp only [Option.some.injEq, Prod.mk.injEq] at hw
      exact ⟨hw.1.symm, hw.2.symm⟩
    · rw [a] at hlt
      exact absurd hlt (Nat.lt_irrefl _)

/-- When the fence is already at or past the counter and the GPU has retired nothing,
`WaitForPreviousFrame` returns without waiting and the signal stays queued. -/
theorem WaitForPreviousFrame_nowait (s s' : DX12Renderer) (pace : GpuPace)
    (h : (s.WaitForPreviousFrame pace).out = .ok s') (hp : pace.retired = 0)
    (hc : s.m_fenceValue ≤ s.gpu.fenceCompleted) :
    s'.gpu.pending = s.gpu.pending ++ [.signal s.m_fenceValue] := by
  rcases WaitForPreviousFrame_gpu _ _ _ h with ⟨-, hg⟩ | ⟨hlt, -⟩
  · rw [hg, hp]
    rfl
  · rw [hp] at hlt
    simp only [Gpu.retire] at hlt
    omega

/-- The steps of a returning `EndFrame`: the barrier back to `PRESENT`, the submission
and the present, then `WaitForPreviousFrame`, then the commit of the graphics memory. -/
theorem EndFrame_steps (s s' : DX12Renderer) (pace : GpuPace)
    (h : (s.EndFrame pace).out = .ok s') :
    ∃ s1 s2 : DX12Renderer,
      s1.m_fenceValue = s.m_fenceValue ∧
      s1.gpu.pending = s.gpu.pending ++ [.execute, .present] ∧
      s1.gpu.fenceCompleted = s.gpu.fenceCompleted ∧
      (s1.WaitForPreviousFrame pace).out = .ok s2 ∧
      s'.gpu.pending = s2.gpu.pending ++ [.commit] ∧
      s'.gpu.fenceCompleted = s2.gpu.fenceCompleted := by
  unfold EndFrame at h
  split at h
  · simp at h
  split at h
  · simp at h
  split at h
  · simp at h
  split at h
  · simp at h
  split at h
  · simp at h
  split at h
  · simp at h
  split at h
  · simp at h
  simp only [Run.bind_out_ok] at h
  obtain ⟨s2, ⟨s1, h1, hw⟩, h3⟩ := h
  simp only [Outcome.ok.injEq] at h1
  split at h3
  · simp at h3
  simp only [Outcome.ok.injEq] at h3
  refine ⟨s1, s2, ?_, ?_, ?_, hw, ?_, ?_⟩
  · rw [← h1]
  · rw [← h1]; rfl
  · rw [← h1]; rfl
  · rw [← h3]
  · rw [← h3]

/-- A frame that starts with the fence one behind the counter and no signal queued
returns with the fence at the value it signaled and only the graphics-memory commit
queued: its command list has been retired. -/
theorem frame_drained (s s' : DX12Renderer) (f : Frame) (h : (s.frame f).out = .ok s')
    (hn : ∀ op ∈ s.gpu.pending, op.isSignal = false)
    (hc : s.gpu.fenceCompleted < s.m_fenceValue) :
    s'.gpu.pending = [.commit] ∧ s'.gpu.fenceCompleted = s.m_fenceValue := by
  simp only [frame, Run.bind_out_ok] at h
  obtain ⟨s3, h3, h4⟩ := h
  have e3 := recordFrame_ok _ _ _ h3
  obtain ⟨s1, s2, a1, a2, a3, hw, a5, a6⟩ := EndFrame_steps _ _ _ h4
  have hp3 : s3.gpu.pending = s.gpu.pending := by rw [e3]; rfl
  have hc3 : s3.gpu.fenceCompleted = s.gpu.fenceCompleted := by rw [e3]; rfl
  have hf3 : s3.m_fenceValue = s.m_fenceValue := by rw [e3]
  have hn1 : ∀ op ∈ s1.gpu.pending, op.isSignal = false := by
    intro op hop
    rw [a2, hp3] at hop
    simp only [List.mem_append, List.mem_cons, List.mem_singleton, List.not_mem_nil,
      or_false] at hop
    rcases hop with hop | rfl | rfl
    · exact hn op hop
    · rfl
    · rfl
  obtain ⟨d1, d2⟩ := WaitForPreviousFrame_drained _ _ _ hw hn1
    (by rw [a3, a1, hc3, hf3]; exact hc)
  refine ⟨by rw [a5, d1]; rfl, by rw [a6, d2, a1, hf3]⟩

/-- A frame that starts with the fence already at or past the counter, on a GPU that has
retired nothing when the fence is polled, returns with its command list still queued. -/
theorem frame_nowait (s s' : DX12Renderer) (f : Frame) (h : (s.frame f).out = .ok s')
    (hp : f.pace.retired = 0) (hc : s.m_fenceValue ≤ s.gpu.fenceCompleted) :
    s'.gpu.pending =
      s.gpu.pending ++ [.execute, .present, .signal s.m_fenceValue, .commit] := by
  simp only [frame, Run.bind_out_ok] at h
  obtain ⟨s3, h3, h4⟩ := h
  have e3 := recordFrame_ok _ _ _ h3
  obtain ⟨s1, s2, a1, a2, a3, hw, a5, a6⟩ := EndFrame_steps _ _ _ h4
  have hp3 : s3.gpu.pending = s.gpu.pending := by rw [e3]; rfl
  have hc3 : s3.gpu.fenceCompleted = s.gpu.fenceCompleted := by rw [e3]; rfl
  have hf3 : s3.m_fenceValue = s.m_fenceValue := by rw [e3]
  have := WaitForPreviousFrame_nowait _ _ _ hw hp (by rw [a3, a1, hc3, hf3]; exact hc)
  rw [a5, this, a2, hp3, a1, hf3]
  simp

/-- While the counter has not wrapped, frames keep the fence at the number of frames
driven and leave no command list queued. -/
theorem frames_drained (fs : List Frame) (s s' : DX12Renderer) (n : Nat)
    (hb : s.AtFrameBoundary) (h : (s.frames fs).out = .ok s')
    (hfv : s.m_fenceValue = (n + 1) % 2 ^ 64) (hc : s.gpu.fenceCompleted = n)
    (hn : ∀ op ∈ s.gpu.pending, op.isSignal = false) (hx : s.gpu.framesInFlight = 0)
    (hbound : n + fs.length < 2 ^ 64) :
    s'.m_fenceValue = (n + fs.length + 1) % 2 ^ 64 ∧ s'.gpu.fenceCompleted = n + fs.length ∧
    (∀ op ∈ s'.gpu.pending, op.isSignal = false) ∧ s'.gpu.framesInFlight = 0 := by
  induction fs generalizing s n with
  | nil =>
    simp only [frames, Outcome.ok.injEq] at h
    subst h
    exact ⟨hfv, hc, hn, hx⟩
  | cons f fs ih =>
    simp only [frames, Run.bind_out_ok] at h
    obtain ⟨s1, h1, h2⟩ := h
    simp only [List.length_cons] at hbound ⊢
    have hfv' : s.m_fenceValue = n + 1 := by
      rw [hfv]; exact Nat.mod_eq_of_lt (by omega)
    obtain ⟨e1, hb1, -⟩ := frame_ok _ _ _ hb h1
    obtain ⟨d1, d2⟩ := frame_drained _ _ _ h1 hn (by omega)
    have hfv1 : s1.m_fenceValue = (n + 1 + 1) % 2 ^ 64 := by rw [e1, hfv']
    have hn1 : ∀ op ∈ s1.gpu.pending, op.isSignal = false := by
      intro op hop
      rw [d1] at hop
      simp only [List.mem_singleton] at hop
      subst hop
      rfl
    have hx1 : s1.gpu.framesInFlight = 0 := by
      simp [Gpu.framesInFlight, d1]
    obtain ⟨i1, i2, i3, i4⟩ := ih s1 (n + 1) hb1 h2 hfv1 (by rw [d2, hfv']) hn1 hx1 (by omega)
    refine ⟨?_, ?_, i3, i4⟩
    · rw [i1]; congr 1; omega
    · rw [i2]; omega

end DX12Renderer

/-! ## Teardown -/

theorem Run.mem_bind_calls {σ : Type} (r : Run σ) (k : σ → Run σ) (c : Call)
    (h : c ∈ (r.bind k).calls) : c ∈ r.calls ∨ ∃ s, r.out = .ok s ∧ c ∈ (k s).calls := by
  unfold Run.bind at h
  cases hr : r.out with
  | ok s =>
    simp only [hr, List.mem_append] at h
    rcases h with h | h
    · exact Or.inl h
    · exact Or.inr ⟨s, rfl, h⟩
  | threw s w => simp only [hr] at h; exact Or.inl h
  | fault w => simp only [hr] at h; exact Or.inl h
  | hung => simp only [hr] at h; exact Or.inl h

namespace DX12Renderer

/-- Every call of `WaitForPreviousFrame` is one of `Signal`, `GetCompletedValue`,
`SetEventOnCompletion`, `WaitForSingleObject` and `GetCurrentBackBufferIndex`, and the
event it is given is the one the renderer holds. -/
theorem WaitForPreviousFrame_isFenceWait (s : DX12Renderer) (pace : GpuPace) :
    ∀ c ∈ (s.WaitForPreviousFrame pace).calls, c.isFenceWait s.m_fenceEvent = true := by
  intro c hc
  unfold WaitForPreviousFrame at hc
  rcases hq : s.m_commandQueue with _ | q
  · simp [hq] at hc
  rcases hf : s.m_fence with _ | f
  · simp only [hq, hf, List.mem_singleton] at hc
    subst hc
    rfl
  simp only [hq, hf] at hc
  rcases Run.mem_bind_calls _ _ _ hc with h1 | ⟨s2, -, h2⟩
  · split at h1
    · split at h1
      · split at h1 <;>
        · simp only [List.mem_append, List.mem_cons, List.mem_singleton, List.not_mem_nil,
            or_false] at h1
          rcases h1 with (rfl | rfl) | rfl | rfl <;> simp [Call.isFenceWait]
      · simp only [List.mem_append, List.mem_cons, List.mem_singleton, List.not_mem_nil,
          or_false] at h1
        rcases h1 with (rfl | rfl) | rfl | rfl <;> simp [Call.isFenceWait]
    · simp only [List.mem_append, List.mem_cons, List.mem_singleton, List.not_mem_nil,
        or_false] at h1
      rcases h1 with rfl | rfl <;> simp [Call.isFenceWait]
  · split at h2
    · simp at h2
    · simp only [List.mem_singleton] at h2
      subst h2
      rfl

/-- A call of `WaitForPreviousFrame` releases nothing, and is given no event handle
other than the one the renderer holds. -/
theorem isFenceWait_handles (event : Option Nat) (c : Call) (h : c.isFenceWait event = true) :
    c.released = [] ∧
    ∀ x ∈ c.used, x.kind = .com ∨ (x.kind = .event ∧ event = some x.id) := by
  cases c <;> simp [Call.isFenceWait] at h <;> simp [Call.released, Call.used]
  case SetEventOnCompletion f v e =>
    subst h
    cases e <;> simp
  case WaitForSingleObject e =>
    subst h
    cases e <;> simp [Call.used]

/-- What `OnDestroy` does when it returns: the wait, if there is a device, and then the
teardown of what is still held. -/
theorem OnDestroy_ok (s s' : DX12Renderer) (pace : GpuPace)
    (h : (s.OnDestroy pace).out = .ok s') :
    ∃ sw : DX12Renderer,
      ((s.m_device = none ∧ sw = s) ∨
       (s.m_device.isSome ∧ (s.WaitForPreviousFrame pace).out = .ok sw)) ∧
      s' = { sw with
        m_fenceEvent := none, m_spriteBatch := none, m_font := none, m_largeFont := none,
        m_graphicsMemory := none } ∧
      ∀ c ∈ (s.OnDestroy pace).calls,
        c.isFenceWait s.m_fenceEvent = true ∨
        c ∈ (sw.m_swapChain.map Call.SetFullscreenState).toList ++
            (sw.m_fenceEvent.map Call.CloseHandle).toList ++
            ((sw.m_spriteBatch.map Call.Delete).toList ++
             (sw.m_font.map fun f => Call.Delete f.ptr).toList ++
             (sw.m_largeFont.map fun f => Call.Delete f.ptr).toList ++
             (sw.m_graphicsMemory.map Call.Delete).toList) := by
  unfold OnDestroy at h ⊢
  obtain ⟨sw, h1, h2, hc⟩ := Run.bind_calls _ _ _ h
  simp only [Outcome.ok.injEq] at h2
  refine ⟨sw, ?_, h2.symm, ?_⟩
  · cases hd : s.m_device with
    | none =>
      simp only [hd, Outcome.ok.injEq] at h1
      exact Or.inl ⟨rfl, h1.symm⟩
    | some d =>
      simp only [hd] at h1
      exact Or.inr ⟨rfl, h1⟩
  · intro c hmem
    rw [hc] at hmem
    simp only [List.mem_append] at hmem
    rcases hmem with hmem | hmem
    · left
      cases hd : s.m_device with
      | none => simp [hd] at hmem
      | some d =>
        simp only [hd] at hmem
        exact WaitForPreviousFrame_isFenceWait _ _ c hmem
    · right
      simp only [List.mem_append]
      cases hsc : sw.m_swapChain <;> cases he : sw.m_fenceEvent <;>
        simp only [hsc, he, List.mem_append] at hmem ⊢ <;> simpa using hmem

end DX12Renderer

namespace DX12Renderer

/-- Every call of `OnDestroy` is a call of `WaitForPreviousFrame` or one of the teardown
calls for what the renderer held when `OnDestroy` was called. -/
theorem OnDestroy_calls (s : DX12Renderer) (pace : GpuPace) :
    ∀ c ∈ (s.OnDestroy pace).calls,
      c.isFenceWait s.m_fenceEvent = true ∨
      c ∈ (s.m_swapChain.map Call.SetFullscreenState).toList ++
          (s.m_fenceEvent.map Call.CloseHandle).toList ++
          ((s.m_spriteBatch.map Call.Delete).toList ++
           (s.m_font.map fun f => Call.Delete f.ptr).toList ++
           (s.m_largeFont.map fun f => Call.Delete f.ptr).toList ++
           (s.m_graphicsMemory.map Call.Delete).toList) := by
  intro c hc
  unfold OnDestroy at hc
  rcases Run.mem_bind_calls _ _ _ hc with h1 | ⟨sw, hsw, h2⟩
  · left
    cases hd : s.m_device with
    | none => simp [hd] at h1
    | some d =>
      simp only [hd] at h1
      exact WaitForPreviousFrame_isFenceWait _ _ c h1
  · right
    have e : sw.m_swapChain = s.m_swapChain ∧ sw.m_fenceEvent = s.m_fenceEvent ∧
        sw.m_spriteBatch = s.m_spriteBatch ∧ sw.m_font = s.m_font ∧
        sw.m_largeFont = s.m_largeFont ∧ sw.m_graphicsMemory = s.m_graphicsMemory := by
      cases hd : s.m_device with
      | none =>
        simp only [hd, Outcome.ok.injEq] at hsw
        subst hsw
        exact ⟨rfl, rfl, rfl, rfl, rfl, rfl⟩
      | some d =>
        simp only [hd] at hsw
        rw [(WaitForPreviousFrame_ok _ _ _ hsw).1]
        exact ⟨rfl, rfl, rfl, rfl, rfl, rfl⟩
    obtain ⟨e1, e2, e3, e4, e5, e6⟩ := e
    rw [← e1, ← e2, ← e3, ← e4, ← e5, ← e6]
    simp only [List.mem_append] at h2 ⊢
    cases hsc : sw.m_swapChain <;> cases he : sw.m_fenceEvent <;>
      simp only [hsc, he, List.mem_append] at h2 ⊢ <;> simpa using h2

end DX12Renderer

/-! ## Events of the engine -/

theorem notInitialize_platform (a : Nat) (cs : List Call) :
    ∀ ev ∈ cs.map (Event.platform a), (!ev.isInitialize) = true := by
  intro ev hev
  simp only [List.mem_map] at hev
  obtain ⟨c, -, rfl⟩ := hev
  rfl

theorem isOf_platform_ne (a b : Nat) (hne : a ≠ b) (cs : List Call) :
    ∀ ev ∈ cs.map (Event.platform b), ev.isOf a = false := by
  intro ev hev
  simp only [List.mem_map] at hev
  obtain ⟨c, -, rfl⟩ := hev
  simp only [Event.isOf, beq_eq_false_iff_ne, ne_eq]
  exact fun h => hne h.symm

theorem Run.bind_out_threw {σ : Type} (r : Run σ) (k : σ → Run σ) (s' : σ) (w : String) :
    (r.bind k).out = .threw s' w ↔
      r.out = .threw s' w ∨ ∃ s, r.out = .ok s ∧ (k s).out = .threw s' w := by
  unfold Run.bind
  cases h : r.out <;> simp

theorem Run.map_out_threw {σ τ : Type} (f : σ → τ) (r : Run σ)
    (h : ∀ s w, r.out ≠ .threw s w) : ∀ t w, (r.map f).out ≠ .threw t w := by
  intro t w
  unfold Run.map
  cases hr : r.out with
  | ok s => simp
  | threw s w' => exact absurd hr (h s w')
  | fault w' => simp
  | hung => simp

/-- `WaitForPreviousFrame` throws no exception. -/
theorem DX12Renderer.WaitForPreviousFrame_no_throw (s : DX12Renderer) (pace : GpuPace) :
    ∀ s' w, (s.WaitForPreviousFrame pace).out ≠ .threw s' w := by
  intro s' w h
  unfold DX12Renderer.WaitForPreviousFrame at h
  rcases hq : s.m_commandQueue with _ | q
  · simp [hq] at h
  rcases hf : s.m_fence with _ | f
  · simp [hq, hf] at h
  simp only [hq, hf] at h
  rw [Run.bind_out_threw] at h
  rcases h with h | ⟨s2, -, h⟩
  · split at h
    · split at h
      · split at h <;> simp at h
      · simp at h
    · simp at h
  · split at h <;> simp at h

/-- `OnDestroy` throws no exception, on either backend. -/
theorem Renderer.OnDestroy_no_throw (rd : Renderer) (pace : GpuPace) :
    ∀ s' w, (rd.OnDestroy pace).out ≠ .threw s' w := by
  cases rd with
  | gdi g =>
    apply Run.map_out_threw
    intro s w h
    simp [GDIRenderer.OnDestroy] at h
  | dx12 d =>
    apply Run.map_out_threw
    intro s w h
    unfold DX12Renderer.OnDestroy at h
    rw [Run.bind_out_threw] at h
    rcases h with h | ⟨s2, -, h⟩
    · split at h
      · exact DX12Renderer.WaitForPreviousFrame_no_throw _ _ _ _ h
      · simp at h
    · simp at h

/-! ## C1, C2: switching the renderer -/

/-- C1: when the engine holds a renderer `old` and is switched to another renderer
`new`, no event of `old` (its `OnDestroy`, its destruction, or any platform call it
makes) occurs once `Initialize` of `new` has begun; whenever `OnDestroy` and the
destructor of `old` return, `Initialize` of `new` does begin, with the window handle,
width and height stored in the engine, after the `OnDestroy` call and the destruction of
`old`, and it begins once; and whenever `SwitchRenderer` returns or throws, `OnDestroy`
and the destructor of `old` have returned. -/
theorem C1_shutdown_before_initialize (e : Engine) (old new : RendererPtr) (p : Platform)
    (hold : e.m_renderer = some old) (hne : old.addr ≠ new.addr) :
    (∀ ev ∈ fromInitialize (e.SwitchRenderer (some new) p).events, ev.isOf old.addr = false) ∧
    (∀ o1 o2, (old.obj.OnDestroy p.pace1).out = .ok o1 → (o1.destroy p.pace2).out = .ok o2 →
      (fromInitialize (e.SwitchRenderer (some new) p).events).head? =
        some (.Initialize new.addr e.m_hwnd e.m_width e.m_height) ∧
      Event.OnDestroy old.addr ∈ beforeInitialize (e.SwitchRenderer (some new) p).events ∧
      Event.destructor old.addr ∈ beforeInitialize (e.SwitchRenderer (some new) p).events ∧
      (∀ ev ∈ (fromInitialize (e.SwitchRenderer (some new) p).events).tail,
        ev.isInitialize = false)) ∧
    (∀ e', ((e.SwitchRenderer (some new) p).out = .ok e' ∨
        ∃ w, (e.SwitchRenderer (some new) p).out = .threw e' w) →
      ∃ o1 o2, (old.obj.OnDestroy p.pace1).out = .ok o1 ∧ (o1.destroy p.pace2).out = .ok o2) := by
  have hnt := Renderer.OnDestroy_no_throw old.obj p.pace1
  have hA : ∀ (cs : List Call) (x : Event), x.isInitialize = false →
      ∀ ev ∈ x :: cs.map (Event.platform old.addr), (!ev.isInitialize) = true := by
    intro cs x hx ev hev
    rcases List.mem_cons.mp hev with rfl | hev
    · simp [hx]
    · exact notInitialize_platform _ _ ev hev
  -- the events when the shutdown of the old renderer does not return
  have stuck : ∀ (evs : List Event), (∀ ev ∈ evs, (!ev.isInitialize) = true) →
      fromInitialize evs = [] := by
    intro evs h
    have := @List.dropWhile_append_of_pos Event (fun ev => !ev.isInitialize) evs [] h
    rw [List.append_nil] at this
    rw [fromInitialize, this]
    rfl
  cases h1 : (old.obj.OnDestroy p.pace1).out with
  | threw s w => exact absurd h1 (hnt s w)
  | fault w =>
    have hev : (e.SwitchRenderer (some new) p).events =
        Event.OnDestroy old.addr ::
          (old.obj.OnDestroy p.pace1).calls.map (Event.platform old.addr) := by
      simp [Engine.SwitchRenderer, hold, Engine.invoke, EngineRun.bind, h1]
    have hout : (e.SwitchRenderer (some new) p).out = .fault w := by
      simp [Engine.SwitchRenderer, hold, Engine.invoke, EngineRun.bind, h1]
    have hfrom := stuck _ (hA (old.obj.OnDestroy p.pace1).calls (.OnDestroy old.addr) rfl)
    rw [← hev] at hfrom
    refine ⟨?_, ?_, ?_⟩
    · rw [hfrom]; simp
    · intro o1 o2 h; cases h
    · intro e' h
      rw [hout] at h
      rcases h with h | ⟨w', h⟩ <;> cases h
  | hung =>
    have hev : (e.SwitchRenderer (some new) p).events =
        Event.OnDestroy old.addr ::
          (old.obj.OnDestroy p.pace1).calls.map (Event.platform old.addr) := by
      simp [Engine.SwitchRenderer, hold, Engine.invoke, EngineRun.bind, h1]
    have hout : (e.SwitchRenderer (some new) p).out = .hung := by
      simp [Engine.SwitchRenderer, hold, Engine.invoke, EngineRun.bind, h1]
    have hfrom := stuck _ (hA (old.obj.OnDestroy p.pace1).calls (.OnDestroy old.addr) rfl)
    rw [← hev] at hfrom
    refine ⟨?_, ?_, ?_⟩
    · rw [hfrom]; simp
    · intro o1 o2 h; cases h
    · intro e' h
      rw [hout] at h
      rcases h with h | ⟨w', h⟩ <;> cases h
  | ok o1 =>
    have hshut : ∀ ev ∈ Event.OnDestroy old.addr ::
        (old.obj.OnDestroy p.pace1).calls.map (Event.platform old.addr) ++
        Event.destructor old.addr :: (o1.destroy p.pace2).calls.map (Event.platform old.addr),
        (!ev.isInitialize) = true := by
      intro ev hev
      rcases List.mem_append.mp hev with hev | hev
      · exact hA _ (.OnDestroy old.addr) rfl ev hev
      · exact hA _ (.destructor old.addr) rfl ev hev
    by_cases h2 : ∃ o2, (o1.destroy p.pace2).out = .ok o2
    · obtain ⟨o2, h2⟩ := h2
      -- the events of the whole switch
      have hev : ∃ tail : List Event,
          (e.SwitchRenderer (some new) p).events =
            (Event.OnDestroy old.addr ::
              (old.obj.OnDestroy p.pace1).calls.map (Event.platform old.addr) ++
              Event.destructor old.addr ::
                (o1.destroy p.pace2).calls.map (Event.platform old.addr)) ++
            (Event.Initialize new.addr e.m_hwnd e.m_width e.m_height ::
              ((new.obj.Initialize e.m_hwnd e.m_width e.m_height p).calls.map
                (Event.platform new.addr) ++ tail)) ∧
          (tail = [] ∨ tail = [.InvalidateRect e.m_hwnd, .UpdateWindow e.m_hwnd]) := by
        cases h3 : (new.obj.Initialize e.m_hwnd e.m_width e.m_height p).out with
        | ok n1 =>
          exact ⟨[.InvalidateRect e.m_hwnd, .UpdateWindow e.m_hwnd],
            by simp [Engine.SwitchRenderer, hold, Engine.invoke, EngineRun.bind, h1, h2, h3],
            Or.inr rfl⟩
        | threw n1 w =>
          exact ⟨[], by simp [Engine.SwitchRenderer, hold, Engine.invoke, EngineRun.bind, h1, h2, h3],
            Or.inl rfl⟩
        | fault w =>
          exact ⟨[], by simp [Engine.SwitchRenderer, hold, Engine.invoke, EngineRun.bind, h1, h2, h3],
            Or.inl rfl⟩
        | hung =>
          exact ⟨[], by simp [Engine.SwitchRenderer, hold, Engine.invoke, EngineRun.bind, h1, h2, h3],
            Or.inl rfl⟩
      obtain ⟨tail, hev, htail⟩ := hev
      have hfrom : fromInitialize (e.SwitchRenderer (some new) p).events =
          Event.Initialize new.addr e.m_hwnd e.m_width e.m_height ::
            ((new.obj.Initialize e.m_hwnd e.m_width e.m_height p).calls.map
              (Event.platform new.addr) ++ tail) := by
        rw [hev, fromInitialize, List.dropWhile_append_of_pos hshut]
        rfl
      have hbefore : beforeInitialize (e.SwitchRenderer (some new) p).events =
          Event.OnDestroy old.addr ::
            (old.obj.OnDestroy p.pace1).calls.map (Event.platform old.addr) ++
          Event.destructor old.addr ::
            (o1.destroy p.pace2).calls.map (Event.platform old.addr) := by
        rw [hev, beforeInitialize, List.takeWhile_append_of_pos hshut]
        simp [List.takeWhile, Event.isInitialize]
      refine ⟨?_, ?_, ?_⟩
      · intro ev hmem
        rw [hfrom] at hmem
        rcases List.mem_cons.mp hmem with rfl | hmem
        · simp only [Event.isOf, beq_eq_false_iff_ne, ne_eq]
          exact fun h => hne h.symm
        · rcases List.mem_append.mp hmem with hmem | hmem
          · exact isOf_platform_ne _ _ hne _ ev hmem
          · rcases htail with rfl | rfl
            · cases hmem
            · simp only [List.mem_cons, List.mem_singleton, List.not_mem_nil, or_false] at hmem
              rcases hmem with rfl | rfl <;> rfl
      · intro o1' o2' ho1 ho2
        simp only [Outcome.ok.injEq] at ho1
        subst ho1
        refine ⟨by rw [hfrom]; rfl, by rw [hbefore]; simp, by rw [hbefore]; simp, ?_⟩
        intro ev hmem
        rw [hfrom, List.tail_cons] at hmem
        rcases List.mem_append.mp hmem with hmem | hmem
        · have := notInitialize_platform _ _ ev hmem
          simpa using this
        · rcases htail with rfl | rfl
          · cases hmem
          · simp only [List.mem_cons, List.mem_singleton, List.not_mem_nil, or_false] at hmem
            rcases hmem with rfl | rfl <;> rfl
      · intro e' _
        exact ⟨o1, o2, rfl, h2⟩
    · -- the destructor of the old renderer does not return
      have hev : (e.SwitchRenderer (some new) p).events =
          Event.OnDestroy old.addr ::
            (old.obj.OnDestroy p.pace1).calls.map (Event.platform old.addr) ++
          Event.destructor old.addr ::
            (o1.destroy p.pace2).calls.map (Event.platform old.addr) ∧
          ∀ e', (e.SwitchRenderer (some new) p).out ≠ .ok e' ∧
            ∀ w, (e.SwitchRenderer (some new) p).out ≠ .threw e' w := by
        cases h2' : (o1.destroy p.pace2).out with
        | ok o2 => exact absurd ⟨o2, h2'⟩ h2
        | threw o2 w =>
          refine ⟨?_, fun e' => ⟨?_, fun w' => ?_⟩⟩ <;>
            simp [Engine.SwitchRenderer, hold, Engine.invoke, EngineRun.bind, h1, h2']
        | fault w =>
          refine ⟨?_, fun e' => ⟨?_, fun w' => ?_⟩⟩ <;>
            simp [Engine.SwitchRenderer, hold, Engine.invoke, EngineRun.bind, h1, h2']
        | hung =>
          refine ⟨?_, fun e' => ⟨?_, fun w' => ?_⟩⟩ <;>
            simp [Engine.SwitchRenderer, hold, Engine.invoke, EngineRun.bind, h1, h2']
      obtain ⟨hev, hout⟩ := hev
      have hfrom := stuck _ hshut
      rw [← hev] at hfrom
      refine ⟨?_, ?_, ?_⟩
      · rw [hfrom]; simp
      · intro o1' o2' ho1 ho2
        simp only [Outcome.ok.injEq] at ho1
        subst ho1
        exact absurd ⟨o2', ho2⟩ h2
      · intro e' h
        rcases h with h | ⟨w, h⟩
        · exact absurd h (hout e').1
        · exact absurd h ((hout e').2 w)

/-- C1 at a concrete input: the sample engine, holding the software renderer at address
1, is switched to a fresh hardware renderer at address 2 on a platform where everything
succeeds. -/
theorem C1_shutdown_before_initialize_witness :
    sampleEngine.m_renderer = some { addr := 1, obj := .gdi sampleGDI } ∧ (1 : Nat) ≠ 2 ∧
    (∀ ev ∈ fromInitialize (sampleEngine.SwitchRenderer (some freshDX12) goodPlatform).events,
      ev.isOf 1 = false) ∧
    (fromInitialize (sampleEngine.SwitchRenderer (some freshDX12) goodPlatform).events).head? =
      some (.Initialize 2 (some 100) 1280 720) ∧
    Event.OnDestroy 1 ∈
      beforeInitialize (sampleEngine.SwitchRenderer (some freshDX12) goodPlatform).events ∧
    Event.destructor 1 ∈
      beforeInitialize (sampleEngine.SwitchRenderer (some freshDX12) goodPlatform).events :=
  have h := C1_shutdown_before_initialize sampleEngine { addr := 1, obj := .gdi sampleGDI }
    freshDX12 goodPlatform rfl (by decide)
  have h2 := h.2.1 _ _ (by rfl) (by rfl)
  ⟨rfl, by decide, h.1, h2.1, h2.2.1, h2.2.2.1⟩

theorem sampleSwitch_fails :
    (sampleEngine.SwitchRenderer (some freshDX12) noDevicePlatform).out =
      .threw engineAfterFailedSwitch "Failed to create D3D12 device" := by rfl

/-- C2 at the failing input: the engine holds the software renderer and is switched to a
fresh hardware renderer on a platform where `D3D12CreateDevice` fails.  `SwitchRenderer`
lets the exception through with the failed renderer in `m_renderer`: the slot is not
empty, `GetRendererName` returns "DirectX 12 Renderer" and not "No Renderer", and
`Render` is not a no-op: it goes into `RenderScene` and dereferences the null command
allocator in `BeginFrame`. -/
theorem C2_failed_switch_keeps_renderer :
    (sampleEngine.SwitchRenderer (some freshDX12) noDevicePlatform).out =
      .threw engineAfterFailedSwitch "Failed to create D3D12 device" ∧
    engineAfterFailedSwitch.m_renderer.isSome = true ∧
    engineAfterFailedSwitch.GetRendererName = "DirectX 12 Renderer" ∧
    (engineAfterFailedSwitch.Render goodPlatform).out = .fault "m_commandAllocator" := by
  refine ⟨sampleSwitch_fails, rfl, rfl, by rfl⟩

/-! ## C3, C4: the barrier protocol and the frame index -/

theorem sampleDX12_ok : sampleDX12.out = .ok sampleState := by rfl

theorem sampleFrames_ok : (sampleState.frames sampleFrames).out = .ok sampleAfter := by rfl

theorem sampleBegun_ok : sampleAfter.BeginFrame.out = .ok sampleBegun := by rfl

theorem sampleFrames_responsive : ∀ f ∈ sampleFrames, f.pace.responsive = true := by
  intro f hf
  simp only [sampleFrames, List.mem_cons, List.mem_singleton, List.not_mem_nil, or_false,
    or_self] at hf
  rw [hf]
  rfl

theorem sampleState_healthy : sampleState.Healthy := by
  refine ⟨rfl, ?_⟩
  intro n hn
  have : n = 0 ∨ n = 1 := by simp only [DX12Renderer.FRAME_COUNT] at hn; omega
  rcases this with rfl | rfl
  · exact ⟨7, rfl⟩
  · exact ⟨8, rfl⟩

/-- C3: on the hardware backend, from the state a successful `Initialize` returns (both
swap-chain images `PRESENT`), for every number of consecutive frames (`BeginFrame`,
`Clear`, any `DrawText` calls, `EndFrame`): at every frame boundary, that is after
`Initialize` and after each `EndFrame`, every image is `PRESENT`; after the next
`BeginFrame` the current image is `RENDER_TARGET` and the other image is `PRESENT`; and
every barrier recorded up to then declared as before-state the state the image was in.
On a responsive GPU, with the fence and the images there, the frames do return. -/
theorem C3_barrier_protocol (hwnd : Option Nat) (width height : Nat) (p : DX12Platform)
    (s0 : DX12Renderer) (fs : List Frame)
    (hinit : (DX12Renderer.new.Initialize hwnd width height p).out = .ok s0) :
    (∀ s, (s0.frames fs).out = .ok s →
      (∀ i, i < DX12Renderer.FRAME_COUNT → s.gpu.bufferState.get? i = some .PRESENT) ∧
      s.gpu.BarriersConsistent ∧
      (∀ s1, s.BeginFrame.out = .ok s1 →
        s1.gpu.bufferState.get? s1.m_frameIndex = some .RENDER_TARGET ∧
        (∀ j, j < DX12Renderer.FRAME_COUNT → j ≠ s1.m_frameIndex →
          s1.gpu.bufferState.get? j = some .PRESENT) ∧
        s1.gpu.BarriersConsistent)) ∧
    (s0.Healthy → (∀ f ∈ fs, f.pace.responsive = true) → ∃ s, (s0.frames fs).out = .ok s) := by
  obtain ⟨hb0, hfv0, hbar0, -, -, -, hop0⟩ := DX12Renderer.Initialize_boundary _ _ _ _ _ hinit
  refine ⟨?_, fun hh hp => DX12Renderer.frames_return fs s0 hb0 (hop0 hh) hp⟩
  intro s hrun
  have hc0 : s0.gpu.BarriersConsistent := by
    intro b hb
    rw [hbar0] at hb
    cases hb
  obtain ⟨hb, -, -, hc, -⟩ := DX12Renderer.frames_ok fs s0 s hb0 (by rw [hfv0]; norm_num) hrun
  have hcs := hc hc0
  obtain ⟨hfi, hlt, hbs, hbo⟩ := hb
  refine ⟨?_, hcs, ?_⟩
  · intro i hi
    have : i = 0 ∨ i = 1 := by simp only [DX12Renderer.FRAME_COUNT] at hi; omega
    rcases this with rfl | rfl <;> simp [hbs]
  · intro s1 h1
    have e1 := DX12Renderer.BeginFrame_ok _ _ h1
    have hi : s.m_frameIndex < DX12Renderer.FRAME_COUNT := by rw [hfi]; exact hlt
    obtain ⟨b1, b2, b3, -⟩ := DX12Renderer.recordBarrier_begin s.gpu s.m_frameIndex hi hbs
    subst e1
    refine ⟨b1, b2, ?_⟩
    intro b hb
    simp only at hb
    rw [b3] at hb
    simp only [List.mem_append, List.mem_singleton] at hb
    rcases hb with hb | rfl
    · exact hcs b hb
    · rfl

/-- C3 at a concrete input: three frames on the sample platform, then `BeginFrame`. -/
theorem C3_barrier_protocol_witness :
    (DX12Renderer.new.Initialize (some 100) 1280 720 samplePlatform).out = .ok sampleState ∧
    (sampleState.frames sampleFrames).out = .ok sampleAfter ∧
    sampleAfter.BeginFrame.out = .ok sampleBegun ∧
    (∀ i, i < DX12Renderer.FRAME_COUNT → sampleAfter.gpu.bufferState.get? i = some .PRESENT) ∧
    sampleAfter.gpu.BarriersConsistent ∧
    sampleBegun.gpu.bufferState.get? sampleBegun.m_frameIndex = some .RENDER_TARGET ∧
    (∀ j, j < DX12Renderer.FRAME_COUNT → j ≠ sampleBegun.m_frameIndex →
      sampleBegun.gpu.bufferState.get? j = some .PRESENT) ∧
    sampleBegun.gpu.BarriersConsistent ∧
    (∃ s, (sampleState.frames sampleFrames).out = .ok s) :=
  have h := C3_barrier_protocol (some 100) 1280 720 samplePlatform sampleState sampleFrames
    sampleDX12_ok
  have h1 := h.1 sampleAfter sampleFrames_ok
  have h2 := h1.2.2 sampleBegun sampleBegun_ok
  ⟨sampleDX12_ok, sampleFrames_ok, sampleBegun_ok, h1.1, h1.2.1, h2.1, h2.2.1, h2.2.2,
   h.2 sampleState_healthy sampleFrames_responsive⟩

/-- C4: on the hardware backend, whose two-image swap chain starts at back buffer 0 and
advances by one modulo 2 on each `Present`, after `N` frames (hence `N` calls of
`EndFrame`) following a successful `Initialize` the frame index is `N mod 2`; on a
responsive GPU, with the fence and the images there, the `N` frames do return. -/
theorem C4_frame_index (hwnd : Option Nat) (width height : Nat) (p : DX12Platform)
    (s0 : DX12Renderer) (fs : List Frame)
    (hinit : (DX12Renderer.new.Initialize hwnd width height p).out = .ok s0) :
    (∀ s, (s0.frames fs).out = .ok s → s.m_frameIndex = fs.length % 2) ∧
    (s0.Healthy → (∀ f ∈ fs, f.pace.responsive = true) →
      ∃ s, (s0.frames fs).out = .ok s ∧ s.m_frameIndex = fs.length % 2) := by
  obtain ⟨hb0, hfv0, -, hfi0, -, -, hop0⟩ := DX12Renderer.Initialize_boundary _ _ _ _ _ hinit
  have key : ∀ s, (s0.frames fs).out = .ok s → s.m_frameIndex = fs.length % 2 := by
    intro s hrun
    obtain ⟨hb, hbb, -⟩ := DX12Renderer.frames_ok fs s0 s hb0 (by rw [hfv0]; norm_num) hrun
    rw [hb.1, hbb, ← hb0.1, hfi0, Nat.zero_add]
    rfl
  refine ⟨key, fun hh hp => ?_⟩
  obtain ⟨s, hs⟩ := DX12Renderer.frames_return fs s0 hb0 (hop0 hh) hp
  exact ⟨s, hs, key s hs⟩

/-- C4 at a concrete input: after three frames on the sample platform the frame index
is 1. -/
theorem C4_frame_index_witness :
    (DX12Renderer.new.Initialize (some 100) 1280 720 samplePlatform).out = .ok sampleState ∧
    (sampleState.frames sampleFrames).out = .ok sampleAfter ∧
    sampleAfter.m_frameIndex = sampleFrames.length % 2 ∧
    (∃ s, (sampleState.frames sampleFrames).out = .ok s ∧
      s.m_frameIndex = sampleFrames.length % 2) :=
  have h := C4_frame_index (some 100) 1280 720 samplePlatform sampleState sampleFrames
    sampleDX12_ok
  ⟨sampleDX12_ok, sampleFrames_ok, h.1 sampleAfter sampleFrames_ok,
   h.2 sampleState_healthy sampleFrames_responsive⟩

/-! ## C5, C6: the fence counter and the frames in flight -/

theorem sampleState_boundary :
    sampleState.AtFrameBoundary ∧ sampleState.Operational ∧ sampleState.m_fenceValue = 1 ∧
    sampleState.gpu.fenceCompleted = 0 ∧ sampleState.gpu.pending = [] :=
  ⟨⟨rfl, Nat.zero_lt_two, rfl, rfl⟩,
   ⟨rfl, rfl, rfl, rfl, rfl, rfl, rfl, rfl, rfl, sampleState_healthy⟩, rfl, rfl, rfl⟩

theorem replicate_responsive (n : Nat) :
    ∀ f ∈ List.replicate n sampleFrame, f.pace.responsive = true := by
  intro f hf
  rw [List.eq_of_mem_replicate hf]
  rfl

/-- The values the frames after a successful `Initialize` pass to `Signal`: frame number
`k` signals `k mod 2 ^ 64`. -/
theorem signaled_after_Initialize (hwnd : Option Nat) (width height : Nat) (p : DX12Platform)
    (s0 s : DX12Renderer) (fs : List Frame)
    (hinit : (DX12Renderer.new.Initialize hwnd width height p).out = .ok s0)
    (hrun : (s0.frames fs).out = .ok s) :
    signaled (s0.frames fs).calls = (List.range fs.length).map (fun k => (k + 1) % 2 ^ 64) := by
  obtain ⟨hb0, hfv0, -⟩ := DX12Renderer.Initialize_boundary _ _ _ _ _ hinit
  rw [DX12Renderer.frames_signaled fs s0 s hb0 (by rw [hfv0]; norm_num) hrun, hfv0]
  apply List.map_congr_left
  intro k _
  rw [Nat.add_comm]

/-- C5, as amended: the first value signaled after `Initialize` is 1; each call of
`WaitForPreviousFrame` signals the stored counter and then increments it by one modulo
`2 ^ 64`; so frame number `k` signals `k mod 2 ^ 64`, and the value signaled for the
next frame is greater by exactly one as long as it is below `2 ^ 64`. -/
theorem C5_fence_counter (hwnd : Option Nat) (width height : Nat) (p : DX12Platform)
    (s0 s : DX12Renderer) (fs : List Frame)
    (hinit : (DX12Renderer.new.Initialize hwnd width height p).out = .ok s0)
    (hrun : (s0.frames fs).out = .ok s) :
    s0.m_fenceValue = 1 ∧
    signaled (s0.frames fs).calls = (List.range fs.length).map (fun k => (k + 1) % 2 ^ 64) ∧
    (∀ N a b, (signaled (s0.frames fs).calls).get? N = some a →
      (signaled (s0.frames fs).calls).get? (N + 1) = some b → N + 2 < 2 ^ 64 →
      a = N + 1 ∧ b = a + 1 ∧ a < b) ∧
    (∀ (st st' : DX12Renderer) (pace : GpuPace), (st.WaitForPreviousFrame pace).out = .ok st' →
      signaled (st.WaitForPreviousFrame pace).calls = [st.m_fenceValue] ∧
      st'.m_fenceValue = (st.m_fenceValue + 1) % 2 ^ 64) := by
  obtain ⟨hb0, hfv0, -⟩ := DX12Renderer.Initialize_boundary _ _ _ _ _ hinit
  have hsig' := signaled_after_Initialize hwnd width height p s0 s fs hinit hrun
  refine ⟨hfv0, hsig', ?_, ?_⟩
  · intro N a b ha hb hN
    rw [hsig'] at ha hb
    simp only [List.get?_eq_getElem?, List.getElem?_map, Option.map_eq_some'] at ha hb
    obtain ⟨k, hk, rfl⟩ := ha
    obtain ⟨k', hk', rfl⟩ := hb
    rw [List.getElem?_range] at hk hk'
    · simp only [Option.some.injEq] at hk hk'
      subst hk hk'
      rw [Nat.mod_eq_of_lt (by omega), Nat.mod_eq_of_lt (by omega)]
      omega
    · by_contra hlt
      rw [List.getElem?_eq_none (by simpa using hlt)] at hk'
      cases hk'
    · by_contra hlt
      rw [List.getElem?_eq_none (by simpa using hlt)] at hk
      cases hk
  · intro st st' pace h
    refine ⟨DX12Renderer.WaitForPreviousFrame_signaled _ _ _ h, ?_⟩
    rw [(DX12Renderer.WaitForPreviousFrame_ok _ _ _ h).1]

/-- C5 at a concrete input: three frames on the sample platform signal 1, 2, 3. -/
theorem C5_fence_counter_witness :
    (DX12Renderer.new.Initialize (some 100) 1280 720 samplePlatform).out = .ok sampleState ∧
    (sampleState.frames sampleFrames).out = .ok sampleAfter ∧
    signaled (sampleState.frames sampleFrames).calls = [1, 2, 3] :=
  ⟨sampleDX12_ok, sampleFrames_ok,
   (C5_fence_counter (some 100) 1280 720 samplePlatform sampleState sampleAfter sampleFrames
     sampleDX12_ok sampleFrames_ok).2.1.trans (by decide)⟩

/-- C5 as stated fails where the 64-bit counter wraps: of `2 ^ 64` frames on the sample
platform, frame `2 ^ 64 - 1` signals `2 ^ 64 - 1` and the next frame signals 0. -/
theorem C5_counterexample :
    (DX12Renderer.new.Initialize (some 100) 1280 720 samplePlatform).out = .ok sampleState ∧
    (∃ s, (sampleState.frames (List.replicate (2 ^ 64) sampleFrame)).out = .ok s) ∧
    (signaled (sampleState.frames (List.replicate (2 ^ 64) sampleFrame)).calls).get?
      (2 ^ 64 - 2) = some (2 ^ 64 - 1) ∧
    (signaled (sampleState.frames (List.replicate (2 ^ 64) sampleFrame)).calls).get?
      (2 ^ 64 - 1) = some 0 := by
  obtain ⟨hb, ho, hfv, -, -⟩ := sampleState_boundary
  obtain ⟨s, hs⟩ := DX12Renderer.frames_return (List.replicate (2 ^ 64) sampleFrame) sampleState
    hb ho (replicate_responsive _)
  have hsig := signaled_after_Initialize (some 100) 1280 720 samplePlatform sampleState s
    (List.replicate (2 ^ 64) sampleFrame) sampleDX12_ok hs
  refine ⟨sampleDX12_ok, ⟨s, hs⟩, ?_, ?_⟩
  · rw [hsig, List.length_replicate, List.get?_eq_getElem?, List.getElem?_map,
      List.getElem?_range (by norm_num)]
    norm_num
  · rw [hsig, List.length_replicate, List.get?_eq_getElem?, List.getElem?_map,
      List.getElem?_range (by norm_num)]
    norm_num

/-- C6, as amended: whenever `EndFrame` returns, the completed value of the fence is at
least the value that `EndFrame` signaled; and as long as fewer than `2 ^ 64` frames have
been driven since `Initialize` (the counter has not wrapped), after each frame the fence
stands at the value that frame signaled and no submitted command list is still queued,
so the next `BeginFrame` resets command recording with no frame in flight. -/
theorem C6_one_frame_in_flight (hwnd : Option Nat) (width height : Nat) (p : DX12Platform)
    (s0 s : DX12Renderer) (fs : List Frame)
    (hinit : (DX12Renderer.new.Initialize hwnd width height p).out = .ok s0)
    (hrun : (s0.frames fs).out = .ok s) :
    (∀ (st st' : DX12Renderer) (pace : GpuPace), (st.EndFrame pace).out = .ok st' →
      signaled (st.EndFrame pace).calls = [st.m_fenceValue] ∧
      st.m_fenceValue ≤ st'.gpu.fenceCompleted) ∧
    (fs.length < 2 ^ 64 →
      s.gpu.fenceCompleted = fs.length ∧ s.gpu.framesInFlight = 0 ∧
      ∀ s1, s.BeginFrame.out = .ok s1 → s1.gpu.framesInFlight = 0) := by
  refine ⟨fun st st' pace h =>
    ⟨DX12Renderer.EndFrame_signaled _ _ _ h, (DX12Renderer.EndFrame_ok _ _ _ h).2.2.2.2.2.1⟩, ?_⟩
  intro hlen
  obtain ⟨hb0, hfv0, -, -, hc0, hp0, -⟩ := DX12Renderer.Initialize_boundary _ _ _ _ _ hinit
  obtain ⟨-, d2, -, d4⟩ := DX12Renderer.frames_drained fs s0 s 0 hb0 hrun (by rw [hfv0]; norm_num)
    hc0 (by rw [hp0]; intro op hop; cases hop) (by simp [Gpu.framesInFlight, hp0])
    (by omega)
  refine ⟨by rw [d2]; omega, d4, ?_⟩
  intro s1 h1
  rw [DX12Renderer.BeginFrame_ok _ _ h1]
  exact d4

/-- C6 at a concrete input: after three frames on the sample platform the fence stands
at 3 and nothing is in flight. -/
theorem C6_one_frame_in_flight_witness :
    (DX12Renderer.new.Initialize (some 100) 1280 720 samplePlatform).out = .ok sampleState ∧
    (sampleState.frames sampleFrames).out = .ok sampleAfter ∧
    sampleFrames.length < 2 ^ 64 ∧
    sampleAfter.gpu.fenceCompleted = sampleFrames.length ∧
    sampleAfter.gpu.framesInFlight = 0 :=
  have h := (C6_one_frame_in_flight (some 100) 1280 720 samplePlatform sampleState sampleAfter
    sampleFrames sampleDX12_ok sampleFrames_ok).2 (by decide)
  ⟨sampleDX12_ok, sampleFrames_ok, by decide, h.1, h.2.1⟩

/-- C6 as stated fails where the 64-bit counter wraps: after `2 ^ 64 - 1` frames on the
sample platform the counter is 0 and the fence stands at `2 ^ 64 - 1`, so the next
`EndFrame` sees the fence past the value it signals, does not wait, and returns while
the command list it submitted is still queued; the following `BeginFrame` then resets
command recording with that frame in flight. -/
theorem C6_counterexample :
    (DX12Renderer.new.Initialize (some 100) 1280 720 samplePlatform).out = .ok sampleState ∧
    ∃ s s' s1, (sampleState.frames (List.replicate (2 ^ 64 - 1) sampleFrame)).out = .ok s ∧
      s.m_fenceValue = 0 ∧ s.gpu.fenceCompleted = 2 ^ 64 - 1 ∧
      (s.frame sampleFrame).out = .ok s' ∧ s'.gpu.framesInFlight = 1 ∧
      s'.BeginFrame.out = .ok s1 ∧ s1.gpu.framesInFlight = 1 := by
  obtain ⟨hb, ho, hfv, hc, hp⟩ := sampleState_boundary
  obtain ⟨s, hs⟩ := DX12Renderer.frames_return (List.replicate (2 ^ 64 - 1) sampleFrame)
    sampleState hb ho (replicate_responsive _)
  obtain ⟨d1, d2, -, d4⟩ := DX12Renderer.frames_drained _ sampleState s 0 hb hs
    (by rw [hfv]; norm_num) hc (by rw [hp]; intro op hop; cases hop)
    (by simp [Gpu.framesInFlight, hp]) (by rw [List.length_replicate]; norm_num)
  rw [List.length_replicate] at d1 d2
  have hfv' : s.m_fenceValue = 0 := by rw [d1]; norm_num
  have hc' : s.gpu.fenceCompleted = 2 ^ 64 - 1 := by rw [d2]; norm_num
  obtain ⟨hbs, -, -, -, hos⟩ := DX12Renderer.frames_ok _ sampleState s hb
    (by rw [hfv]; norm_num) hs
  obtain ⟨s', hs'⟩ := DX12Renderer.frame_returns s sampleFrame hbs (hos ho) rfl
  have hpend := DX12Renderer.frame_nowait s s' sampleFrame hs' rfl (by rw [hfv']; omega)
  have hfl : s'.gpu.framesInFlight = 1 := by
    have h0 : List.count GpuOp.execute s.gpu.pending = 0 := d4
    simp only [Gpu.framesInFlight, hpend, List.count_append, h0]
    rfl
  obtain ⟨e', hbs', -⟩ := DX12Renderer.frame_ok _ _ _ hbs hs'
  obtain ⟨s2, hs2⟩ := DX12Renderer.frame_returns s' sampleFrame hbs'
    (DX12Renderer.Operational_of_eq _ _ _ _ _ e' (hos ho)) rfl
  simp only [DX12Renderer.frame, DX12Renderer.recordFrame, Run.bind_out_ok] at hs2
  obtain ⟨-, ⟨-, ⟨s1, h1, -⟩, -⟩, -⟩ := hs2
  refine ⟨sampleDX12_ok, s, s', s1, hs, hfv', hc', hs', hfl, h1, ?_⟩
  rw [DX12Renderer.BeginFrame_ok _ _ h1]
  exact hfl

/-! ## C7, C8, C9: fonts and colours -/

theorem toLONG_intCast (n : Int) (h1 : -(2 : Int) ^ 31 ≤ n) (h2 : n < (2 : Int) ^ 31) :
    toLONG (n : ℚ) = n := by
  have : truncToInt (n : ℚ) = n := by simp [truncToInt]
  simp only [toLONG, this]
  rw [if_pos ⟨h1, h2⟩]

theorem sampleGDI_ok :
    (GDIRenderer.new.Initialize (some 100) 1280 720
      { windowDC := some 21, memoryDC := some 22, memoryBitmap := some 23,
        oldBitmap := some 24 }).out = .ok sampleGDI := by rfl

/-- C7 at the failing input: on the software backend, for the text "1234" at point size
120 with `bold = true` (the call `Engine::RenderScene` makes for the number),
`DrawText` creates Arial 120 of weight `FW_BOLD` while `MeasureText` for the same point
size creates Arial 120 of weight `FW_NORMAL`; without `bold` the two agree, and on the
hardware backend they always agree. -/
theorem C7_gdi_bold_font_mismatch :
    resolvedFonts (sampleGDI.DrawText "1234" 500 300 120 1 1 (39 / 100) true sampleFonts) =
      [{ family := "Arial", size := 120, weight := 700 }] ∧
    resolvedFonts (sampleGDI.MeasureText "1234" 120 sampleFonts) =
      [{ family := "Arial", size := 120, weight := 400 }] ∧
    GDIRenderer.drawFont 120 true ≠ GDIRenderer.measureFont 120 ∧
    (∀ fontSize : ℚ, GDIRenderer.drawFont fontSize false = GDIRenderer.measureFont fontSize) ∧
    (∀ (s : DX12Renderer) (text : String) (x y fontSize r g b : ℚ) (bold : Bool)
        (metrics : TextMetrics) (s' : DX12Renderer),
      (s.DrawText text x y fontSize r g b bold).out = .ok s' →
      resolvedFonts (s.DrawText text x y fontSize r g b bold) =
        resolvedFonts (s.MeasureText text fontSize metrics)) := by
  have h120 : toLONG (120 : ℚ) = 120 := by
    have := toLONG_intCast 120 (by norm_num) (by norm_num)
    simpa using this
  refine ⟨?_, ?_, ?_, ?_, ?_⟩
  · simp [resolvedFonts, GDIRenderer.DrawText, GDIRenderer.drawFont, Call.font?, h120, FW_BOLD]
  · simp [resolvedFonts, GDIRenderer.MeasureText, GDIRenderer.measureFont, Call.font?, h120,
      FW_NORMAL]
  · simp [GDIRenderer.drawFont, GDIRenderer.measureFont, FW_BOLD, FW_NORMAL]
  · intro fontSize
    simp [GDIRenderer.drawFont, GDIRenderer.measureFont]
  · intro s text x y fontSize r g b bold metrics s' h
    cases hcf : s.chooseFont fontSize with
    | none => simp [DX12Renderer.DrawText, hcf] at h
    | some font =>
      cases hsb : s.m_spriteBatch with
      | none => simp [DX12Renderer.DrawText, hcf, hsb] at h
      | some sb =>
        by_cases ho : s.gpu.batchOpen = true <;>
          simp [resolvedFonts, DX12Renderer.DrawText, DX12Renderer.MeasureText, hcf, hsb, ho,
            Call.font?]

theorem toCOLOR16_two : toCOLOR16 (2 * 65535) = 65534 := by
  norm_num [toCOLOR16, toUnsigned, truncToInt]
  rfl

theorem toCOLOR16_one : toCOLOR16 (1 * 65535) = 65535 := by
  norm_num [toCOLOR16, toUnsigned, truncToInt]
  rfl

theorem toCOLOR16_neg_one : toCOLOR16 (-1 * 65535) = 1 := by
  norm_num [toCOLOR16, toUnsigned, truncToInt]

theorem toCOLOR16_zero : toCOLOR16 (0 * 65535) = 0 := by
  norm_num [toCOLOR16, toUnsigned, truncToInt]

theorem clamp01_of_mem (q : ℚ) (h0 : 0 ≤ q) (h1 : q ≤ 1) : clamp01 q = q := by
  simp [clamp01, h0, h1]

theorem brightened_clamp (q : ℚ) (h0 : 0 ≤ q) :
    min 1 (clamp01 q * (13 / 10)) = min 1 (q * (13 / 10)) := by
  by_cases h1 : q ≤ 1
  · rw [clamp01_of_mem q h0 h1]
  · have h1' : 1 < q := lt_of_not_le h1
    have hc : clamp01 q = 1 := by
      simp [clamp01, le_of_lt h1']
    rw [hc]
    have a : (1 : ℚ) ≤ 1 * (13 / 10) := by norm_num
    have b : (1 : ℚ) ≤ q * (13 / 10) := by linarith
    rw [min_eq_left a, min_eq_left b]

/-- C9 as stated fails on both backends: `Clear(2, -1, 0)` on the hardware backend
records the colour `(2, -1, 0, 1)` and not the clamped `(1, 0, 0, 1)`, and on the
software backend it fills from the stop `(65534, 1, 0)` and not from the stop
`(65535, 0, 0)` of the clamped colour. -/
theorem C9_counterexample :
    clamp01 2 = 1 ∧ clamp01 (-1) = 0 ∧ clamp01 0 = 0 ∧
    (sampleState.Clear 2 (-1) 0).calls.head? = some (.ClearRenderTargetView 0 (2, -1, 0, 1)) ∧
    (sampleState.Clear (clamp01 2) (clamp01 (-1)) (clamp01 0)).calls.head? =
      some (.ClearRenderTargetView 0 (1, 0, 0, 1)) ∧
    (sampleState.Clear 2 (-1) 0).calls ≠
      (sampleState.Clear (clamp01 2) (clamp01 (-1)) (clamp01 0)).calls ∧
    (GDIRenderer.gradientStops 2 (-1) 0).1 = (65534, 1, 0) ∧
    (GDIRenderer.gradientStops (clamp01 2) (clamp01 (-1)) (clamp01 0)).1 = (65535, 0, 0) ∧
    (sampleGDI.Clear 2 (-1) 0).calls ≠
      (sampleGDI.Clear (clamp01 2) (clamp01 (-1)) (clamp01 0)).calls := by
  have c2 : clamp01 2 = 1 := by norm_num [clamp01]
  have c1 : clamp01 (-1) = 0 := by norm_num [clamp01]
  have c0 : clamp01 0 = 0 := by norm_num [clamp01]
  have g1 : (GDIRenderer.gradientStops 2 (-1) 0).1 = (65534, 1, 0) := by
    simp only [GDIRenderer.gradientStops, toCOLOR16_two, toCOLOR16_neg_one, toCOLOR16_zero]
  have g2 : (GDIRenderer.gradientStops 1 0 0).1 = (65535, 0, 0) := by
    simp only [GDIRenderer.gradientStops, toCOLOR16_one, toCOLOR16_zero]
  refine ⟨c2, c1, c0, ?_, ?_, ?_, g1, ?_, ?_⟩
  · rfl
  · rw [c2, c1, c0]
    rfl
  · rw [c2, c1, c0]
    intro h
    have := congrArg List.head? h
    simp [DX12Renderer.Clear, sampleState] at this
  · rw [c2, c1, c0]
    exact g2
  · rw [c2, c1, c0]
    intro h
    simp only [GDIRenderer.Clear, List.cons.injEq, Call.GradientFill.injEq, and_true,
      true_and] at h
    have := h.1
    rw [g1, g2] at this
    simp at this

/-- C9, as amended: on either backend `Clear` looks at no colour component to decide
whether it returns, so no colour is rejected; the hardware backend records the colour
`(r, g, b, 1)` as given; the software backend fills a gradient between the stops
`gradientStops r g b`; for components that already lie in `[0, 1]` this is what the
clamped colour gives, and the brightened stop of the software backend is the one of the
clamped colour as soon as no component is negative. -/
theorem C9_clear_unclamped (s : DX12Renderer) (sw : GDIRenderer) (r g b : ℚ) :
    (sw.Clear r g b).out = .ok sw ∧
    (sw.Clear r g b).calls =
      [.GradientFill sw.m_memoryDC (GDIRenderer.gradientStops r g b).1
        (GDIRenderer.gradientStops r g b).2] ∧
    (∀ s', (s.Clear 0 0 0).out = .ok s' → (s.Clear r g b).out = .ok s' ∧
      (s.Clear r g b).calls =
        [.ClearRenderTargetView s.m_frameIndex (r, g, b, 1), .RSSetViewports, .RSSetScissorRects,
         .SetDescriptorHeaps, .SpriteBatchBegin]) ∧
    (0 ≤ r → r ≤ 1 → 0 ≤ g → g ≤ 1 → 0 ≤ b → b ≤ 1 →
      s.Clear r g b = s.Clear (clamp01 r) (clamp01 g) (clamp01 b) ∧
      sw.Clear r g b = sw.Clear (clamp01 r) (clamp01 g) (clamp01 b)) ∧
    (0 ≤ r → 0 ≤ g → 0 ≤ b →
      (GDIRenderer.gradientStops r g b).2 =
        (GDIRenderer.gradientStops (clamp01 r) (clamp01 g) (clamp01 b)).2) := by
  refine ⟨rfl, rfl, ?_, ?_, ?_⟩
  · intro s' h
    unfold DX12Renderer.Clear at h ⊢
    split at h
    · simp at h
    split at h
    · simp at h
    split at h
    · simp at h
    split at h
    · simp at h
    · rename_i hbo
      simp only [hbo, if_false]
      exact ⟨h, rfl⟩
  · intro h1 h2 h3 h4 h5 h6
    rw [clamp01_of_mem r h1 h2, clamp01_of_mem g h3 h4, clamp01_of_mem b h5 h6]
    exact ⟨rfl, rfl⟩
  · intro h1 h2 h3
    simp only [GDIRenderer.gradientStops, brightened_clamp r h1, brightened_clamp g h2,
      brightened_clamp b h3]

/-- C9 at a concrete input: the colour `(0.3, 0.4, 0.6)` of the end-to-end scenario, and
the out-of-range colour `(2, 0, 1)`. -/
theorem C9_clear_unclamped_witness :
    (sampleState.Clear 0 0 0).out =
      .ok { sampleState with gpu := { sampleState.gpu with batchOpen := true } } ∧
    (sampleState.Clear (3 / 10) (4 / 10) (6 / 10)).calls =
      [.ClearRenderTargetView sampleState.m_frameIndex (3 / 10, 4 / 10, 6 / 10, 1),
       .RSSetViewports, .RSSetScissorRects, .SetDescriptorHeaps, .SpriteBatchBegin] ∧
    sampleGDI.Clear (3 / 10) (4 / 10) (6 / 10) =
      sampleGDI.Clear (clamp01 (3 / 10)) (clamp01 (4 / 10)) (clamp01 (6 / 10)) ∧
    (GDIRenderer.gradientStops 2 0 1).2 =
      (GDIRenderer.gradientStops (clamp01 2) (clamp01 0) (clamp01 1)).2 :=
  have h := C9_clear_unclamped sampleState sampleGDI (3 / 10) (4 / 10) (6 / 10)
  have h' := C9_clear_unclamped sampleState sampleGDI 2 0 1
  ⟨by rfl, (h.2.2.1 _ (by rfl)).2,
   (h.2.2.2.1 (by norm_num) (by norm_num) (by norm_num) (by norm_num) (by norm_num)
     (by norm_num)).2,
   h'.2.2.2.2 (by norm_num) (by norm_num) (by norm_num)⟩

/-! ## C10: a second shutdown -/

theorem GDIRenderer.OnDestroy_clears (sw sw1 : GDIRenderer) (h : sw.OnDestroy.out = .ok sw1) :
    sw1 = { sw with m_memoryDC := none, m_windowDC := none } := by
  obtain ⟨hwnd, w, ht, wdc, mdc, bmp, old⟩ := sw
  cases wdc <;> cases mdc <;> simp [GDIRenderer.OnDestroy] at h <;> exact h.symm

/-- C10 as stated fails on the hardware backend: a second `OnDestroy` on the sample
renderer signals the fence again and leaves the counter at 3 where the first call left
it at 2. -/
theorem C10_counterexample :
    (DX12Renderer.new.Initialize (some 100) 1280 720 samplePlatform).out = .ok sampleState ∧
    (sampleState.OnDestroy samplePace).out = .ok sampleDestroyed ∧
    (sampleDestroyed.OnDestroy samplePace).out = .ok sampleDestroyedTwice ∧
    sampleDestroyed.m_fenceValue = 2 ∧ sampleDestroyedTwice.m_fenceValue = 3 ∧
    sampleDestroyedTwice ≠ sampleDestroyed ∧
    (sampleDestroyed.OnDestroy samplePace).calls =
      [.Signal 4 (some 11) 2, .GetCompletedValue 11 1, .SetEventOnCompletion 11 2 none,
       .WaitForSingleObject none, .GetCurrentBackBufferIndex 5 0, .SetFullscreenState 5] := by
  refine ⟨sampleDX12_ok, by rfl, by rfl, by rfl, by rfl, ?_, by rfl⟩
  intro h
  have : sampleDestroyedTwice.m_fenceValue = sampleDestroyed.m_fenceValue := by rw [h]
  revert this
  decide

/-- C10, as amended: on the software backend a second consecutive `OnDestroy` makes no
call and leaves the state as the first call left it.  On the hardware backend a second
consecutive `OnDestroy` releases nothing, is given no handle that the first call
released, and leaves every pointer and handle of the renderer as the first call left
it; when there is a device it does signal the fence once more and advances the counter
by one modulo `2 ^ 64`, and it returns on a responsive GPU. -/
theorem C10_second_shutdown (sw sw1 : GDIRenderer) (s s1 : DX12Renderer)
    (pace1 pace2 : GpuPace) (hg : sw.OnDestroy.out = .ok sw1)
    (h1 : (s.OnDestroy pace1).out = .ok s1) :
    sw1.OnDestroy = { calls := [], out := .ok sw1 } ∧
    (∀ c ∈ (s1.OnDestroy pace2).calls, c.released = []) ∧
    (∀ c ∈ (s1.OnDestroy pace2).calls, ∀ x ∈ c.used, ∀ c' ∈ (s.OnDestroy pace1).calls,
      x ∉ c'.released) ∧
    (∀ s2, (s1.OnDestroy pace2).out = .ok s2 →
      s2 = { s1 with m_fenceValue := s2.m_fenceValue, m_frameIndex := s2.m_frameIndex,
                     gpu := s2.gpu } ∧
      (s1.m_device = none → s2 = s1) ∧
      (s1.m_device.isSome → s2.m_fenceValue = (s1.m_fenceValue + 1) % 2 ^ 64)) ∧
    (pace2.responsive = true → ∃ s2, (s1.OnDestroy pace2).out = .ok s2) := by
  -- what the first call left
  obtain ⟨w1, hw1, e1, -⟩ := DX12Renderer.OnDestroy_ok _ _ _ h1
  have hev : s1.m_fenceEvent = none := by rw [e1]
  have hsb : s1.m_spriteBatch = none := by rw [e1]
  have hfont : s1.m_font = none := by rw [e1]
  have hlf : s1.m_largeFont = none := by rw [e1]
  have hgm : s1.m_graphicsMemory = none := by rw [e1]
  -- the calls of the second call
  have hcalls : ∀ c ∈ (s1.OnDestroy pace2).calls,
      c.isFenceWait none = true ∨ ∃ sc, c = Call.SetFullscreenState sc := by
    intro c hc
    rcases DX12Renderer.OnDestroy_calls s1 pace2 c hc with h | h
    · left
      rw [hev] at h
      exact h
    · right
      rw [hev, hsb, hfont, hlf, hgm] at h
      cases hsc : s1.m_swapChain with
      | none => simp [hsc] at h
      | some sc =>
        simp only [hsc, Option.map_some', Option.map_none', Option.toList_some,
          Option.toList_none, List.append_nil, List.mem_singleton] at h
        exact ⟨sc, h⟩
  have hsecond : ∀ c ∈ (s1.OnDestroy pace2).calls,
      c.released = [] ∧ ∀ x ∈ c.used, x.kind = .com := by
    intro c hc
    rcases hcalls c hc with h | ⟨sc, rfl⟩
    · obtain ⟨a, b⟩ := DX12Renderer.isFenceWait_handles none c h
      refine ⟨a, fun x hx => ?_⟩
      rcases b x hx with hk | ⟨-, hk⟩
      · exact hk
      · cases hk
    · refine ⟨rfl, fun x hx => ?_⟩
      simp only [Call.used, List.mem_singleton] at hx
      rw [hx]
  have hfirst : ∀ c' ∈ (s.OnDestroy pace1).calls, ∀ x ∈ c'.released, x.kind ≠ .com := by
    intro c' hc' x hx
    rcases DX12Renderer.OnDestroy_calls s pace1 c' hc' with h | h
    · rw [(DX12Renderer.isFenceWait_handles _ c' h).1] at hx
      cases hx
    · simp only [List.mem_append, Option.mem_toList, Option.mem_def, Option.map_eq_some'] at h
      rcases h with (⟨_, -, rfl⟩ | ⟨_, -, rfl⟩) |
        (((⟨_, -, rfl⟩ | ⟨_, -, rfl⟩) | ⟨_, -, rfl⟩) | ⟨_, -, rfl⟩) <;>
        simp [Call.released] at hx <;> simp [hx]
  refine ⟨?_, fun c hc => (hsecond c hc).1, ?_, ?_, ?_⟩
  · rw [GDIRenderer.OnDestroy_clears _ _ hg]
    rfl
  · intro c hc x hx c' hc' hmem
    exact hfirst c' hc' x hmem ((hsecond c hc).2 x hx)
  · intro s2 h2
    obtain ⟨w2, hw2, e2, -⟩ := DX12Renderer.OnDestroy_ok _ _ _ h2
    rcases hw2 with ⟨hd, rfl⟩ | ⟨hd, hw⟩
    · have es : s2 = w2 := by
        rw [e2]
        obtain ⟨dev, queue, sc, heap, rts, alloc, list, fi, fe, fence, fv, vp, sr, ds, gm, sb,
          font, lfont, fheap, hwnd, w, hgt, gpu⟩ := w2
        simp only at hev hsb hfont hlf hgm
        subst hev hsb hfont hlf hgm
        rfl
      refine ⟨by rw [es], fun _ => es, fun hsome => ?_⟩
      rw [hd] at hsome
      cases hsome
    · have ew := (DX12Renderer.WaitForPreviousFrame_ok _ _ _ hw).1
      have es : s2 = w2 := by
        rw [e2, ew]
        obtain ⟨dev, queue, sc, heap, rts, alloc, list, fi, fe, fence, fv, vp, sr, ds, gm, sb,
          font, lfont, fheap, hwnd, w, hgt, gpu⟩ := s1
        simp only at hev hsb hfont hlf hgm
        subst hev hsb hfont hlf hgm
        rfl
      refine ⟨?_, fun hnone => ?_, fun _ => ?_⟩
      · rw [es, ew]
      · rw [hnone] at hd
        cases hd
      · rw [es, ew]
  · intro hresp
    cases hd : s1.m_device with
    | none =>
      exact ⟨_, by simp only [DX12Renderer.OnDestroy, hd, Run.bind_out_ok]; exact ⟨s1, rfl, rfl⟩⟩
    | some d =>
      have hd1 : w1.m_device = some d := by rw [e1] at hd; exact hd
      rcases hw1 with ⟨hnone, rfl⟩ | ⟨-, hw⟩
      · rw [hnone] at hd1
        cases hd1
      · obtain ⟨ew, -, -, -, -, -, q, f, sc, hq, hf, hsc⟩ :=
          DX12Renderer.WaitForPreviousFrame_ok _ _ _ hw
        obtain ⟨s2, hs2⟩ := DX12Renderer.WaitForPreviousFrame_returns s1 pace2
          (by rw [e1, ew]; simp [hq]) (by rw [e1, ew]; simp [hf]) (by rw [e1, ew]; simp [hsc])
          hresp
        exact ⟨_, by
          simp only [DX12Renderer.OnDestroy, hd, Run.bind_out_ok]; exact ⟨s2, hs2, rfl⟩⟩

/-- C10 at a concrete input: the sample software renderer and the sample hardware
renderer, shut down twice. -/
theorem C10_second_shutdown_witness :
    sampleGDI.OnDestroy.out =
      .ok { sampleGDI with m_memoryDC := none, m_windowDC := none } ∧
    (sampleState.OnDestroy samplePace).out = .ok sampleDestroyed ∧
    samplePace.responsive = true ∧
    (∀ c ∈ (sampleDestroyed.OnDestroy samplePace).calls, c.released = []) ∧
    (∃ s2, (sampleDestroyed.OnDestroy samplePace).out = .ok s2) :=
  have h := C10_second_shutdown sampleGDI { sampleGDI with m_memoryDC := none, m_windowDC := none }
    sampleState sampleDestroyed samplePace samplePace (by rfl) (by rfl)
  ⟨by rfl, by rfl, rfl, h.2.1, h.2.2.2.2 rfl⟩

/-! ## C11, C12, C13: initialisation that fails -/

namespace DX12Renderer

/-- The states `Initialize` of a fresh renderer can throw with: before the device
exists nothing is held; when `CreateCommandQueue` fails only the device is held; a
failure in `InitializeSpriteBatch` leaves everything that `LoadPipeline` and `LoadAssets`
created. -/
theorem Initialize_threw (hwnd : Option Nat) (width height : Nat) (p : DX12Platform)
    (s : DX12Renderer) (what : String)
    (h : (new.Initialize hwnd width height p).out = .threw s what) :
    (s = configured hwnd width height ∧
      ((p.factory = none ∧ what = "Failed to create DXGI factory") ∨
       (p.factory.isSome ∧ p.adapter = none ∧ what = "Failed to enumerate adapters") ∨
       (p.factory.isSome ∧ p.adapter.isSome ∧ p.device = none ∧
         what = "Failed to create D3D12 device"))) ∨
    (∃ dev, s = { configured hwnd width height with m_device := some dev } ∧
      p.factory.isSome ∧ p.adapter.isSome ∧ p.device = some dev ∧ p.commandQueue = none ∧
      what = "Failed to create command queue") ∨
    (∃ dev q sc heap al cl,
      p.device = some dev ∧ p.commandQueue = some q ∧ p.swapChain = some sc ∧
      s.m_device = some dev ∧ s.m_commandQueue = some q ∧ s.m_swapChain = some sc ∧
      s.m_rtvHeap = some heap ∧ s.m_commandAllocator = some al ∧ s.m_commandList = some cl ∧
      s.m_fence = p.fence ∧ s.m_fenceEvent = p.fenceEvent ∧
      what ∈ ["Failed to create font descriptor heap", "GraphicsMemory", "arial24.spritefont",
              "arial120.spritefont", "SpriteBatch"]) := by
  obtain ⟨factory, adapter, device, queue, swapChain, rtvHeap, ds, buffers, alloc, list, fence,
    fenceEvent, fontHeap, gm, font, largeFont, sb, upload⟩ := p
  simp only [Initialize, Run.bind_out_threw, Run.bind_out_ok] at h
  rcases factory with _ | factory
  · left
    simp [LoadPipeline] at h
    exact ⟨h.1.symm, Or.inl ⟨rfl, h.2.symm⟩⟩
  rcases adapter with _ | adapter
  · left
    simp [LoadPipeline] at h
    exact ⟨h.1.symm, Or.inr (Or.inl ⟨rfl, rfl, h.2.symm⟩)⟩
  rcases device with _ | device
  · left
    simp [LoadPipeline] at h
    exact ⟨h.1.symm, Or.inr (Or.inr ⟨rfl, rfl, rfl, h.2.symm⟩)⟩
  rcases queue with _ | queue
  · right; left
    simp [LoadPipeline] at h
    exact ⟨device, h.1.symm, rfl, rfl, rfl, rfl, h.2.symm⟩
  right; right
  rcases swapChain with _ | swapChain
  · simp [LoadPipeline] at h
  rcases rtvHeap with _ | rtvHeap
  · simp [LoadPipeline] at h
  rcases alloc with _ | alloc
  · simp [LoadPipeline, LoadAssets] at h
  rcases list with _ | list
  · simp [LoadPipeline, LoadAssets] at h
  rcases h with (h | ⟨s1, h1, h2⟩) | ⟨s2, ⟨s1, h1, h2⟩, h3⟩
  · simp [LoadPipeline] at h
  · simp only [LoadPipeline, Outcome.ok.injEq] at h1
    subst h1
    simp [LoadAssets] at h2
  simp only [LoadPipeline, Outcome.ok.injEq] at h1
  subst h1
  simp only [LoadAssets, Option.some_bind, Outcome.ok.injEq] at h2
  subst h2
  refine ⟨device, queue, swapChain, rtvHeap, alloc, list, rfl, rfl, rfl, ?_⟩
  rcases fontHeap with _ | fontHeap
  · simp [InitializeSpriteBatch] at h3
    obtain ⟨rfl, rfl⟩ := h3
    simp
  rcases gm with _ | gm
  · simp [InitializeSpriteBatch] at h3
    obtain ⟨rfl, rfl⟩ := h3
    simp
  rcases font with _ | font
  · simp [InitializeSpriteBatch] at h3
    obtain ⟨rfl, rfl⟩ := h3
    simp
  rcases largeFont with _ | largeFont
  · simp [InitializeSpriteBatch] at h3
    obtain ⟨rfl, rfl⟩ := h3
    simp
  rcases sb with _ | sb
  · simp [InitializeSpriteBatch] at h3
    obtain ⟨rfl, rfl⟩ := h3
    simp
  rcases upload with _ | _ <;> simp [InitializeSpriteBatch] at h3

/-- When the device is there and the command queue is not, `OnDestroy` goes into
`WaitForPreviousFrame` and dereferences the null queue before any call; so does the
destructor. -/
theorem OnDestroy_without_queue (s : DX12Renderer) (pace : GpuPace) (hd : s.m_device.isSome)
    (hq : s.m_commandQueue = none) :
    s.OnDestroy pace = { calls := [], out := .fault "m_commandQueue" } ∧
    (s.destroy pace).out = .fault "m_commandQueue" := by
  obtain ⟨d, hd⟩ := Option.isSome_iff_exists.mp hd
  have h1 : s.OnDestroy pace = { calls := [], out := .fault "m_commandQueue" } := by
    simp [OnDestroy, WaitForPreviousFrame, hd, hq, Run.bind]
  refine ⟨h1, ?_⟩
  simp [destroy, h1, Run.bind]

end DX12Renderer

theorem sampleQueueFails :
    (DX12Renderer.new.Initialize (some 100) 1280 720 noQueuePlatform).out =
      .threw afterFailedQueue "Failed to create command queue" := by rfl

/-- C11: what `OnDestroy` does on a hardware renderer whose `Initialize` threw.  When the
failure came before the device existed, `OnDestroy` makes no call and returns.  When
`CreateCommandQueue` failed, the device is there and the queue is not: the guard
`if (m_device)` lets `WaitForPreviousFrame` run, which dereferences the null command
queue, in `OnDestroy` and in the destructor alike.  When the failure came in
`InitializeSpriteBatch`, `OnDestroy` returns on a responsive GPU if the fence was
created, and dereferences the null fence if it was not.  Every platform on which
`CreateCommandQueue` is the first call to fail leads to the null dereference. -/
theorem C11_failed_initialize_then_shutdown (hwnd : Option Nat) (width height : Nat)
    (p : DX12Platform) (s : DX12Renderer) (what : String) (pace : GpuPace)
    (h : (DX12Renderer.new.Initialize hwnd width height p).out = .threw s what) :
    (s.m_device = none → s.OnDestroy pace = { calls := [], out := .ok s }) ∧
    (s.m_device.isSome → s.m_commandQueue = none →
      what = "Failed to create command queue" ∧
      s.OnDestroy pace = { calls := [], out := .fault "m_commandQueue" } ∧
      (s.destroy pace).out = .fault "m_commandQueue") ∧
    (s.m_commandQueue.isSome → p.fence.isSome → pace.responsive = true →
      ∃ s', (s.OnDestroy pace).out = .ok s') ∧
    (s.m_commandQueue.isSome → p.fence = none → (s.OnDestroy pace).out = .fault "m_fence") ∧
    (∀ q : DX12Platform, q.factory.isSome → q.adapter.isSome → q.device.isSome →
      q.commandQueue = none →
      ∃ s', (DX12Renderer.new.Initialize hwnd width height q).out =
          .threw s' "Failed to create command queue" ∧
        (s'.OnDestroy pace).out = .fault "m_commandQueue") := by
  refine ⟨?_, ?_, ?_, ?_, ?_⟩
  · intro hd
    rcases DX12Renderer.Initialize_threw _ _ _ _ _ _ h with ⟨rfl, -⟩ | ⟨dev, rfl, -⟩ |
      ⟨dev, q, sc, heap, al, cl, -, -, -, h1, -⟩
    · rfl
    · cases hd
    · rw [h1] at hd
      cases hd
  · intro hd hq
    refine ⟨?_, DX12Renderer.OnDestroy_without_queue s pace hd hq⟩
    rcases DX12Renderer.Initialize_threw _ _ _ _ _ _ h with ⟨rfl, -⟩ | ⟨dev, -, -, -, -, -, hw⟩ |
      ⟨dev, q, sc, heap, al, cl, -, -, -, -, h2, -⟩
    · cases hd
    · exact hw
    · rw [h2] at hq
      cases hq
  · intro hq hf hresp
    rcases DX12Renderer.Initialize_threw _ _ _ _ _ _ h with ⟨rfl, -⟩ | ⟨dev, rfl, -⟩ |
      ⟨dev, q, sc, heap, al, cl, -, -, -, h1, h2, h3, -, -, -, h4, -⟩
    · cases hq
    · cases hq
    · obtain ⟨s1, hs1⟩ := DX12Renderer.WaitForPreviousFrame_returns s pace hq
        (by rw [h4]; exact hf) (by rw [h3]; rfl) hresp
      exact ⟨_, by
        simp only [DX12Renderer.OnDestroy, h1, Run.bind_out_ok]; exact ⟨s1, hs1, rfl⟩⟩
  · intro hq hf
    rcases DX12Renderer.Initialize_threw _ _ _ _ _ _ h with ⟨rfl, -⟩ | ⟨dev, rfl, -⟩ |
      ⟨dev, q, sc, heap, al, cl, -, -, -, h1, h2, h3, -, -, -, h4, -⟩
    · cases hq
    · cases hq
    · rw [hf] at h4
      simp [DX12Renderer.OnDestroy, DX12Renderer.WaitForPreviousFrame, h1, h2, h4, Run.bind]
  · intro q hfa had hdev hqu
    obtain ⟨factory, hfa⟩ := Option.isSome_iff_exists.mp hfa
    obtain ⟨adapter, had⟩ := Option.isSome_iff_exists.mp had
    obtain ⟨dev, hdev⟩ := Option.isSome_iff_exists.mp hdev
    refine ⟨{ DX12Renderer.configured hwnd width height with m_device := some dev }, ?_, ?_⟩
    · simp [DX12Renderer.Initialize, DX12Renderer.LoadPipeline, hfa, had, hdev, hqu, Run.bind,
        DX12Renderer.configured, DX12Renderer.new]
    · exact congrArg Run.out
        (DX12Renderer.OnDestroy_without_queue
          { DX12Renderer.configured hwnd width height with m_device := some dev } pace rfl rfl).1

/-- C11 at the failing input: `CreateCommandQueue` fails on `noQueuePlatform`; the
exception leaves the device set and the queue empty, and `OnDestroy` dereferences the
null queue.  The engine reaches this when a switch to the hardware renderer fails: the
failed renderer stays in `m_renderer`, and `Engine::OnDestroy` at exit calls its
`OnDestroy`. -/
theorem C11_failed_initialize_then_shutdown_witness :
    (DX12Renderer.new.Initialize (some 100) 1280 720 noQueuePlatform).out =
      .threw afterFailedQueue "Failed to create command queue" ∧
    afterFailedQueue.m_device = some 3 ∧ afterFailedQueue.m_commandQueue = none ∧
    afterFailedQueue.OnDestroy samplePace = { calls := [], out := .fault "m_commandQueue" } ∧
    (afterFailedQueue.destroy samplePace).out = .fault "m_commandQueue" ∧
    (sampleEngine.SwitchRenderer (some freshDX12) noQueueEnginePlatform).out =
      .threw engineAfterFailedQueue "Failed to create command queue" ∧
    (engineAfterFailedQueue.OnDestroy goodPlatform).out = .fault "m_commandQueue" :=
  have h := (C11_failed_initialize_then_shutdown (some 100) 1280 720 noQueuePlatform
    afterFailedQueue "Failed to create command queue" samplePace sampleQueueFails).2.1 rfl rfl
  ⟨sampleQueueFails, rfl, rfl, h.2.1, h.2.2, by rfl, by rfl⟩
/-- C12 as stated fails on the software backend: when `GetDC`, `CreateCompatibleDC` and
`CreateCompatibleBitmap` all fail, `Initialize` still returns normally, having passed
the null window device context on to `CreateCompatibleDC` and `CreateCompatibleBitmap`
and selected the null bitmap into the null memory device context. -/
theorem C12_counterexample :
    GDIRenderer.new.Initialize (some 100) 1280 720 noSurfacePlatform =
      { calls := [.GetDC (some 100) none, .CreateCompatibleDC none none,
                  .CreateCompatibleBitmap none 1280 720 none, .SelectObject none none]
        out := .ok { GDIRenderer.new with m_hwnd := some 100, m_width := 1280, m_height := 720 } } ∧
    ¬ ∃ s what, (GDIRenderer.new.Initialize (some 100) 1280 720 noSurfacePlatform).out =
      .threw s what := by
  refine ⟨rfl, ?_⟩
  rintro ⟨s, what, h⟩
  cases h

/-- C12, as amended: on the hardware backend, when the creation of the DXGI factory, the
enumeration of the adapter, the creation of the device or the creation of the command
queue fails, `Initialize` makes no further creation call, releases the local objects it
holds and throws `std::runtime_error` to the caller; it returns normally only when all
four succeeded.  On the software backend `Initialize` checks no result: it always
returns normally, with the handles the platform answered, null or not. -/
theorem C12_checked_creation (hwnd : Option Nat) (width height : Nat) (p : DX12Platform)
    (g : GDIRenderer) (gp : GDIPlatform) :
    (p.factory = none →
      DX12Renderer.new.Initialize hwnd width height p =
        { calls := [.CreateDXGIFactory2 none]
          out := .threw (DX12Renderer.configured hwnd width height)
            "Failed to create DXGI factory" }) ∧
    (∀ f, p.factory = some f → p.adapter = none →
      DX12Renderer.new.Initialize hwnd width height p =
        { calls := [.CreateDXGIFactory2 (some f), .EnumAdapters1 none, .Release f]
          out := .threw (DX12Renderer.configured hwnd width height)
            "Failed to enumerate adapters" }) ∧
    (∀ f a, p.factory = some f → p.adapter = some a → p.device = none →
      DX12Renderer.new.Initialize hwnd width height p =
        { calls := [.CreateDXGIFactory2 (some f), .EnumAdapters1 (some a), .D3D12CreateDevice none,
                    .Release a, .Release f]
          out := .threw (DX12Renderer.configured hwnd width height)
            "Failed to create D3D12 device" }) ∧
    (∀ f a d, p.factory = some f → p.adapter = some a → p.device = some d →
      p.commandQueue = none →
      DX12Renderer.new.Initialize hwnd width height p =
        { calls := [.CreateDXGIFactory2 (some f), .EnumAdapters1 (some a),
                    .D3D12CreateDevice (some d), .CreateCommandQueue none, .Release a, .Release f]
          out := .threw { DX12Renderer.configured hwnd width height with m_device := some d }
            "Failed to create command queue" }) ∧
    (∀ s, (DX12Renderer.new.Initialize hwnd width height p).out = .ok s →
      p.factory.isSome ∧ p.adapter.isSome ∧ p.device.isSome ∧ p.commandQueue.isSome) ∧
    g.Initialize hwnd width height gp =
      { calls := [.GetDC hwnd gp.windowDC, .CreateCompatibleDC gp.windowDC gp.memoryDC,
                  .CreateCompatibleBitmap gp.windowDC width height gp.memoryBitmap,
                  .SelectObject gp.memoryDC gp.memoryBitmap]
        out := .ok { g with
          m_hwnd := hwnd, m_width := width, m_height := height, m_windowDC := gp.windowDC,
          m_memoryDC := gp.memoryDC, m_memoryBitmap := gp.memoryBitmap,
          m_oldBitmap := gp.oldBitmap } } := by
  refine ⟨?_, ?_, ?_, ?_, ?_, rfl⟩
  · intro h1
    simp [DX12Renderer.Initialize, DX12Renderer.LoadPipeline, h1, Run.bind,
      DX12Renderer.configured]
  · intro f h1 h2
    simp [DX12Renderer.Initialize, DX12Renderer.LoadPipeline, h1, h2, Run.bind,
      DX12Renderer.configured]
  · intro f a h1 h2 h3
    simp [DX12Renderer.Initialize, DX12Renderer.LoadPipeline, h1, h2, h3, Run.bind,
      DX12Renderer.configured, DX12Renderer.new]
  · intro f a d h1 h2 h3 h4
    simp [DX12Renderer.Initialize, DX12Renderer.LoadPipeline, h1, h2, h3, h4, Run.bind,
      DX12Renderer.configured, DX12Renderer.new]
  · intro s hs
    simp only [DX12Renderer.Initialize, Run.bind_out_ok] at hs
    obtain ⟨s2, ⟨s1, h1, -⟩, -⟩ := hs
    rcases hf : p.factory with _ | f
    · simp [DX12Renderer.LoadPipeline, hf] at h1
    rcases ha : p.adapter with _ | a
    · simp [DX12Renderer.LoadPipeline, hf, ha] at h1
    rcases hd : p.device with _ | d
    · simp [DX12Renderer.LoadPipeline, hf, ha, hd] at h1
    rcases hq : p.commandQueue with _ | q
    · simp [DX12Renderer.LoadPipeline, hf, ha, hd, hq] at h1
    exact ⟨rfl, rfl, rfl, rfl⟩

/-- C12 at concrete inputs: the platform on which `CreateCommandQueue` fails, and the
software renderer on the platform where every GDI creation call succeeds. -/
theorem C12_checked_creation_witness :
    noQueuePlatform.factory = some 1 ∧ noQueuePlatform.adapter = some 2 ∧
    noQueuePlatform.device = some 3 ∧ noQueuePlatform.commandQueue = none ∧
    DX12Renderer.new.Initialize (some 100) 1280 720 noQueuePlatform =
      { calls := [.CreateDXGIFactory2 (some 1), .EnumAdapters1 (some 2),
                  .D3D12CreateDevice (some 3), .CreateCommandQueue none, .Release 2, .Release 1]
        out := .threw { DX12Renderer.configured (some 100) 1280 720 with m_device := some 3 }
          "Failed to create command queue" } ∧
    (GDIRenderer.new.Initialize (some 100) 1280 720 goodPlatform.gdi).out = .ok sampleGDI :=
  have h := C12_checked_creation (some 100) 1280 720 noQueuePlatform GDIRenderer.new
    goodPlatform.gdi
  ⟨rfl, rfl, rfl, rfl, h.2.2.2.1 1 2 3 rfl rfl rfl rfl, congrArg Run.out h.2.2.2.2.2⟩
theorem sampleFontHeapFails :
    (DX12Renderer.new.Initialize (some 100) 1280 720 noFontHeapPlatform).out =
      .threw afterFailedFontHeap "Failed to create font descriptor heap" := by rfl

theorem DX12Renderer.configured_holds_nothing (hwnd : Option Nat) (width height : Nat) :
    (configured hwnd width height).HoldsNoResource := by
  refine ⟨rfl, rfl, rfl, rfl, ?_, rfl, rfl, rfl, rfl, rfl, rfl, rfl, rfl, rfl⟩
  intro t ht
  simp only [configured, new, FRAME_COUNT, List.mem_replicate] at ht
  exact ht.2

/-- C13 as stated fails: when the font descriptor heap cannot be created, `Initialize`
throws and the renderer still holds the device, the command queue, the swap chain, the
render-target heap and both render targets, the command allocator and list, the fence
and the fence event; when `CreateCommandQueue` fails it still holds the device. -/
theorem C13_counterexample :
    (DX12Renderer.new.Initialize (some 100) 1280 720 noFontHeapPlatform).out =
      .threw afterFailedFontHeap "Failed to create font descriptor heap" ∧
    afterFailedFontHeap.m_device = some 3 ∧ afterFailedFontHeap.m_commandQueue = some 4 ∧
    afterFailedFontHeap.m_swapChain = some 5 ∧ afterFailedFontHeap.m_rtvHeap = some 6 ∧
    afterFailedFontHeap.m_renderTargets = [some 7, some 8] ∧
    afterFailedFontHeap.m_commandAllocator = some 9 ∧
    afterFailedFontHeap.m_commandList = some 10 ∧ afterFailedFontHeap.m_fence = some 11 ∧
    afterFailedFontHeap.m_fenceEvent = some 12 ∧ ¬ afterFailedFontHeap.HoldsNoResource ∧
    (DX12Renderer.new.Initialize (some 100) 1280 720 noQueuePlatform).out =
      .threw afterFailedQueue "Failed to create command queue" ∧
    afterFailedQueue.m_device = some 3 ∧ ¬ afterFailedQueue.HoldsNoResource := by
  refine ⟨sampleFontHeapFails, rfl, rfl, rfl, rfl, rfl, rfl, rfl, rfl, rfl, ?_, sampleQueueFails,
    rfl, ?_⟩
  · intro h
    exact absurd h.1 (by decide)
  · intro h
    exact absurd h.1 (by decide)

/-- C13, as amended: `Initialize` has no rollback; its `catch` block logs and rethrows.
When it throws, the renderer holds what was created before the failing step: nothing
when the DXGI factory, the adapter or the device could not be created (every resource
field is then empty, as in a fresh instance); the device when `CreateCommandQueue`
failed; and the device, the command queue, the swap chain, the render-target heap, the
command allocator and the command list when a step of `InitializeSpriteBatch` failed. -/
theorem C13_no_rollback (hwnd : Option Nat) (width height : Nat) (p : DX12Platform)
    (s : DX12Renderer) (what : String)
    (h : (DX12Renderer.new.Initialize hwnd width height p).out = .threw s what) :
    (s.HoldsNoResource ↔ s.m_device = none) ∧
    (s.m_device = none ↔
      what ∈ ["Failed to create DXGI factory", "Failed to enumerate adapters",
              "Failed to create D3D12 device"]) ∧
    (s.m_device = none → s = DX12Renderer.configured hwnd width height) ∧
    (what = "Failed to create command queue" →
      ∃ dev, p.device = some dev ∧
        s = { DX12Renderer.configured hwnd width height with m_device := some dev }) ∧
    (what ∈ ["Failed to create font descriptor heap", "GraphicsMemory", "arial24.spritefont",
             "arial120.spritefont", "SpriteBatch"] →
      s.m_device.isSome ∧ s.m_commandQueue.isSome ∧ s.m_swapChain.isSome ∧
      s.m_rtvHeap.isSome ∧ s.m_commandAllocator.isSome ∧ s.m_commandList.isSome ∧
      s.m_fence = p.fence ∧ s.m_fenceEvent = p.fenceEvent) ∧
    what ∈ ["Failed to create DXGI factory", "Failed to enumerate adapters",
            "Failed to create D3D12 device", "Failed to create command queue",
            "Failed to create font descriptor heap", "GraphicsMemory", "arial24.spritefont",
            "arial120.spritefont", "SpriteBatch"] := by
  rcases DX12Renderer.Initialize_threw _ _ _ _ _ _ h with
    ⟨rfl, hw⟩ | ⟨dev, rfl, -, -, hdev, -, rfl⟩ |
    ⟨dev, q, sc, heap, al, cl, -, -, -, h1, h2, h3, h4, h5, h6, h7, h8, hw⟩
  · have hn := DX12Renderer.configured_holds_nothing hwnd width height
    refine ⟨⟨fun _ => rfl, fun _ => hn⟩, ⟨fun _ => ?_, fun _ => rfl⟩, fun _ => rfl, ?_, ?_, ?_⟩
    · rcases hw with ⟨-, rfl⟩ | ⟨-, -, rfl⟩ | ⟨-, -, -, rfl⟩ <;> simp
    · intro hq
      rcases hw with ⟨-, rfl⟩ | ⟨-, -, rfl⟩ | ⟨-, -, -, rfl⟩ <;> simp at hq
    · intro hq
      rcases hw with ⟨-, rfl⟩ | ⟨-, -, rfl⟩ | ⟨-, -, -, rfl⟩ <;> simp at hq
    · rcases hw with ⟨-, rfl⟩ | ⟨-, -, rfl⟩ | ⟨-, -, -, rfl⟩ <;> simp
  · refine ⟨⟨fun hn => hn.1, fun hd => (by cases hd)⟩, ⟨fun hd => (by cases hd), fun hm => ?_⟩,
      fun hd => (by cases hd), fun _ => ⟨dev, hdev, rfl⟩, fun hm => ?_, by simp⟩
    · simp at hm
    · simp at hm
  · refine ⟨⟨fun hn => hn.1, fun hd => ?_⟩, ⟨fun hd => ?_, fun hm => ?_⟩, fun hd => ?_,
      fun hq => ?_, fun _ => ?_, ?_⟩
    · rw [h1] at hd; cases hd
    · rw [h1] at hd; cases hd
    · simp only [List.mem_cons, List.mem_singleton, List.not_mem_nil, or_false] at hw hm
      rcases hw with rfl | rfl | rfl | rfl | rfl <;> simp at hm
    · rw [h1] at hd; cases hd
    · simp only [List.mem_cons, List.mem_singleton, List.not_mem_nil, or_false] at hw
      rcases hw with rfl | rfl | rfl | rfl | rfl <;> simp at hq
    · exact ⟨by rw [h1]; rfl, by rw [h2]; rfl, by rw [h3]; rfl, by rw [h4]; rfl, by rw [h5]; rfl,
        by rw [h6]; rfl, h7, h8⟩
    · simp only [List.mem_cons, List.mem_singleton, List.not_mem_nil, or_false] at hw ⊢
      rcases hw with rfl | rfl | rfl | rfl | rfl <;> simp

/-- C13 at a concrete input: the platform on which the font descriptor heap cannot be
created. -/
theorem C13_no_rollback_witness :
    (DX12Renderer.new.Initialize (some 100) 1280 720 noFontHeapPlatform).out =
      .threw afterFailedFontHeap "Failed to create font descriptor heap" ∧
    (afterFailedFontHeap.HoldsNoResource ↔ afterFailedFontHeap.m_device = none) ∧
    afterFailedFontHeap.m_device.isSome ∧ afterFailedFontHeap.m_commandQueue.isSome ∧
    afterFailedFontHeap.m_swapChain.isSome :=
  have h := C13_no_rollback (some 100) 1280 720 noFontHeapPlatform afterFailedFontHeap
    "Failed to create font descriptor heap" sampleFontHeapFails
  have h5 := h.2.2.2.2.1 (by simp)
  ⟨sampleFontHeapFails, h.1, h5.1, h5.2.1, h5.2.2.1⟩

/-! ## C14: the handle ledger across switches -/

theorem heldAfter_append (H : Multiset Handle) (a b : List Call) :
    heldAfter H (a ++ b) = heldAfter (heldAfter H a) b := by
  induction a generalizing H with
  | nil => rfl
  | cons c cs ih => exact ih (c.settle H)

theorem ReleasesHeld_append (H : Multiset Handle) (a b : List Call) :
    ReleasesHeld H (a ++ b) ↔ ReleasesHeld H a ∧ ReleasesHeld (heldAfter H a) b := by
  induction a generalizing H with
  | nil => simp [ReleasesHeld, heldAfter]
  | cons c cs ih =>
    show _ ∧ ReleasesHeld (c.settle H) (cs ++ b) ↔
      (_ ∧ ReleasesHeld (c.settle H) cs) ∧ ReleasesHeld (heldAfter (c.settle H) cs) b
    rw [ih, and_assoc]

/-- Calls that release nothing: whatever they acquire is added to what is held. -/
theorem heldAfter_acquiring (H : Multiset Handle) (cs : List Call)
    (h : ∀ c ∈ cs, c.released = []) :
    ReleasesHeld H cs ∧ heldAfter H cs = H + (handlesAcquired cs : Multiset Handle) := by
  induction cs generalizing H with
  | nil => simp [ReleasesHeld, heldAfter, handlesAcquired]
  | cons c cs ih =>
    have hc := h c (List.mem_cons_self _ _)
    have ih' := ih (c.settle H) (fun d hd => h d (List.mem_cons_of_mem _ hd))
    refine ⟨⟨by simp [hc], ih'.1⟩, ?_⟩
    show heldAfter (c.settle H) cs = _
    rw [ih'.2]
    simp [Call.settle, hc, handlesAcquired, add_assoc]

/-- Calls that acquire nothing, made while every handle they release is held: each
release finds its handle held, and what they release is taken out. -/
theorem heldAfter_releasing (H : Multiset Handle) (cs : List Call)
    (h : ∀ c ∈ cs, c.acquired = []) :
    ReleasesHeld ((handlesReleased cs : Multiset Handle) + H) cs ∧
    heldAfter ((handlesReleased cs : Multiset Handle) + H) cs = H := by
  induction cs generalizing H with
  | nil => simp [ReleasesHeld, heldAfter, handlesReleased]
  | cons c cs ih =>
    have hc := h c (List.mem_cons_self _ _)
    have ih' := ih H (fun d hd => h d (List.mem_cons_of_mem _ hd))
    have e : c.settle ((handlesReleased (c :: cs) : Multiset Handle) + H) =
        (handlesReleased cs : Multiset Handle) + H := by
      simp only [Call.settle, hc, handlesReleased, List.flatMap_cons, Multiset.coe_nil, add_zero]
      rw [← Multiset.coe_add, add_assoc, add_tsub_cancel_left]
    refine ⟨⟨?_, ?_⟩, ?_⟩
    · simp only [handlesReleased, List.flatMap_cons]
      rw [← Multiset.coe_add, add_assoc]
      exact le_self_add
    · rw [e]; exact ih'.1
    · show heldAfter (c.settle _) cs = H
      rw [e]; exact ih'.2
theorem handlesReleased_append (a b : List Call) :
    handlesReleased (a ++ b) = handlesReleased a ++ handlesReleased b := by
  simp [handlesReleased]

theorem handlesAcquired_append (a b : List Call) :
    handlesAcquired (a ++ b) = handlesAcquired a ++ handlesAcquired b := by
  simp [handlesAcquired]

namespace DX12Renderer

/-- The calls of `WaitForPreviousFrame` neither acquire nor release a handle. -/
theorem WaitForPreviousFrame_neutral (s : DX12Renderer) (pace : GpuPace) :
    (∀ c ∈ (s.WaitForPreviousFrame pace).calls, c.acquired = []) ∧
    handlesReleased (s.WaitForPreviousFrame pace).calls = [] := by
  have h := WaitForPreviousFrame_isFenceWait s pace
  constructor
  · intro c hc
    have := h c hc
    cases c <;> simp [Call.isFenceWait] at this <;> rfl
  · simp only [handlesReleased, List.flatMap_eq_nil_iff]
    intro c hc
    exact (isFenceWait_handles _ c (h c hc)).1

/-- The teardown calls of `OnDestroy` after the wait: nothing is acquired; the fence
event, the sprite batch, the fonts and the graphics memory are released, in this
order. -/
theorem teardown_ledger (sc ev sb gm : Option Nat) (f lf : Option SpriteFont) :
    (∀ c ∈ (match sc with
          | some x => [Call.SetFullscreenState x]
          | none => []) ++
        (match ev with
          | some h => [Call.CloseHandle h]
          | none => []) ++
        ((sb.map Call.Delete).toList ++ (f.map fun f => Call.Delete f.ptr).toList ++
         (lf.map fun f => Call.Delete f.ptr).toList ++ (gm.map Call.Delete).toList),
      c.acquired = []) ∧
    handlesReleased ((match sc with
          | some x => [Call.SetFullscreenState x]
          | none => []) ++
        (match ev with
          | some h => [Call.CloseHandle h]
          | none => []) ++
        ((sb.map Call.Delete).toList ++ (f.map fun f => Call.Delete f.ptr).toList ++
         (lf.map fun f => Call.Delete f.ptr).toList ++ (gm.map Call.Delete).toList)) =
      (ev.map (Handle.mk .event)).toList ++ (sb.map (Handle.mk .heapObject)).toList ++
      (f.map fun f => Handle.mk .heapObject f.ptr).toList ++
      (lf.map fun f => Handle.mk .heapObject f.ptr).toList ++
      (gm.map (Handle.mk .heapObject)).toList := by
  constructor
  · intro c hc
    simp only [List.mem_append, Option.mem_toList, Option.mem_def, Option.map_eq_some'] at hc
    rcases hc with (hc | hc) | ((⟨_, -, rfl⟩ | ⟨_, -, rfl⟩) | ⟨_, -, rfl⟩) | ⟨_, -, rfl⟩
    · cases sc <;> simp at hc
      subst hc; rfl
    · cases ev <;> simp at hc
      subst hc; rfl
    all_goals rfl
  · cases sc <;> cases ev <;> cases sb <;> cases f <;> cases lf <;> cases gm <;>
      simp [handlesReleased, Call.released]

/-- The ledger of a returning `OnDestroy`: nothing is acquired; the fence event, the
sprite batch, the fonts and the graphics memory are released, in this order; these
fields are empty afterwards and the other pointers are untouched. -/
theorem OnDestroy_ledger (s s' : DX12Renderer) (pace : GpuPace)
    (h : (s.OnDestroy pace).out = .ok s') :
    (∀ c ∈ (s.OnDestroy pace).calls, c.acquired = []) ∧
    handlesReleased (s.OnDestroy pace).calls =
      (s.m_fenceEvent.map (Handle.mk .event)).toList ++
      (s.m_spriteBatch.map (Handle.mk .heapObject)).toList ++
      (s.m_font.map fun f => Handle.mk .heapObject f.ptr).toList ++
      (s.m_largeFont.map fun f => Handle.mk .heapObject f.ptr).toList ++
      (s.m_graphicsMemory.map (Handle.mk .heapObject)).toList ∧
    s' =
      { s with
        m_fenceValue := s'.m_fenceValue, m_frameIndex := s'.m_frameIndex, gpu := s'.gpu,
        m_fenceEvent := none, m_spriteBatch := none, m_font := none, m_largeFont := none,
        m_graphicsMemory := none } := by
  obtain ⟨sw, hw, e, -⟩ := OnDestroy_ok s s' pace h
  have esw : sw =
      { s with
        m_fenceValue := sw.m_fenceValue, m_frameIndex := sw.m_frameIndex, gpu := sw.gpu } := by
    rcases hw with ⟨-, rfl⟩ | ⟨-, hw⟩
    · rfl
    · have := (WaitForPreviousFrame_ok _ _ _ hw).1
      rw [this]
  have hcalls : ∃ wc : List Call, (∀ c ∈ wc, c.acquired = []) ∧ handlesReleased wc = [] ∧
      (s.OnDestroy pace).calls = wc ++
        ((match sw.m_swapChain with
          | some x => [Call.SetFullscreenState x]
          | none => []) ++
        (match sw.m_fenceEvent with
          | some h => [Call.CloseHandle h]
          | none => []) ++
        ((sw.m_spriteBatch.map Call.Delete).toList ++
         (sw.m_font.map fun f => Call.Delete f.ptr).toList ++
         (sw.m_largeFont.map fun f => Call.Delete f.ptr).toList ++
         (sw.m_graphicsMemory.map Call.Delete).toList)) := by
    rcases hw with ⟨hd, rfl⟩ | ⟨hd, hw⟩
    · refine ⟨[], by simp, rfl, ?_⟩
      simp only [OnDestroy, hd, Run.bind, List.nil_append]
    · obtain ⟨d, hd⟩ := Option.isSome_iff_exists.mp hd
      refine ⟨(s.WaitForPreviousFrame pace).calls, (WaitForPreviousFrame_neutral s pace).1,
        (WaitForPreviousFrame_neutral s pace).2, ?_⟩
      simp only [OnDestroy, hd]
      exact Run.bind_calls_of_ok _ _ sw hw
  obtain ⟨wc, ha, hr, hc⟩ := hcalls
  have f1 : sw.m_swapChain = s.m_swapChain := by rw [esw]
  have f2 : sw.m_fenceEvent = s.m_fenceEvent := by rw [esw]
  have f3 : sw.m_spriteBatch = s.m_spriteBatch := by rw [esw]
  have f4 : sw.m_font = s.m_font := by rw [esw]
  have f5 : sw.m_largeFont = s.m_largeFont := by rw [esw]
  have f6 : sw.m_graphicsMemory = s.m_graphicsMemory := by rw [esw]
  rw [f1, f2, f3, f4, f5, f6] at hc
  have ht := teardown_ledger s.m_swapChain s.m_fenceEvent s.m_spriteBatch s.m_graphicsMemory
    s.m_font s.m_largeFont
  refine ⟨?_, ?_, ?_⟩
  · intro c hmem
    rw [hc] at hmem
    rcases List.mem_append.mp hmem with hmem | hmem
    · exact ha c hmem
    · exact ht.1 c hmem
  · rw [hc, handlesReleased_append, hr, List.nil_append]
    exact ht.2
  · rw [e, esw]

end DX12Renderer
theorem acquired_nil_iff (cs : List Call) :
    handlesAcquired cs = [] ↔ ∀ c ∈ cs, c.acquired = [] := by
  simp [handlesAcquired, List.flatMap_eq_nil_iff]

theorem ledger_release_opt (o : Option Nat) :
    handlesAcquired (o.map Call.Release).toList = [] ∧
    handlesReleased (o.map Call.Release).toList = (o.map (Handle.mk .com)).toList := by
  cases o <;> simp [handlesAcquired, handlesReleased, Call.acquired, Call.released]

theorem ledger_delete_opt (o : Option Nat) :
    handlesAcquired (o.map Call.Delete).toList = [] ∧
    handlesReleased (o.map Call.Delete).toList = (o.map (Handle.mk .heapObject)).toList := by
  cases o <;> simp [handlesAcquired, handlesReleased, Call.acquired, Call.released]

theorem ledger_delete_font (o : Option SpriteFont) :
    handlesAcquired (o.map fun f => Call.Delete f.ptr).toList = [] ∧
    handlesReleased (o.map fun f => Call.Delete f.ptr).toList =
      (o.map fun f => Handle.mk .heapObject f.ptr).toList := by
  cases o <;> simp [handlesAcquired, handlesReleased, Call.acquired, Call.released]

theorem ledger_release_targets (l : List (Option Nat)) :
    handlesAcquired (l.filterMap fun p => p.map Call.Release) = [] ∧
    handlesReleased (l.filterMap fun p => p.map Call.Release) =
      l.filterMap fun p => p.map (Handle.mk .com) := by
  induction l with
  | nil => exact ⟨rfl, rfl⟩
  | cons p l ih =>
    cases p with
    | none => simpa using ih
    | some x =>
      simp only [List.filterMap_cons, Option.map_some']
      exact ⟨by simpa [handlesAcquired, Call.acquired] using ih.1,
        by simpa [handlesReleased, Call.released] using ih.2⟩

namespace DX12Renderer

/-- The ledger of the destruction of the members: nothing is acquired, and every
reference and object the fields still hold is released, in reverse order of
declaration. -/
theorem memberReleases_ledger (s : DX12Renderer) :
    handlesAcquired (memberReleases s) = [] ∧
    handlesReleased (memberReleases s) =
      (s.m_fontHeap.map (Handle.mk .com)).toList ++
      (s.m_largeFont.map fun f => Handle.mk .heapObject f.ptr).toList ++
      (s.m_font.map fun f => Handle.mk .heapObject f.ptr).toList ++
      (s.m_spriteBatch.map (Handle.mk .heapObject)).toList ++
      (s.m_graphicsMemory.map (Handle.mk .heapObject)).toList ++
      (s.m_fence.map (Handle.mk .com)).toList ++
      (s.m_commandList.map (Handle.mk .com)).toList ++
      (s.m_commandAllocator.map (Handle.mk .com)).toList ++
      (s.m_renderTargets.reverse.filterMap fun p => p.map (Handle.mk .com)) ++
      (s.m_rtvHeap.map (Handle.mk .com)).toList ++
      (s.m_swapChain.map (Handle.mk .com)).toList ++
      (s.m_commandQueue.map (Handle.mk .com)).toList ++
      (s.m_device.map (Handle.mk .com)).toList := by
  simp only [memberReleases, handlesAcquired_append, handlesReleased_append,
    (ledger_release_opt _).1, (ledger_release_opt _).2, (ledger_delete_opt _).1,
    (ledger_delete_opt _).2, (ledger_delete_font _).1, (ledger_delete_font _).2,
    (ledger_release_targets _).1, (ledger_release_targets _).2, List.append_nil, and_self]

/-- The ledger of a shutdown, that is of `OnDestroy` followed by the destructor: nothing
is acquired, and exactly the handles the renderer held before are released. -/
theorem shutdown_ledger (s s1 s2 : DX12Renderer) (pace1 pace2 : GpuPace)
    (h1 : (s.OnDestroy pace1).out = .ok s1) (h2 : (s1.destroy pace2).out = .ok s2) :
    handlesAcquired ((s.OnDestroy pace1).calls ++ (s1.destroy pace2).calls) = [] ∧
    handlesReleased ((s.OnDestroy pace1).calls ++ (s1.destroy pace2).calls) = s.owned := by
  obtain ⟨a1, r1, e1⟩ := OnDestroy_ledger s s1 pace1 h1
  unfold destroy at h2 ⊢
  obtain ⟨s1', h3, -, hc⟩ := Run.bind_calls _ _ _ h2
  obtain ⟨a2, r2, e2⟩ := OnDestroy_ledger s1 s1' pace2 h3
  have hm := memberReleases_ledger s1'
  have g1 : s1.m_fenceEvent = none := by rw [e1]
  have g2 : s1.m_spriteBatch = none := by rw [e1]
  have g3 : s1.m_font = none := by rw [e1]
  have g4 : s1.m_largeFont = none := by rw [e1]
  have g5 : s1.m_graphicsMemory = none := by rw [e1]
  rw [g1, g2, g3, g4, g5] at r2
  have k : s1' =
      { s with
        m_fenceValue := s1'.m_fenceValue, m_frameIndex := s1'.m_frameIndex, gpu := s1'.gpu,
        m_fenceEvent := none, m_spriteBatch := none, m_font := none, m_largeFont := none,
        m_graphicsMemory := none } := by
    rw [e2, e1]
  have k1 : s1'.m_fontHeap = s.m_fontHeap := by rw [k]
  have k2 : s1'.m_largeFont = none := by rw [k]
  have k3 : s1'.m_font = none := by rw [k]
  have k4 : s1'.m_spriteBatch = none := by rw [k]
  have k5 : s1'.m_graphicsMemory = none := by rw [k]
  have k6 : s1'.m_fence = s.m_fence := by rw [k]
  have k7 : s1'.m_commandList = s.m_commandList := by rw [k]
  have k8 : s1'.m_commandAllocator = s.m_commandAllocator := by rw [k]
  have k9 : s1'.m_renderTargets = s.m_renderTargets := by rw [k]
  have k10 : s1'.m_rtvHeap = s.m_rtvHeap := by rw [k]
  have k11 : s1'.m_swapChain = s.m_swapChain := by rw [k]
  have k12 : s1'.m_commandQueue = s.m_commandQueue := by rw [k]
  have k13 : s1'.m_device = s.m_device := by rw [k]
  rw [k1, k2, k3, k4, k5, k6, k7, k8, k9, k10, k11, k12, k13] at hm
  rw [hc]
  refine ⟨?_, ?_⟩
  · simp only [handlesAcquired_append, (acquired_nil_iff _).mpr a1, (acquired_nil_iff _).mpr a2,
      hm.1, List.append_nil]
  · simp only [handlesReleased_append, r1, r2, hm.2, owned]
    simp

end DX12Renderer
namespace DX12Renderer

/-- The ledger of a successful `Initialize` of a fresh renderer: the local factory and
adapter are released after they were acquired, nothing else is released, and what is held
afterwards is what the fields of the renderer hold. -/
theorem Initialize_ledger (hwnd : Option Nat) (width height : Nat) (p : DX12Platform)
    (s0 : DX12Renderer) (h : (new.Initialize hwnd width height p).out = .ok s0) :
    ReleasesHeld 0 (new.Initialize hwnd width height p).calls ∧
    heldAfter 0 (new.Initialize hwnd width height p).calls = (s0.owned : Multiset Handle) := by
  obtain ⟨factory, adapter, device, queue, swapChain, rtvHeap, ds, buffers, alloc, list, fence,
    fenceEvent, fontHeap, gm, font, largeFont, sb, upload⟩ := p
  rcases factory with _ | fa
  · simp [Initialize, LoadPipeline, Run.bind] at h
  rcases adapter with _ | ad
  · simp [Initialize, LoadPipeline, Run.bind] at h
  rcases device with _ | dev
  · simp [Initialize, LoadPipeline, Run.bind] at h
  rcases queue with _ | q
  · simp [Initialize, LoadPipeline, Run.bind] at h
  rcases swapChain with _ | sc
  · simp [Initialize, LoadPipeline, Run.bind] at h
  rcases rtvHeap with _ | heap
  · simp [Initialize, LoadPipeline, Run.bind] at h
  rcases alloc with _ | al
  · simp [Initialize, LoadPipeline, LoadAssets, Run.bind] at h
  rcases list with _ | cl
  · simp [Initialize, LoadPipeline, LoadAssets, Run.bind] at h
  rcases fontHeap with _ | fh
  · simp [Initialize, LoadPipeline, LoadAssets, InitializeSpriteBatch, Run.bind] at h
  rcases gm with _ | gm
  · simp [Initialize, LoadPipeline, LoadAssets, InitializeSpriteBatch, Run.bind] at h
  rcases font with _ | f
  · simp [Initialize, LoadPipeline, LoadAssets, InitializeSpriteBatch, Run.bind] at h
  rcases largeFont with _ | lf
  · simp [Initialize, LoadPipeline, LoadAssets, InitializeSpriteBatch, Run.bind] at h
  rcases sb with _ | sb
  · simp [Initialize, LoadPipeline, LoadAssets, InitializeSpriteBatch, Run.bind] at h
  rcases upload with _ | _
  · simp [Initialize, LoadPipeline, LoadAssets, InitializeSpriteBatch, Run.bind] at h
  have hcalls : (new.Initialize hwnd width height
      ⟨some fa, some ad, some dev, some q, some sc, some heap, ds, buffers, some al, some cl,
        fence, fenceEvent, some fh, some gm, some f, some lf, some sb, true⟩).calls =
      [.CreateDXGIFactory2 (some fa), .EnumAdapters1 (some ad), .D3D12CreateDevice (some dev),
       .CreateCommandQueue (some q), .CreateSwapChainForHwnd hwnd width height (some sc),
       .MakeWindowAssociation hwnd, .GetCurrentBackBufferIndex sc 0,
       .CreateDescriptorHeap (some heap),
       .GetBuffer 0 (buffers.get? 0).join, .CreateRenderTargetView (buffers.get? 0).join,
       .GetBuffer 1 (buffers.get? 1).join, .CreateRenderTargetView (buffers.get? 1).join,
       .CreateCommandAllocator (some al)] ++
      ([.Release ad, .Release fa] ++
       [.CreateCommandList (some cl), .CommandListClose, .CreateFence 0 fence,
        .CreateEvent fenceEvent, .CreateDescriptorHeap (some fh), .NewGraphicsMemory (some gm),
        .ResourceUploadBegin, .NewSpriteFont "arial24.spritefont" (some f),
        .NewSpriteFont "arial120.spritefont" (some lf), .NewSpriteBatch (some sb),
        .ResourceUploadEnd]) := by
    simp [Initialize, LoadPipeline, LoadAssets, InitializeSpriteBatch, Run.bind, FRAME_COUNT,
      List.range, List.range.loop, new]
  obtain ⟨dev', q', sc', heap', al', cl', fh', gm', f', lf', sb', e0⟩ := Initialize_ok _ _ _ _ _ h
  rw [e0] at h
  simp [Initialize, LoadPipeline, LoadAssets, InitializeSpriteBatch, Run.bind, FRAME_COUNT,
    List.range, List.range.loop, new] at h
  obtain ⟨rfl, rfl, rfl, rfl, rfl, rfl, rfl, rfl, rfl, rfl, rfl, -⟩ := h
  subst e0
  rw [hcalls]
  simp only [owned]
  generalize (buffers.get? 0).join = r0
  generalize (buffers.get? 1).join = r1
  -- the calls up to the end of `LoadPipeline` acquire; then the local objects are released
  have hA1 := heldAfter_acquiring 0
    [.CreateDXGIFactory2 (some fa), .EnumAdapters1 (some ad), .D3D12CreateDevice (some dev),
     .CreateCommandQueue (some q), .CreateSwapChainForHwnd hwnd width height (some sc),
     .MakeWindowAssociation hwnd, .GetCurrentBackBufferIndex sc 0,
     .CreateDescriptorHeap (some heap), .GetBuffer 0 r0, .CreateRenderTargetView r0,
     .GetBuffer 1 r1, .CreateRenderTargetView r1, .CreateCommandAllocator (some al)]
    (by intro c hc; simp at hc; rcases hc with rfl | rfl | rfl | rfl | rfl | rfl | rfl | rfl |
          rfl | rfl | rfl | rfl | rfl <;> rfl)
  have hR := heldAfter_releasing
    (([⟨.com, dev⟩, ⟨.com, q⟩, ⟨.com, sc⟩, ⟨.com, heap⟩] ++ (r0.map (Handle.mk .com)).toList ++
      (r1.map (Handle.mk .com)).toList ++ [⟨.com, al⟩] : List Handle) : Multiset Handle)
    [.Release ad, .Release fa]
    (by intro c hc; simp at hc; rcases hc with rfl | rfl <;> rfl)
  have hA2 := heldAfter_acquiring
    (([⟨.com, dev⟩, ⟨.com, q⟩, ⟨.com, sc⟩, ⟨.com, heap⟩] ++ (r0.map (Handle.mk .com)).toList ++
      (r1.map (Handle.mk .com)).toList ++ [⟨.com, al⟩] : List Handle) : Multiset Handle)
    [.CreateCommandList (some cl), .CommandListClose, .CreateFence 0 fence,
     .CreateEvent fenceEvent, .CreateDescriptorHeap (some fh), .NewGraphicsMemory (some gm),
     .ResourceUploadBegin, .NewSpriteFont "arial24.spritefont" (some f),
     .NewSpriteFont "arial120.spritefont" (some lf), .NewSpriteBatch (some sb),
     .ResourceUploadEnd]
    (by intro c hc; simp at hc; rcases hc with rfl | rfl | rfl | rfl | rfl | rfl | rfl | rfl |
          rfl | rfl | rfl <;> rfl)
  have e1 : (0 : Multiset Handle) + (handlesAcquired
      [.CreateDXGIFactory2 (some fa), .EnumAdapters1 (some ad), .D3D12CreateDevice (some dev),
       .CreateCommandQueue (some q), .CreateSwapChainForHwnd hwnd width height (some sc),
       .MakeWindowAssociation hwnd, .GetCurrentBackBufferIndex sc 0,
       .CreateDescriptorHeap (some heap), .GetBuffer 0 r0, .CreateRenderTargetView r0,
       .GetBuffer 1 r1, .CreateRenderTargetView r1, .CreateCommandAllocator (some al)] :
        Multiset Handle) =
      (handlesReleased [.Release ad, .Release fa] : Multiset Handle) +
      (([⟨.com, dev⟩, ⟨.com, q⟩, ⟨.com, sc⟩, ⟨.com, heap⟩] ++ (r0.map (Handle.mk .com)).toList ++
        (r1.map (Handle.mk .com)).toList ++ [⟨.com, al⟩] : List Handle) : Multiset Handle) := by
    cases r0 <;> cases r1 <;>
      simp only [handlesAcquired, handlesReleased, Call.acquired, Call.released,
        List.flatMap_cons, List.flatMap_nil, List.append_nil, List.nil_append, List.cons_append,
        Option.map_some', Option.map_none', Option.toList_some, Option.toList_none, zero_add,
        ← Multiset.cons_coe, ← Multiset.coe_add, ← Multiset.singleton_add, Multiset.coe_nil,
        add_zero] <;> abel
  rw [e1] at hA1
  rw [ReleasesHeld_append, ReleasesHeld_append, heldAfter_append, heldAfter_append, hA1.2, hR.2,
    hA2.2]
  refine ⟨⟨hA1.1, hR.1, hA2.1⟩, ?_⟩
  cases r0 <;> cases r1 <;> cases fence <;> cases fenceEvent <;>
    simp only [handlesAcquired, Call.acquired, List.flatMap_cons, List.flatMap_nil,
      List.append_nil, List.nil_append, List.cons_append, List.reverse_cons, List.reverse_nil,
      List.filterMap_cons, List.filterMap_nil,
      Option.map_some', Option.map_none', Option.toList_some, Option.toList_none,
      ← Multiset.cons_coe, ← Multiset.coe_add, ← Multiset.singleton_add, Multiset.coe_nil,
      add_zero] <;> abel

end DX12Renderer

theorem Run.map_calls {σ τ : Type} (f : σ → τ) (r : Run σ) : (r.map f).calls = r.calls := by
  unfold Run.map
  cases r.out <;> rfl

theorem Run.map_out_ok {σ τ : Type} (f : σ → τ) (r : Run σ) (t : τ) :
    (r.map f).out = .ok t ↔ ∃ s, r.out = .ok s ∧ f s = t := by
  unfold Run.map
  cases r.out <;> simp

namespace GDIRenderer

/-- The ledger of `Initialize` of a software renderer when the three creation calls
succeed: nothing is released, and the three handles are held afterwards. -/
theorem software_Initialize_ledger (g : GDIRenderer) (hwnd : Option Nat) (width height : Nat)
    (gp : GDIPlatform) (hs : gp.succeeds) :
    ∃ g', (g.Initialize hwnd width height gp).out = .ok g' ∧
      ReleasesHeld 0 (g.Initialize hwnd width height gp).calls ∧
      heldAfter 0 (g.Initialize hwnd width height gp).calls = (g'.owned : Multiset Handle) ∧
      g'.m_windowDC.isSome ∧ g'.m_memoryDC.isSome ∧ g'.m_memoryBitmap.isSome := by
  obtain ⟨h1, h2, h3⟩ := hs
  obtain ⟨w, hw⟩ := Option.isSome_iff_exists.mp h1
  obtain ⟨m, hm⟩ := Option.isSome_iff_exists.mp h2
  obtain ⟨b, hb⟩ := Option.isSome_iff_exists.mp h3
  refine ⟨_, rfl, ?_, ?_, h1, h2, h3⟩
  · exact (heldAfter_acquiring 0 _ (by
      intro c hc
      simp only [Initialize, List.mem_cons, List.mem_singleton, List.not_mem_nil, or_false] at hc
      rcases hc with rfl | rfl | rfl | rfl <;> rfl)).1
  · rw [(heldAfter_acquiring 0 _ (by
      intro c hc
      simp only [Initialize, List.mem_cons, List.mem_singleton, List.not_mem_nil, or_false] at hc
      rcases hc with rfl | rfl | rfl | rfl <;> rfl)).2]
    simp only [Initialize, owned, hw, hm, hb, handlesAcquired, Call.acquired, List.flatMap_cons,
      List.flatMap_nil, List.append_nil, List.nil_append, List.cons_append, Option.map_some',
      Option.toList_some, zero_add, ← Multiset.cons_coe, ← Multiset.coe_add,
      ← Multiset.singleton_add, Multiset.coe_nil, add_zero]
    abel

/-- The ledger of a shutdown of a software renderer that has its three handles:
`OnDestroy` releases the bitmap, the memory device context and the window device
context, and the destructor, which calls `OnDestroy` again, makes no call. -/
theorem software_shutdown_ledger (g g1 g2 : GDIRenderer)
    (hs : g.m_windowDC.isSome ∧ g.m_memoryDC.isSome ∧ g.m_memoryBitmap.isSome)
    (h1 : g.OnDestroy.out = .ok g1) (_h2 : g1.destroy.out = .ok g2) :
    handlesAcquired (g.OnDestroy.calls ++ g1.destroy.calls) = [] ∧
    handlesReleased (g.OnDestroy.calls ++ g1.destroy.calls) = g.owned := by
  obtain ⟨a1, a2, a3⟩ := hs
  obtain ⟨w, hw⟩ := Option.isSome_iff_exists.mp a1
  obtain ⟨m, hm⟩ := Option.isSome_iff_exists.mp a2
  obtain ⟨b, hb⟩ := Option.isSome_iff_exists.mp a3
  have e1 := OnDestroy_clears g g1 h1
  subst e1
  simp [OnDestroy, destroy, owned, hw, hm, hb, handlesAcquired, handlesReleased, Call.acquired,
    Call.released]

end GDIRenderer

namespace Renderer

/-- The ledger of the shutdown of a renderer, that is of `OnDestroy` followed by the
destructor: nothing is acquired, and exactly the handles the renderer held are
released. -/
theorem either_shutdown_ledger (rd o1 o2 : Renderer) (pace1 pace2 : GpuPace) (hs : rd.Settled)
    (h1 : (rd.OnDestroy pace1).out = .ok o1) (h2 : (o1.destroy pace2).out = .ok o2) :
    handlesAcquired ((rd.OnDestroy pace1).calls ++ (o1.destroy pace2).calls) = [] ∧
    handlesReleased ((rd.OnDestroy pace1).calls ++ (o1.destroy pace2).calls) = rd.owned := by
  cases rd with
  | gdi g =>
    simp only [OnDestroy, Run.map_out_ok] at h1
    obtain ⟨g1, hg1, rfl⟩ := h1
    simp only [destroy, Run.map_out_ok] at h2
    obtain ⟨g2, hg2, -⟩ := h2
    simp only [OnDestroy, destroy, Run.map_calls, owned]
    exact GDIRenderer.software_shutdown_ledger g g1 g2 hs hg1 hg2
  | dx12 d =>
    simp only [OnDestroy, Run.map_out_ok] at h1
    obtain ⟨d1, hd1, rfl⟩ := h1
    simp only [destroy, Run.map_out_ok] at h2
    obtain ⟨d2, hd2, -⟩ := h2
    simp only [OnDestroy, destroy, Run.map_calls, owned]
    exact DX12Renderer.shutdown_ledger d d1 d2 pace1 pace2 hd1 hd2

/-- The ledger of a successful `Initialize` of a renderer as `CreateRenderer` makes it:
every release finds its handle held, and what is held afterwards is what the fields of
the renderer hold. -/
theorem either_Initialize_ledger (r : RendererPtr) (hwnd : Option Nat) (width height : Nat)
    (p : Platform) (n1 : Renderer) (hfresh : r.isFresh)
    (hgdi : r.obj = .gdi GDIRenderer.new → p.gdi.succeeds)
    (h : (r.obj.Initialize hwnd width height p).out = .ok n1) :
    ReleasesHeld 0 (r.obj.Initialize hwnd width height p).calls ∧
    heldAfter 0 (r.obj.Initialize hwnd width height p).calls = (n1.owned : Multiset Handle) ∧
    n1.Settled := by
  rcases hfresh with hf | hf
  · obtain ⟨g', hg', a, b, c⟩ := GDIRenderer.software_Initialize_ledger GDIRenderer.new hwnd width height
      p.gdi (hgdi hf)
    rw [hf] at h ⊢
    simp only [Initialize, Run.map_out_ok] at h
    obtain ⟨g1, hg1, rfl⟩ := h
    rw [hg'] at hg1
    simp only [Outcome.ok.injEq] at hg1
    subst hg1
    simp only [Initialize, Run.map_calls, owned]
    exact ⟨a, b, c⟩
  · rw [hf] at h ⊢
    simp only [Initialize, Run.map_out_ok] at h
    obtain ⟨d1, hd1, rfl⟩ := h
    simp only [Initialize, Run.map_calls, owned]
    exact ⟨(DX12Renderer.Initialize_ledger _ _ _ _ _ hd1).1,
      (DX12Renderer.Initialize_ledger _ _ _ _ _ hd1).2, trivial⟩

end Renderer
/-! The ledger along the events of the engine. -/

theorem LeakFree_platform (H : Multiset Handle) (a : Nat) (cs : List Call) (rest : List Event) :
    LeakFree H (cs.map (Event.platform a) ++ rest) ↔
      ReleasesHeld H cs ∧ LeakFree (heldAfter H cs) rest := by
  induction cs generalizing H with
  | nil => simp [ReleasesHeld, heldAfter]
  | cons c cs ih =>
    show _ ∧ LeakFree (c.settle H) (cs.map (Event.platform a) ++ rest) ↔
      (_ ∧ ReleasesHeld (c.settle H) cs) ∧ LeakFree (heldAfter (c.settle H) cs) rest
    rw [ih, and_assoc]

theorem heldAfterEvents_platform (H : Multiset Handle) (a : Nat) (cs : List Call)
    (rest : List Event) :
    heldAfterEvents H (cs.map (Event.platform a) ++ rest) =
      heldAfterEvents (heldAfter H cs) rest := by
  induction cs generalizing H with
  | nil => rfl
  | cons c cs ih => exact ih (c.settle H)

theorem LeakFree_append (H : Multiset Handle) (a b : List Event) :
    LeakFree H (a ++ b) ↔ LeakFree H a ∧ LeakFree (heldAfterEvents H a) b := by
  induction a generalizing H with
  | nil => simp [LeakFree, heldAfterEvents]
  | cons ev evs ih =>
    cases ev with
    | Initialize r hw w h =>
      show _ ∧ LeakFree H (evs ++ b) ↔ (_ ∧ LeakFree H evs) ∧ LeakFree (heldAfterEvents H evs) b
      rw [ih, and_assoc]
    | platform r c =>
      show _ ∧ LeakFree (c.settle H) (evs ++ b) ↔
        (_ ∧ LeakFree (c.settle H) evs) ∧ LeakFree (heldAfterEvents (c.settle H) evs) b
      rw [ih, and_assoc]
    | OnDestroy r => exact ih H
    | destructor r => exact ih H
    | InvalidateRect hw => exact ih H
    | UpdateWindow hw => exact ih H
    | SetWindowTextW hw t => exact ih H

theorem heldAfterEvents_append (H : Multiset Handle) (a b : List Event) :
    heldAfterEvents H (a ++ b) = heldAfterEvents (heldAfterEvents H a) b := by
  induction a generalizing H with
  | nil => rfl
  | cons ev evs ih =>
    cases ev with
    | platform r c => exact ih (c.settle H)
    | Initialize r hw w h => exact ih H
    | OnDestroy r => exact ih H
    | destructor r => exact ih H
    | InvalidateRect hw => exact ih H
    | UpdateWindow hw => exact ih H
    | SetWindowTextW hw t => exact ih H

/-- What the ledger says at the begin of an `Initialize`: up to there every release
found its handle held, and nothing is held any more. -/
theorem LeakFree_at_Initialize (H : Multiset Handle) (pre post : List Event) (a : Nat)
    (hw : Option Nat) (w h : Nat) (hl : LeakFree H (pre ++ Event.Initialize a hw w h :: post)) :
    ReleasesHeld H (platformCalls pre) ∧ heldAfter H (platformCalls pre) = 0 := by
  induction pre generalizing H with
  | nil => exact ⟨trivial, hl.1⟩
  | cons ev evs ih =>
    cases ev with
    | platform r c => exact ⟨⟨hl.1, (ih _ hl.2).1⟩, (ih _ hl.2).2⟩
    | Initialize r hw' w' h' => exact ih H hl.2
    | OnDestroy r => exact ih H hl
    | destructor r => exact ih H hl
    | InvalidateRect hw' => exact ih H hl
    | UpdateWindow hw' => exact ih H hl
    | SetWindowTextW hw' t => exact ih H hl

/-- The balance of a ledger in which every release found its handle held: what is held
afterwards together with what was released is what was held before together with what
was acquired. -/
theorem heldAfter_balance (H : Multiset Handle) (cs : List Call) (h : ReleasesHeld H cs) :
    heldAfter H cs + (handlesReleased cs : Multiset Handle) =
      H + (handlesAcquired cs : Multiset Handle) := by
  induction cs generalizing H with
  | nil => simp [heldAfter, handlesReleased, handlesAcquired]
  | cons c cs ih =>
    have := ih (c.settle H) h.2
    show heldAfter (c.settle H) cs + _ = _
    have e1 : (handlesReleased (c :: cs) : Multiset Handle) =
        (c.released : Multiset Handle) + (handlesReleased cs : Multiset Handle) := by
      simp [handlesReleased]
    have e2 : (handlesAcquired (c :: cs) : Multiset Handle) =
        (c.acquired : Multiset Handle) + (handlesAcquired cs : Multiset Handle) := by
      simp [handlesAcquired]
    rw [e1, e2, add_left_comm, this, Call.settle]
    have h3 : H - (c.released : Multiset Handle) + (c.released : Multiset Handle) = H :=
      tsub_add_cancel_of_le h.1
    calc (c.released : Multiset Handle) +
          (H - (c.released : Multiset Handle) + (c.acquired : Multiset Handle) +
            (handlesAcquired cs : Multiset Handle))
        = (H - (c.released : Multiset Handle) + (c.released : Multiset Handle)) +
            ((c.acquired : Multiset Handle) + (handlesAcquired cs : Multiset Handle)) := by ac_rfl
      _ = _ := by rw [h3]
namespace Engine

/-- The events and the result of a `SwitchRenderer` that returns, when the engine holds
a renderer: `OnDestroy` and the destruction of the old renderer returned, `Initialize`
of the new renderer returned, and the window was asked to repaint. -/
theorem SwitchRenderer_ok (e e' : Engine) (old new : RendererPtr) (p : Platform)
    (hold : e.m_renderer = some old) (h : (e.SwitchRenderer (some new) p).out = .ok e') :
    ∃ o1 o2 n1, (old.obj.OnDestroy p.pace1).out = .ok o1 ∧ (o1.destroy p.pace2).out = .ok o2 ∧
      (new.obj.Initialize e.m_hwnd e.m_width e.m_height p).out = .ok n1 ∧
      e' = { e with m_renderer := some { new with obj := n1 } } ∧
      (e.SwitchRenderer (some new) p).events =
        (Event.OnDestroy old.addr ::
          (old.obj.OnDestroy p.pace1).calls.map (Event.platform old.addr)) ++
        ((Event.destructor old.addr ::
          (o1.destroy p.pace2).calls.map (Event.platform old.addr)) ++
        ((Event.Initialize new.addr e.m_hwnd e.m_width e.m_height ::
          (new.obj.Initialize e.m_hwnd e.m_width e.m_height p).calls.map
            (Event.platform new.addr)) ++
        [.InvalidateRect e.m_hwnd, .UpdateWindow e.m_hwnd])) := by
  cases h1 : (old.obj.OnDestroy p.pace1).out with
  | threw s w => simp [SwitchRenderer, hold, invoke, EngineRun.bind, h1] at h
  | fault w => simp [SwitchRenderer, hold, invoke, EngineRun.bind, h1] at h
  | hung => simp [SwitchRenderer, hold, invoke, EngineRun.bind, h1] at h
  | ok o1 =>
    cases h2 : (o1.destroy p.pace2).out with
    | threw s w => simp [SwitchRenderer, hold, invoke, EngineRun.bind, h1, h2] at h
    | fault w => simp [SwitchRenderer, hold, invoke, EngineRun.bind, h1, h2] at h
    | hung => simp [SwitchRenderer, hold, invoke, EngineRun.bind, h1, h2] at h
    | ok o2 =>
      cases h3 : (new.obj.Initialize e.m_hwnd e.m_width e.m_height p).out with
      | threw s w => simp [SwitchRenderer, hold, invoke, EngineRun.bind, h1, h2, h3] at h
      | fault w => simp [SwitchRenderer, hold, invoke, EngineRun.bind, h1, h2, h3] at h
      | hung => simp [SwitchRenderer, hold, invoke, EngineRun.bind, h1, h2, h3] at h
      | ok n1 =>
        refine ⟨o1, o2, n1, rfl, h2, rfl, ?_, ?_⟩
        · simp [SwitchRenderer, hold, invoke, EngineRun.bind, h1, h2, h3] at h
          exact h.symm
        · simp [SwitchRenderer, hold, invoke, EngineRun.bind, h1, h2, h3]

/-- The events and the result of the first `Engine::Initialize`, on the engine as
constructed, when it returns. -/
theorem first_Initialize_ok (width height : Nat) (draw : Fin 10000) (hwnd : Option Nat)
    (first : RendererPtr) (p : Platform) (e' : Engine)
    (h : ((new width height draw).Initialize hwnd (some first) p).out = .ok e') :
    ∃ n1, (first.obj.Initialize hwnd width height p).out = .ok n1 ∧
      e' = { new width height draw with
             m_hwnd := hwnd, m_renderer := some { first with obj := n1 } } ∧
      ((new width height draw).Initialize hwnd (some first) p).events =
        Event.Initialize first.addr hwnd width height ::
          (first.obj.Initialize hwnd width height p).calls.map (Event.platform first.addr) := by
  cases h3 : (first.obj.Initialize hwnd width height p).out with
  | threw s w => simp [Initialize, new, invoke, EngineRun.bind, h3] at h
  | fault w => simp [Initialize, new, invoke, EngineRun.bind, h3] at h
  | hung => simp [Initialize, new, invoke, EngineRun.bind, h3] at h
  | ok n1 =>
    refine ⟨n1, rfl, ?_, ?_⟩
    · simp [Initialize, new, invoke, EngineRun.bind, h3] at h
      rw [← h]
      rfl
    · simp [Initialize, new, invoke, EngineRun.bind, h3]

end Engine

theorem countP_isInitialize_platform (a : Nat) (cs : List Call) :
    (cs.map (Event.platform a)).countP Event.isInitialize = 0 := by
  rw [List.countP_eq_zero]
  intro ev hev
  have := notInitialize_platform a cs ev hev
  simpa using this

theorem countP_isInitialize_comp (a : Nat) (cs : List Call) :
    cs.countP (Event.isInitialize ∘ Event.platform a) = 0 := by
  rw [← List.countP_map]
  exact countP_isInitialize_platform a cs

namespace Engine

/-- The ledger of one switch that returns, from an engine whose renderer holds exactly
the handles on the ledger: the shutdown of the old renderer releases them all, one by
one and each while it is held; `Initialize` of the new renderer begins with nothing
held, and begins once; afterwards the ledger holds exactly what the new renderer
holds. -/
theorem switch_ledger (e e' : Engine) (old new : RendererPtr) (p : Platform)
    (hold : e.m_renderer = some old) (hs : old.obj.Settled) (hfresh : new.isFresh)
    (hgdi : new.obj = .gdi GDIRenderer.new → p.gdi.succeeds)
    (h : (e.SwitchRenderer (some new) p).out = .ok e') :
    LeakFree (old.obj.owned : Multiset Handle) (e.SwitchRenderer (some new) p).events ∧
    (e.SwitchRenderer (some new) p).events.countP Event.isInitialize = 1 ∧
    ∃ cur, e'.m_renderer = some cur ∧ cur.obj.Settled ∧
      heldAfterEvents (old.obj.owned : Multiset Handle) (e.SwitchRenderer (some new) p).events =
        (cur.obj.owned : Multiset Handle) := by
  obtain ⟨o1, o2, n1, h1, h2, h3, rfl, hev⟩ := SwitchRenderer_ok e e' old new p hold h
  obtain ⟨ha, hr⟩ := Renderer.either_shutdown_ledger old.obj o1 o2 p.pace1 p.pace2 hs h1 h2
  obtain ⟨i1, i2, i3⟩ := Renderer.either_Initialize_ledger new e.m_hwnd e.m_width e.m_height p n1 hfresh
    hgdi h3
  -- the shutdown, as one list of calls
  have hrel := heldAfter_releasing 0
    ((old.obj.OnDestroy p.pace1).calls ++ (o1.destroy p.pace2).calls)
    ((acquired_nil_iff _).mp ha)
  rw [hr, add_zero] at hrel
  rw [ReleasesHeld_append, heldAfter_append] at hrel
  obtain ⟨⟨r1, r2⟩, r3⟩ := hrel
  rw [hev]
  refine ⟨?_, ?_, ⟨{ new with obj := n1 }, rfl, i3, ?_⟩⟩
  · show LeakFree _ ((old.obj.OnDestroy p.pace1).calls.map (Event.platform old.addr) ++ _)
    rw [LeakFree_platform]
    refine ⟨r1, ?_⟩
    show LeakFree _ ((o1.destroy p.pace2).calls.map (Event.platform old.addr) ++ _)
    rw [LeakFree_platform]
    refine ⟨r2, ?_⟩
    rw [r3]
    refine ⟨rfl, ?_⟩
    show LeakFree 0 ((new.obj.Initialize e.m_hwnd e.m_width e.m_height p).calls.map
      (Event.platform new.addr) ++ _)
    rw [LeakFree_platform]
    exact ⟨i1, trivial⟩
  · simp [List.countP_cons, List.countP_append, countP_isInitialize_comp, Event.isInitialize]
  · show heldAfterEvents _ ((old.obj.OnDestroy p.pace1).calls.map (Event.platform old.addr) ++ _)
      = _
    rw [heldAfterEvents_platform]
    show heldAfterEvents _ ((o1.destroy p.pace2).calls.map (Event.platform old.addr) ++ _) = _
    rw [heldAfterEvents_platform, r3]
    show heldAfterEvents _ ((new.obj.Initialize e.m_hwnd e.m_width e.m_height p).calls.map
      (Event.platform new.addr) ++ _) = _
    rw [heldAfterEvents_platform, i2]
    rfl

end Engine
theorem EngineRun.bind_ok (r : EngineRun) (k : Engine → EngineRun) (e' : Engine)
    (h : (r.bind k).out = .ok e') :
    ∃ e1, r.out = .ok e1 ∧ (k e1).out = .ok e' ∧ (r.bind k).events = r.events ++ (k e1).events := by
  unfold EngineRun.bind at h ⊢
  cases hr : r.out with
  | ok e1 =>
    simp only [hr] at h ⊢
    exact ⟨e1, rfl, h, rfl⟩
  | threw s w => simp [hr] at h
  | fault w => simp [hr] at h
  | hung => simp [hr] at h

namespace Engine

/-- The ledger of consecutive switches that all return. -/
theorem switchAll_ledger (sws : List (RendererPtr × Platform)) (e e' : Engine)
    (cur : RendererPtr) (hcur : e.m_renderer = some cur) (hs : cur.obj.Settled)
    (hfresh : ∀ rp ∈ sws, rp.1.isFresh)
    (hgdi : ∀ rp ∈ sws, rp.1.obj = .gdi GDIRenderer.new → rp.2.gdi.succeeds)
    (h : (e.switchAll sws).out = .ok e') :
    LeakFree (cur.obj.owned : Multiset Handle) (e.switchAll sws).events ∧
    (e.switchAll sws).events.countP Event.isInitialize = sws.length := by
  induction sws generalizing e cur with
  | nil => exact ⟨trivial, rfl⟩
  | cons rp rest ih =>
    unfold switchAll at h ⊢
    obtain ⟨e1, h1, h2, hev⟩ := EngineRun.bind_ok _ _ _ h
    obtain ⟨l1, c1, nxt, hn, hsn, hheld⟩ := switch_ledger e e1 cur rp.1 rp.2 hcur hs
      (hfresh rp (List.mem_cons_self _ _)) (hgdi rp (List.mem_cons_self _ _)) h1
    obtain ⟨l2, c2⟩ := ih e1 nxt hn hsn (fun x hx => hfresh x (List.mem_cons_of_mem _ hx))
      (fun x hx => hgdi x (List.mem_cons_of_mem _ hx)) h2
    rw [hev]
    refine ⟨?_, ?_⟩
    · rw [LeakFree_append, hheld]
      exact ⟨l1, l2⟩
    · rw [List.countP_append, c1, c2, List.length_cons, Nat.add_comm]

end Engine

theorem sampleSession_ok :
    (Engine.session 1280 720 42 (some 100) (freshDX12, goodPlatform) tenSwitches).out =
      .ok sessionEnd := by rfl

/-- C14: in every session (the engine is constructed, `Initialize` is called with the
first renderer, and the renderer is then switched any number of times) in which every
call returns, every renderer is a fresh one as `CreateRenderer` makes it, and the
creation calls of every software renderer succeed: along the whole session no call
releases a handle that is not held at that moment (so no handle is released twice);
`Initialize` begins once per activation; and at the moment any `Initialize` begins no
handle is held any more, so the handles acquired up to then and the handles released up
to then are the same, each as often as the other: for the software renderer the bitmap,
the memory device context and the window device context, for the hardware renderer the
fence event, the sprite batch, fonts and graphics memory and every COM object. -/
theorem C14_switches_release_everything (width height : Nat) (draw : Fin 10000)
    (hwnd : Option Nat) (first : RendererPtr × Platform) (rest : List (RendererPtr × Platform))
    (e' : Engine)
    (hfresh : ∀ rp ∈ first :: rest, rp.1.isFresh)
    (hgdi : ∀ rp ∈ first :: rest, rp.1.obj = .gdi GDIRenderer.new → rp.2.gdi.succeeds)
    (hok : (Engine.session width height draw hwnd first rest).out = .ok e') :
    LeakFree 0 (Engine.session width height draw hwnd first rest).events ∧
    (Engine.session width height draw hwnd first rest).events.countP Event.isInitialize =
      rest.length + 1 ∧
    (∀ pre post a hw w h,
      (Engine.session width height draw hwnd first rest).events =
        pre ++ Event.Initialize a hw w h :: post →
      ReleasesHeld 0 (platformCalls pre) ∧ heldAfter 0 (platformCalls pre) = 0 ∧
      (handlesAcquired (platformCalls pre)).Perm (handlesReleased (platformCalls pre))) ∧
    (∀ (g g1 g2 : GDIRenderer),
      g.m_windowDC.isSome ∧ g.m_memoryDC.isSome ∧ g.m_memoryBitmap.isSome →
      g.OnDestroy.out = .ok g1 → g1.destroy.out = .ok g2 →
      handlesReleased (g.OnDestroy.calls ++ g1.destroy.calls) = g.owned) ∧
    (∀ (s s1 s2 : DX12Renderer) (pace1 pace2 : GpuPace),
      (s.OnDestroy pace1).out = .ok s1 → (s1.destroy pace2).out = .ok s2 →
      handlesReleased ((s.OnDestroy pace1).calls ++ (s1.destroy pace2).calls) = s.owned) := by
  have key : LeakFree 0 (Engine.session width height draw hwnd first rest).events ∧
      (Engine.session width height draw hwnd first rest).events.countP Event.isInitialize =
        rest.length + 1 := by
    unfold Engine.session at hok ⊢
    obtain ⟨e1, h1, h2, hev⟩ := EngineRun.bind_ok _ _ _ hok
    obtain ⟨n1, hn1, rfl, hev1⟩ := Engine.first_Initialize_ok width height draw hwnd first.1 first.2 e1 h1
    obtain ⟨i1, i2, i3⟩ := Renderer.either_Initialize_ledger first.1 hwnd width height first.2 n1
      (hfresh first (List.mem_cons_self _ _)) (hgdi first (List.mem_cons_self _ _)) hn1
    obtain ⟨l2, c2⟩ := Engine.switchAll_ledger rest _ e' { first.1 with obj := n1 } rfl i3
      (fun x hx => hfresh x (List.mem_cons_of_mem _ hx))
      (fun x hx => hgdi x (List.mem_cons_of_mem _ hx)) h2
    rw [hev, hev1]
    refine ⟨?_, ?_⟩
    · refine ⟨rfl, ?_⟩
      show LeakFree 0 ((first.1.obj.Initialize hwnd width height first.2).calls.map
        (Event.platform first.1.addr) ++ _)
      rw [LeakFree_platform, i2]
      exact ⟨i1, l2⟩
    · rw [List.countP_append, c2, List.countP_cons, countP_isInitialize_platform]
      simp [Event.isInitialize, Nat.add_comm]
  refine ⟨key.1, key.2, ?_, ?_, ?_⟩
  · intro pre post a hw w h hsplit
    have hl := key.1
    rw [hsplit] at hl
    obtain ⟨r, z⟩ := LeakFree_at_Initialize 0 pre post a hw w h hl
    refine ⟨r, z, ?_⟩
    have hb := heldAfter_balance 0 _ r
    rw [z, zero_add, zero_add] at hb
    exact (Multiset.coe_eq_coe.mp hb).symm
  · intro g g1 g2 hs h1 h2
    exact (GDIRenderer.software_shutdown_ledger g g1 g2 hs h1 h2).2
  · intro s s1 s2 pace1 pace2 h1 h2
    exact (DX12Renderer.shutdown_ledger s s1 s2 pace1 pace2 h1 h2).2

/-- C14 at a concrete input: a session on a 1280 x 720 window that starts on the
hardware renderer and then switches ten times, to the software renderer, back to the
hardware renderer, and so on, on a platform where every call succeeds. -/
theorem C14_switches_release_everything_witness :
    tenSwitches.length = 10 ∧
    (Engine.session 1280 720 42 (some 100) (freshDX12, goodPlatform) tenSwitches).out =
      .ok sessionEnd ∧
    LeakFree 0 (Engine.session 1280 720 42 (some 100) (freshDX12, goodPlatform)
      tenSwitches).events ∧
    (Engine.session 1280 720 42 (some 100) (freshDX12, goodPlatform)
      tenSwitches).events.countP Event.isInitialize = 11 :=
  have h := C14_switches_release_everything 1280 720 42 (some 100) (freshDX12, goodPlatform)
    tenSwitches sessionEnd
    (by
      intro rp hrp
      simp only [tenSwitches, List.mem_cons, List.mem_singleton, List.not_mem_nil,
        or_false] at hrp
      rcases hrp with rfl | rfl | rfl | rfl | rfl | rfl | rfl | rfl | rfl | rfl | rfl <;>
        first | exact Or.inl rfl | exact Or.inr rfl)
    (by
      intro rp hrp _
      simp only [tenSwitches, List.mem_cons, List.mem_singleton, List.not_mem_nil,
        or_false] at hrp
      rcases hrp with rfl | rfl | rfl | rfl | rfl | rfl | rfl | rfl | rfl | rfl | rfl <;>
        exact ⟨rfl, rfl, rfl⟩)
    sampleSession_ok
  ⟨rfl, sampleSession_ok, h.1, h.2.1⟩

/-! ## C15: the text batch within a frame -/

namespace DX12Renderer

/-- The calls of a returning `BeginFrame`. -/
theorem BeginFrame_calls (s s' : DX12Renderer) (h : s.BeginFrame.out = .ok s') :
    s.BeginFrame.calls =
      [.AllocatorReset, .CommandListReset, .ResourceBarrier s.m_frameIndex .PRESENT .RENDER_TARGET,
       .OMSetRenderTargets s.m_frameIndex] := by
  unfold BeginFrame at h ⊢
  split at h
  · simp at h
  split at h
  · simp at h
  split at h
  · simp at h
  · simp at h
  split at h
  · simp at h
  · rfl

/-- The calls of a returning `Clear`: the fill, the viewport and scissor rectangle, the
font heap, and then the begin of the sprite batch. -/
theorem Clear_calls (s s' : DX12Renderer) (r g b : ℚ) (h : (s.Clear r g b).out = .ok s') :
    (s.Clear r g b).calls =
      [.ClearRenderTargetView s.m_frameIndex (r, g, b, 1), .RSSetViewports, .RSSetScissorRects,
       .SetDescriptorHeaps, .SpriteBatchBegin] := by
  rcases h1 : s.m_rtvHeap with _ | heap
  · simp [Clear, h1] at h
  rcases h2 : s.m_commandList with _ | cl
  · simp [Clear, h1, h2] at h
  rcases h3 : s.m_spriteBatch with _ | sb
  · simp [Clear, h1, h2, h3] at h
  by_cases hb : s.gpu.batchOpen = true
  · simp [Clear, h1, h2, h3, hb] at h
  · simp [Clear, h1, h2, h3, hb]

/-- The call of a returning `DrawText`: one `DrawString` with the text, the position and
the colour it was given. -/
theorem DrawText_calls (s s' : DX12Renderer) (text : String) (x y fontSize r g b : ℚ)
    (bold : Bool) (h : (s.DrawText text x y fontSize r g b bold).out = .ok s') :
    ∃ v, (s.DrawText text x y fontSize r g b bold).calls =
      [Call.DrawString v text x y (r, g, b, 1)] := by
  rcases h1 : s.chooseFont fontSize with _ | font
  · simp [DrawText, h1] at h
  rcases h2 : s.m_spriteBatch with _ | sb
  · simp [DrawText, h1, h2] at h
  by_cases hb : s.gpu.batchOpen = true
  · exact ⟨font.variant, by simp [DrawText, h1, h2, hb]⟩
  · simp [DrawText, h1, h2, hb] at h

/-- The calls of returning `DrawText` calls: one `DrawString` for each, in order. -/
theorem drawAll_calls (ds : List TextDraw) (s s' : DX12Renderer)
    (h : (s.drawAll ds).out = .ok s') :
    List.Forall₂ (fun (d : TextDraw) (c : Call) =>
      ∃ v, c = Call.DrawString v d.text d.x d.y (d.r, d.g, d.b, 1)) ds (s.drawAll ds).calls := by
  induction ds generalizing s with
  | nil => exact List.Forall₂.nil
  | cons d ds ih =>
    unfold drawAll at h ⊢
    obtain ⟨s1, h1, h2, hc⟩ := Run.bind_calls _ _ _ h
    rw [hc]
    obtain ⟨v, hv⟩ := DrawText_calls _ _ _ _ _ _ _ _ _ _ h1
    rw [hv]
    exact List.Forall₂.cons ⟨v, rfl⟩ (ih s1 h2)

/-- The calls of a returning `EndFrame`: the end of the sprite batch, the barrier back
to `PRESENT`, the close of the command list, its submission and the present; then the
calls of `WaitForPreviousFrame` and the commit of the graphics memory. -/
theorem EndFrame_calls (s s' : DX12Renderer) (pace : GpuPace)
    (h : (s.EndFrame pace).out = .ok s') :
    ∃ wait : List Call,
      (s.EndFrame pace).calls =
        [.SpriteBatchEnd, .ResourceBarrier s.m_frameIndex .RENDER_TARGET .PRESENT,
         .CommandListClose, .ExecuteCommandLists, .Present] ++ wait ∧
      ∀ c ∈ wait, c.isFenceWait s.m_fenceEvent = true ∨ c = .GraphicsMemoryCommit := by
  rcases h1 : s.m_spriteBatch with _ | sb
  · simp [EndFrame, h1] at h
  by_cases hb : s.gpu.batchOpen = true
  swap
  · simp [EndFrame, h1, hb] at h
  rcases h2 : s.m_renderTargets[s.m_frameIndex]? with _ | target
  · simp [EndFrame, h1, hb, h2] at h
  rcases h3 : s.m_commandList with _ | cl
  · simp [EndFrame, h1, hb, h2, h3] at h
  rcases target with _ | target
  · simp [EndFrame, h1, hb, h2, h3] at h
  rcases h4 : s.m_commandQueue with _ | q
  · simp [EndFrame, h1, hb, h2, h3, h4] at h
  rcases h5 : s.m_swapChain with _ | sc
  · simp [EndFrame, h1, hb, h2, h3, h4, h5] at h
  simp only [EndFrame, List.get?_eq_getElem?, h1, hb, h2, h3, h4, h5, Bool.not_true,
    Bool.false_eq_true, if_false] at h ⊢
  obtain ⟨s2, h6, h7, hc⟩ := Run.bind_calls _ _ _ h
  obtain ⟨s1, h8, hw, hc1⟩ := Run.bind_calls _ _ _ h6
  simp only [Outcome.ok.injEq] at h8
  have hev : s1.m_fenceEvent = s.m_fenceEvent := by rw [← h8]
  rw [hc, hc1]
  refine ⟨(s1.WaitForPreviousFrame pace).calls ++ [.GraphicsMemoryCommit], ?_, ?_⟩
  · split at h7
    · simp at h7
    · simp
  · intro c hc'
    rcases List.mem_append.mp hc' with hc' | hc'
    · rw [← hev]
      exact Or.inl (WaitForPreviousFrame_isFenceWait _ pace c hc')
    · simp only [List.mem_singleton] at hc'
      exact Or.inr hc'

end DX12Renderer
theorem sampleRecorded_ok : (sampleState.recordFrame sampleFrame).out = .ok sampleRecorded := by
  rfl

/-- Glyph draws are neither the begin nor the end of the batch. -/
theorem glyphs_count (ds : List TextDraw) (glyphs : List Call)
    (h : List.Forall₂ (fun (d : TextDraw) (c : Call) =>
      ∃ v, c = Call.DrawString v d.text d.x d.y (d.r, d.g, d.b, 1)) ds glyphs) :
    glyphs.countP Call.isBatchBegin = 0 ∧ glyphs.countP Call.isBatchEnd = 0 ∧
    glyphs.countP Call.isGlyphDraw = ds.length := by
  induction h with
  | nil => exact ⟨rfl, rfl, rfl⟩
  | cons hd _ ih =>
    obtain ⟨v, rfl⟩ := hd
    simp [List.countP_cons, Call.isBatchBegin, Call.isBatchEnd, Call.isGlyphDraw, ih.1, ih.2.1,
      ih.2.2]

/-- The calls of `WaitForPreviousFrame` and the commit of the graphics memory are no
batch calls. -/
theorem wait_count (event : Option Nat) (wait : List Call)
    (h : ∀ c ∈ wait, c.isFenceWait event = true ∨ c = .GraphicsMemoryCommit) :
    wait.countP Call.isBatchBegin = 0 ∧ wait.countP Call.isBatchEnd = 0 ∧
    wait.countP Call.isGlyphDraw = 0 := by
  simp only [List.countP_eq_zero]
  refine ⟨?_, ?_, ?_⟩ <;>
  · intro c hc
    rcases h c hc with hw | rfl
    · cases c <;> simp [Call.isFenceWait] at hw <;> simp [Call.isBatchBegin, Call.isBatchEnd,
        Call.isGlyphDraw]
    · simp [Call.isBatchBegin, Call.isBatchEnd, Call.isGlyphDraw]

/-- C15: on the hardware backend, the calls of every frame driven in the required order
(`BeginFrame`, `Clear`, any number of `DrawText` calls, `EndFrame`) that returns are, in
this order: the reset of the recording and the barrier into `RENDER_TARGET`; the fill of
`Clear` and, last of `Clear`, the begin of the sprite batch; one glyph draw for each
`DrawText` call, with its text, position and colour; the end of the sprite batch; the
barrier back to `PRESENT`; the close of the command list, its submission and the
present; and then only fence calls and the commit of the graphics memory.  So the trace
has exactly one batch begin, exactly one batch end and exactly `k` glyph draws, all
between the two.  On a responsive GPU, at a frame boundary and with every object
there, the frame does return. -/
theorem C15_text_batch (s s' : DX12Renderer) (f : Frame) (h : (s.frame f).out = .ok s') :
    (∃ glyphs wait : List Call,
      (s.frame f).calls =
        [.AllocatorReset, .CommandListReset,
         .ResourceBarrier s.m_frameIndex .PRESENT .RENDER_TARGET,
         .OMSetRenderTargets s.m_frameIndex,
         .ClearRenderTargetView s.m_frameIndex (f.clear.1, f.clear.2.1, f.clear.2.2, 1),
         .RSSetViewports, .RSSetScissorRects, .SetDescriptorHeaps, .SpriteBatchBegin] ++
        glyphs ++
        [.SpriteBatchEnd, .ResourceBarrier s.m_frameIndex .RENDER_TARGET .PRESENT,
         .CommandListClose, .ExecuteCommandLists, .Present] ++
        wait ∧
      List.Forall₂ (fun (d : TextDraw) (c : Call) =>
        ∃ v, c = Call.DrawString v d.text d.x d.y (d.r, d.g, d.b, 1)) f.draws glyphs ∧
      ∀ c ∈ wait, c.isFenceWait s.m_fenceEvent = true ∨ c = .GraphicsMemoryCommit) ∧
    (s.frame f).calls.countP Call.isBatchBegin = 1 ∧
    (s.frame f).calls.countP Call.isBatchEnd = 1 ∧
    (s.frame f).calls.countP Call.isGlyphDraw = f.draws.length ∧
    (∀ (st : DX12Renderer) (fr : Frame), st.AtFrameBoundary → st.Operational →
      fr.pace.responsive = true → ∃ st', (st.frame fr).out = .ok st') := by
  have shape : ∃ glyphs wait : List Call,
      (s.frame f).calls =
        [.AllocatorReset, .CommandListReset,
         .ResourceBarrier s.m_frameIndex .PRESENT .RENDER_TARGET,
         .OMSetRenderTargets s.m_frameIndex,
         .ClearRenderTargetView s.m_frameIndex (f.clear.1, f.clear.2.1, f.clear.2.2, 1),
         .RSSetViewports, .RSSetScissorRects, .SetDescriptorHeaps, .SpriteBatchBegin] ++
        glyphs ++
        [.SpriteBatchEnd, .ResourceBarrier s.m_frameIndex .RENDER_TARGET .PRESENT,
         .CommandListClose, .ExecuteCommandLists, .Present] ++
        wait ∧
      List.Forall₂ (fun (d : TextDraw) (c : Call) =>
        ∃ v, c = Call.DrawString v d.text d.x d.y (d.r, d.g, d.b, 1)) f.draws glyphs ∧
      ∀ c ∈ wait, c.isFenceWait s.m_fenceEvent = true ∨ c = .GraphicsMemoryCommit := by
    unfold DX12Renderer.frame at h ⊢
    obtain ⟨s3, h3, h4, hc⟩ := Run.bind_calls _ _ _ h
    have e3 := DX12Renderer.recordFrame_ok _ _ _ h3
    unfold DX12Renderer.recordFrame at h3 hc ⊢
    obtain ⟨s2, h2, hd, hc2⟩ := Run.bind_calls _ _ _ h3
    obtain ⟨s1, hb, hcl, hc1⟩ := Run.bind_calls _ _ _ h2
    have e1 := DX12Renderer.BeginFrame_ok _ _ hb
    have c1 := DX12Renderer.BeginFrame_calls _ _ hb
    have c2 := DX12Renderer.Clear_calls _ _ _ _ _ hcl
    have c3 := DX12Renderer.drawAll_calls _ _ _ hd
    obtain ⟨wait, c4, hwait⟩ := DX12Renderer.EndFrame_calls _ _ _ h4
    have f1 : s1.m_frameIndex = s.m_frameIndex := by rw [e1]
    have f3 : s3.m_frameIndex = s.m_frameIndex := by rw [e3]
    have f4 : s3.m_fenceEvent = s.m_fenceEvent := by rw [e3]
    rw [f1] at c2
    rw [f3] at c4
    rw [f4] at hwait
    refine ⟨(s2.drawAll f.draws).calls, wait, ?_, c3, hwait⟩
    rw [hc, hc2, hc1, c1, c2, c4]
    simp
  obtain ⟨glyphs, wait, hshape, hg, hw⟩ := shape
  obtain ⟨g1, g2, g3⟩ := glyphs_count _ _ hg
  obtain ⟨w1, w2, w3⟩ := wait_count _ _ hw
  refine ⟨⟨glyphs, wait, hshape, hg, hw⟩, ?_, ?_, ?_, ?_⟩
  · rw [hshape]
    simp [List.countP_append, List.countP_cons, Call.isBatchBegin, g1, w1]
  · rw [hshape]
    simp [List.countP_append, List.countP_cons, Call.isBatchEnd, g2, w2]
  · rw [hshape]
    simp [List.countP_append, List.countP_cons, Call.isGlyphDraw, g3, w3]
  · intro st fr hb ho hp
    exact DX12Renderer.frame_returns st fr hb ho hp

/-- C15 at a concrete input: the sample frame, with two `DrawText` calls, on the sample
renderer. -/
theorem C15_text_batch_witness :
    (sampleState.frame sampleFrame).calls =
      [.AllocatorReset, .CommandListReset, .ResourceBarrier 0 .PRESENT .RENDER_TARGET,
       .OMSetRenderTargets 0, .ClearRenderTargetView 0 (3 / 10, 4 / 10, 6 / 10, 1),
       .RSSetViewports, .RSSetScissorRects, .SetDescriptorHeaps, .SpriteBatchBegin,
       .DrawString displayVariant "1234" 500 300 (1, 1, 0, 1),
       .DrawString bodyVariant "title" 40 30 (1, 1, 1, 1),
       .SpriteBatchEnd, .ResourceBarrier 0 .RENDER_TARGET .PRESENT, .CommandListClose,
       .ExecuteCommandLists, .Present, .Signal 4 (some 11) 1, .GetCompletedValue 11 0,
       .SetEventOnCompletion 11 1 (some 12), .WaitForSingleObject (some 12),
       .GetCurrentBackBufferIndex 5 1, .GraphicsMemoryCommit] ∧
    (sampleState.frame sampleFrame).calls.countP Call.isBatchBegin = 1 ∧
    (sampleState.frame sampleFrame).calls.countP Call.isBatchEnd = 1 ∧
    (sampleState.frame sampleFrame).calls.countP Call.isGlyphDraw = 2 :=
  have h := C15_text_batch sampleState
    (((sampleState.frame sampleFrame).state?).getD sampleState) sampleFrame (by rfl)
  ⟨by rfl, h.2.1, h.2.2.1, h.2.2.2.1⟩

/-! ## C16: where `RenderScene` puts the text -/

theorem platformCalls_map (a : Nat) (cs : List Call) :
    platformCalls (cs.map (Event.platform a)) = cs := by
  induction cs with
  | nil => rfl
  | cons c cs ih => simp [platformCalls, ih]

theorem Run.andThen_calls {α σ : Type} (r : Run α) (s : σ) (k : α → Run σ) (s' : σ)
    (h : (r.andThen s k).out = .ok s') :
    ∃ a, r.out = .ok a ∧ (k a).out = .ok s' ∧ (r.andThen s k).calls = r.calls ++ (k a).calls := by
  unfold Run.andThen at h ⊢
  cases hr : r.out with
  | ok a =>
    simp only [hr] at h ⊢
    exact ⟨a, rfl, h, rfl⟩
  | threw s w => simp [hr] at h
  | fault w => simp [hr] at h
  | hung => simp [hr] at h

namespace Renderer

/-- A returning `DrawText` on the hardware renderer: one `DrawString` in the font chosen
for the size, at the position given; the renderer is unchanged. -/
theorem DrawText_dx12 (d : DX12Renderer) (rd' : Renderer) (text : String)
    (x y fontSize r g b : ℚ) (bold : Bool) (p : Platform)
    (h : ((Renderer.dx12 d).DrawText text x y fontSize r g b bold p).out = .ok rd') :
    rd' = .dx12 d ∧
    ∃ font, d.chooseFont fontSize = some font ∧
      ((Renderer.dx12 d).DrawText text x y fontSize r g b bold p).calls =
        [.DrawString font.variant text x y (r, g, b, 1)] := by
  simp only [DrawText, Run.map_out_ok, Run.map_calls] at h ⊢
  obtain ⟨d', hd', rfl⟩ := h
  have e := (DX12Renderer.DrawText_ok _ _ _ _ _ _ _ _ _ _ hd').1
  subst e
  refine ⟨rfl, ?_⟩
  rcases h1 : d'.chooseFont fontSize with _ | font
  · simp [DX12Renderer.DrawText, h1] at hd'
  rcases h2 : d'.m_spriteBatch with _ | sb
  · simp [DX12Renderer.DrawText, h1, h2] at hd'
  by_cases hb : d'.gpu.batchOpen = true
  · exact ⟨font, rfl, by simp [DX12Renderer.DrawText, h1, h2, hb]⟩
  · simp [DX12Renderer.DrawText, h1, h2, hb] at hd'

/-- A returning `MeasureText` on the hardware renderer: the size the platform reports
for the text in the font chosen for the size. -/
theorem MeasureText_dx12 (d : DX12Renderer) (text : String) (fontSize : ℚ) (p : Platform)
    (size : ℚ × ℚ) (h : ((Renderer.dx12 d).MeasureText text fontSize p).out = .ok size) :
    ∃ font, d.chooseFont fontSize = some font ∧ size = p.spriteMetrics font.variant text ∧
      ((Renderer.dx12 d).MeasureText text fontSize p).calls =
        [.MeasureString font.variant text] := by
  simp only [MeasureText] at h ⊢
  rcases h1 : d.chooseFont fontSize with _ | font
  · simp [DX12Renderer.MeasureText, h1] at h
  · simp only [DX12Renderer.MeasureText, h1, Outcome.ok.injEq] at h ⊢
    exact ⟨font, rfl, h.symm, rfl⟩

/-- A returning `BeginFrame` followed by `Clear` on the hardware renderer: no glyph is
drawn, and the fonts are untouched. -/
theorem BeginFrame_Clear_dx12 (d : DX12Renderer) (rd' : Renderer) (r g b : ℚ)
    (h : ((Renderer.dx12 d).BeginFrame.bind fun rd => rd.Clear r g b).out = .ok rd') :
    ∃ d2, rd' = .dx12 d2 ∧ d2.m_font = d.m_font ∧ d2.m_largeFont = d.m_largeFont ∧
      ((Renderer.dx12 d).BeginFrame.bind fun rd => rd.Clear r g b).calls.filterMap
        Call.glyphAnchor? = [] := by
  obtain ⟨rd1, h1, h2, hc⟩ := Run.bind_calls _ _ _ h
  simp only [BeginFrame, Run.map_out_ok] at h1
  obtain ⟨d1, hd1, rfl⟩ := h1
  simp only [Clear, Run.map_out_ok] at h2
  obtain ⟨d2, hd2, rfl⟩ := h2
  have e1 := DX12Renderer.BeginFrame_ok _ _ hd1
  have e2 := (DX12Renderer.Clear_ok _ _ _ _ _ hd2).1
  have c1 := DX12Renderer.BeginFrame_calls _ _ hd1
  have c2 := DX12Renderer.Clear_calls _ _ _ _ _ hd2
  refine ⟨d2, rfl, by rw [e2, e1], by rw [e2, e1], ?_⟩
  rw [hc]
  simp only [BeginFrame, Clear, Run.map_calls, c1, c2]
  rfl

/-- A returning `EndFrame` on the hardware renderer draws no glyph. -/
theorem EndFrame_dx12 (d : DX12Renderer) (rd' : Renderer) (pace : GpuPace)
    (h : ((Renderer.dx12 d).EndFrame pace).out = .ok rd') :
    ((Renderer.dx12 d).EndFrame pace).calls.filterMap Call.glyphAnchor? = [] := by
  simp only [EndFrame, Run.map_out_ok, Run.map_calls] at h ⊢
  obtain ⟨d', hd', -⟩ := h
  obtain ⟨wait, hc, hw⟩ := DX12Renderer.EndFrame_calls _ _ _ hd'
  rw [hc, List.filterMap_append]
  have : wait.filterMap Call.glyphAnchor? = [] := by
    rw [List.filterMap_eq_nil_iff]
    intro c hcm
    rcases hw c hcm with hf | rfl
    · cases c <;> simp [Call.isFenceWait] at hf <;> rfl
    · rfl
  rw [this]
  rfl

end Renderer

theorem DX12Renderer.chooseFont_sizes (d : DX12Renderer) :
    d.chooseFont 24 = d.m_font ∧ d.chooseFont 120 = d.m_largeFont ∧
    d.chooseFont 20 = d.m_font := by
  refine ⟨?_, ?_, ?_⟩ <;> simp only [DX12Renderer.chooseFont] <;> norm_num

namespace Engine

/-- The glyph draws of a returning `RenderScene` on the hardware renderer, in order: the
renderer name at `(40, 30)`; the title at `((W - w) / 2, 80)`; the number at
`((W - w) / 2, (H - h) / 2)`; the message at `((W - w) / 2, H - 100)`; where `(w, h)` is
each time the size `MeasureText` reported for that text. -/
theorem sceneOn_dx12 (e : Engine) (name : String) (d : DX12Renderer) (p : Platform)
    (rd' : Renderer) (h : (e.sceneOn name (.dx12 d) p).out = .ok rd') :
    ∃ fb fl, d.m_font = some fb ∧ d.m_largeFont = some fl ∧
      (e.sceneOn name (.dx12 d) p).calls.filterMap Call.glyphAnchor? =
        [(name, 40, 30),
         ("Random Number Generator",
            ((e.m_width : ℚ) - (p.spriteMetrics fb.variant "Random Number Generator").1) / 2, 80),
         (toString e.m_randomNumber,
            ((e.m_width : ℚ) -
              (p.spriteMetrics fl.variant (toString e.m_randomNumber)).1) / 2,
            ((e.m_height : ℚ) -
              (p.spriteMetrics fl.variant (toString e.m_randomNumber)).2) / 2),
         ("Updates every 5 seconds",
            ((e.m_width : ℚ) - (p.spriteMetrics fb.variant "Updates every 5 seconds").1) / 2,
            (e.m_height : ℚ) - 100)] := by
  unfold sceneOn at h ⊢
  simp only at h ⊢
  obtain ⟨rdA, hA, h1, c1⟩ := Run.bind_calls _ _ _ h
  obtain ⟨d2, rfl, hf, hlf, gA⟩ := Renderer.BeginFrame_Clear_dx12 d rdA _ _ _ hA
  obtain ⟨k24, k120, k20⟩ := DX12Renderer.chooseFont_sizes d2
  -- the renderer name
  obtain ⟨rdB, hB, h2, c2⟩ := Run.bind_calls _ _ _ h1
  obtain ⟨rfl, fb, hfb, gB⟩ := Renderer.DrawText_dx12 d2 rdB _ _ _ _ _ _ _ _ _ hB
  rw [k24] at hfb
  -- the title
  obtain ⟨title, hT, h3, c3⟩ := Run.andThen_calls _ _ _ _ h2
  obtain ⟨fb1, hfb1, rfl, gT⟩ := Renderer.MeasureText_dx12 d2 _ _ _ _ hT
  rw [k24, hfb] at hfb1
  obtain rfl := Option.some.inj hfb1
  obtain ⟨rdC, hC, h4, c4⟩ := Run.bind_calls _ _ _ h3
  obtain ⟨rfl, fb2, hfb2, gC⟩ := Renderer.DrawText_dx12 d2 rdC _ _ _ _ _ _ _ _ _ hC
  rw [k24, hfb] at hfb2
  obtain rfl := Option.some.inj hfb2
  -- the number
  obtain ⟨number, hN, h5, c5⟩ := Run.andThen_calls _ _ _ _ h4
  obtain ⟨fl, hfl, rfl, gN⟩ := Renderer.MeasureText_dx12 d2 _ _ _ _ hN
  rw [k120] at hfl
  obtain ⟨rdD, hD, h6, c6⟩ := Run.bind_calls _ _ _ h5
  obtain ⟨rfl, fl1, hfl1, gD⟩ := Renderer.DrawText_dx12 d2 rdD _ _ _ _ _ _ _ _ _ hD
  rw [k120, hfl] at hfl1
  obtain rfl := Option.some.inj hfl1
  -- the message
  obtain ⟨message, hM, h7, c7⟩ := Run.andThen_calls _ _ _ _ h6
  obtain ⟨fb3, hfb3, rfl, gM⟩ := Renderer.MeasureText_dx12 d2 _ _ _ _ hM
  rw [k20, hfb] at hfb3
  obtain rfl := Option.some.inj hfb3
  obtain ⟨rdE, hE, h8, c8⟩ := Run.bind_calls _ _ _ h7
  obtain ⟨rfl, fb4, hfb4, gE⟩ := Renderer.DrawText_dx12 d2 rdE _ _ _ _ _ _ _ _ _ hE
  rw [k20, hfb] at hfb4
  obtain rfl := Option.some.inj hfb4
  have gF := Renderer.EndFrame_dx12 d2 rd' p.pace1 h8
  refine ⟨fb, fl, by rw [← hf, hfb], by rw [← hlf, hfl], ?_⟩
  rw [c1, c2, c3, c4, c5, c6, c7, c8]
  simp only [List.filterMap_append, gA, gB, gT, gC, gN, gD, gM, gE, gF]
  rfl

end Engine
namespace DX12Renderer

/-- On a responsive GPU `EndFrame` returns when the sprite batch is open and every object
it dereferences is there. -/
theorem EndFrame_returns (s : DX12Renderer) (pace : GpuPace)
    (hsb : s.m_spriteBatch.isSome) (hopen : s.gpu.batchOpen = true)
    (ht : ∃ t, s.m_renderTargets[s.m_frameIndex]? = some (some t))
    (hcl : s.m_commandList.isSome) (hq : s.m_commandQueue.isSome) (hsc : s.m_swapChain.isSome)
    (hf : s.m_fence.isSome) (hgm : s.m_graphicsMemory.isSome) (hp : pace.responsive = true) :
    ∃ s', (s.EndFrame pace).out = .ok s' := by
  obtain ⟨sb, b1⟩ := Option.isSome_iff_exists.mp hsb
  obtain ⟨t, b3⟩ := ht
  obtain ⟨list, b4⟩ := Option.isSome_iff_exists.mp hcl
  obtain ⟨queue, b5⟩ := Option.isSome_iff_exists.mp hq
  obtain ⟨sc, b6⟩ := Option.isSome_iff_exists.mp hsc
  obtain ⟨gm, b8⟩ := Option.isSome_iff_exists.mp hgm
  obtain ⟨s4, hw⟩ := WaitForPreviousFrame_returns
    ({ s with gpu :=
      { recordBarrier ({ s.gpu with batchOpen := false } : Gpu) s.m_frameIndex
          .RENDER_TARGET .PRESENT with
        pending := (recordBarrier ({ s.gpu with batchOpen := false } : Gpu) s.m_frameIndex
          .RENDER_TARGET .PRESENT).pending ++ [.execute, .present]
        backBuffer := ((recordBarrier ({ s.gpu with batchOpen := false } : Gpu) s.m_frameIndex
          .RENDER_TARGET .PRESENT).backBuffer + 1) % FRAME_COUNT } } : DX12Renderer) pace
    (by simp [b5]) hf (by simp [b6]) hp
  have e4 := (WaitForPreviousFrame_ok _ _ _ hw).1
  have c1 : s4.m_graphicsMemory = some gm := by rw [e4]; exact b8
  refine ⟨{ s4 with gpu := { s4.gpu with pending := s4.gpu.pending ++ [.commit] } }, ?_⟩
  simp only [EndFrame, List.get?_eq_getElem?, b1, hopen, b3, b4, b5, b6, Run.bind_out_ok,
    Bool.not_true, Bool.false_eq_true, if_false]
  refine ⟨s4, ⟨_, rfl, ?_⟩, ?_⟩
  · simpa only [b1, b4, b5, b6] using hw
  · simp only [c1]

end DX12Renderer

namespace Engine

/-- On a responsive GPU, at a frame boundary and with every object there, the frame that
`RenderScene` drives on the hardware renderer returns. -/
theorem sceneOn_dx12_returns (e : Engine) (name : String) (d : DX12Renderer) (p : Platform)
    (hb : d.AtFrameBoundary) (ho : d.Operational) (hp : p.pace1.responsive = true) :
    ∃ rd', (e.sceneOn name (.dx12 d) p).out = .ok rd' := by
  obtain ⟨hq, hsc, hheap, hal, hcl, hgm, hsb, hfont, hlf, hfence, hrt⟩ := ho
  obtain ⟨hfi, hlt, hbs, hbo⟩ := hb
  obtain ⟨t, ht⟩ := hrt d.m_frameIndex (by rw [hfi]; exact hlt)
  rw [List.get?_eq_getElem?] at ht
  obtain ⟨heap, hheap'⟩ := Option.isSome_iff_exists.mp hheap
  obtain ⟨alloc, hal'⟩ := Option.isSome_iff_exists.mp hal
  obtain ⟨list, hcl'⟩ := Option.isSome_iff_exists.mp hcl
  obtain ⟨sb, hsb'⟩ := Option.isSome_iff_exists.mp hsb
  obtain ⟨font, hfont'⟩ := Option.isSome_iff_exists.mp hfont
  obtain ⟨lfont, hlf'⟩ := Option.isSome_iff_exists.mp hlf
  -- BeginFrame and Clear return
  obtain ⟨s1, h1⟩ : ∃ s1, d.BeginFrame.out = .ok s1 :=
    ⟨_, by simp only [DX12Renderer.BeginFrame, List.get?_eq_getElem?, hal', hcl', ht, hheap']; rfl⟩
  have e1 := DX12Renderer.BeginFrame_ok _ _ h1
  obtain ⟨s2, h2⟩ : ∃ s2, (s1.Clear (backgroundColor e.m_randomNumber).1
      (backgroundColor e.m_randomNumber).2.1 (backgroundColor e.m_randomNumber).2.2).out =
      .ok s2 := by
    have a1 : s1.m_rtvHeap = some heap := by rw [e1]; exact hheap'
    have a2 : s1.m_commandList = some list := by rw [e1]; exact hcl'
    have a3 : s1.m_spriteBatch = some sb := by rw [e1]; exact hsb'
    have a4 : s1.gpu.batchOpen = false := by rw [e1]; exact hbo
    exact ⟨_, by simp only [DX12Renderer.Clear, a1, a2, a3, a4, Bool.false_eq_true, if_false]; rfl⟩
  have e2 := (DX12Renderer.Clear_ok _ _ _ _ _ h2).1
  have b1 : s2.m_spriteBatch = some sb := by rw [e2, e1]; exact hsb'
  have b2 : s2.gpu.batchOpen = true := by rw [e2]
  have b3 : s2.m_font = some font := by rw [e2, e1]; exact hfont'
  have b4 : s2.m_largeFont = some lfont := by rw [e2, e1]; exact hlf'
  -- the DrawText and MeasureText calls return
  have hd : ∀ (text : String) (x y sz r g b : ℚ) (bold : Bool),
      (s2.DrawText text x y sz r g b bold).out = .ok s2 := by
    intro text x y sz r g b bold
    by_cases hsz : sz > 60 <;>
      simp [DX12Renderer.DrawText, DX12Renderer.chooseFont, hsz, b1, b2, b3, b4]
  have hm : ∀ (text : String) (sz : ℚ),
      (s2.MeasureText text sz p.spriteMetrics).out =
        .ok (p.spriteMetrics (if sz > 60 then lfont.variant else font.variant) text) := by
    intro text sz
    by_cases hsz : sz > 60 <;>
      simp [DX12Renderer.MeasureText, DX12Renderer.chooseFont, hsz, b3, b4]
  -- EndFrame returns
  obtain ⟨s', hs'⟩ := DX12Renderer.EndFrame_returns s2 p.pace1 (by rw [b1]; rfl) b2
    ⟨t, by rw [e2, e1]; exact ht⟩ (by rw [e2, e1]; exact hcl) (by rw [e2, e1]; exact hq)
    (by rw [e2, e1]; exact hsc) (by rw [e2, e1]; exact hfence) (by rw [e2, e1]; exact hgm) hp
  refine ⟨.dx12 s', ?_⟩
  simp only [sceneOn, Renderer.BeginFrame, Renderer.Clear, Renderer.DrawText,
    Renderer.MeasureText, Renderer.EndFrame, Run.bind, Run.map, Run.andThen, h1, h2, hd, hm, hs']

end Engine

/-- Truncation toward zero moves a number by less than one. -/
theorem truncToInt_near (q : ℚ) : |((truncToInt q : ℤ) : ℚ) - q| < 1 := by
  have hd : (0 : ℤ) < (q.den : ℤ) := by exact_mod_cast q.den_pos
  have hdiv := Int.tdiv_add_tmod q.num q.den
  have h1 : q.num.tmod q.den < q.den := Int.tmod_lt_of_pos _ hd
  have h2 : -(q.den : ℤ) < q.num.tmod q.den := by
    have h := Int.tmod_lt_of_pos (-q.num) hd
    have e : (-q.num).tmod q.den = -(q.num.tmod q.den) := by
      rw [Int.tmod_def, Int.tmod_def, Int.neg_tdiv]
      ring
    rw [e] at h
    omega
  have hdq : (0 : ℚ) < (q.den : ℚ) := by exact_mod_cast q.den_pos
  have hq : q * (q.den : ℚ) = (q.num : ℚ) := Rat.mul_den_eq_num q
  have hnum : (q.num : ℚ) = (q.den : ℚ) * ((q.num.tdiv q.den : ℤ) : ℚ) +
      ((q.num.tmod q.den : ℤ) : ℚ) := by exact_mod_cast hdiv.symm
  have h1q : ((q.num.tmod q.den : ℤ) : ℚ) < (q.den : ℚ) := by exact_mod_cast h1
  have h2q : -(q.den : ℚ) < ((q.num.tmod q.den : ℤ) : ℚ) := by exact_mod_cast h2
  have ht : ((truncToInt q : ℤ) : ℚ) = ((q.num.tdiv q.den : ℤ) : ℚ) := rfl
  have key : (((truncToInt q : ℤ) : ℚ) - q) * (q.den : ℚ) =
      -((q.num.tmod q.den : ℤ) : ℚ) := by
    rw [ht, sub_mul, hq, hnum]
    ring
  rw [abs_lt]
  constructor
  · by_contra hc
    have hc' : ((truncToInt q : ℤ) : ℚ) - q ≤ -1 := not_lt.mp hc
    have := mul_le_mul_of_nonneg_right hc' hdq.le
    rw [key] at this
    linarith
  · by_contra hc
    have hc' : 1 ≤ ((truncToInt q : ℤ) : ℚ) - q := not_lt.mp hc
    have := mul_le_mul_of_nonneg_right hc' hdq.le
    rw [key] at this
    linarith

/-- The conversion `(LONG)x` moves a number of magnitude at most `2 ^ 30` by less than
one. -/
theorem toLONG_near (q : ℚ) (h : |q| ≤ 2 ^ 30) : |((toLONG q : ℤ) : ℚ) - q| < 1 := by
  have hn := truncToInt_near q
  have hb := abs_le.mp h
  have hl := abs_lt.mp hn
  have h1 : -(2 : ℤ) ^ 31 ≤ truncToInt q := by
    have : (-(2 : ℚ) ^ 31) ≤ ((truncToInt q : ℤ) : ℚ) := by linarith [hb.1, hl.1]
    exact_mod_cast this
  have h2 : truncToInt q < (2 : ℤ) ^ 31 := by
    have : ((truncToInt q : ℤ) : ℚ) < (2 : ℚ) ^ 31 := by linarith [hb.2, hl.2]
    exact_mod_cast this
  have : toLONG q = truncToInt q := by
    simp only [toLONG]
    rw [if_pos ⟨h1, h2⟩]
  rw [this]
  exact hn

namespace Engine

theorem sceneOn_gdi (e : Engine) (name : String) (g : GDIRenderer) (p : Platform) :
    (e.sceneOn name (.gdi g) p).out = .ok (.gdi g) ∧
    (e.sceneOn name (.gdi g) p).calls.filterMap Call.textRect? =
      [(name, toLONG 40, toLONG 30),
       ("Random Number Generator",
          toLONG (((e.m_width : ℚ) -
            (p.gdiFont.metrics (GDIRenderer.measureFont 24) "Random Number Generator").1) / 2),
          toLONG 80),
       (toString e.m_randomNumber,
          toLONG (((e.m_width : ℚ) -
            (p.gdiFont.metrics (GDIRenderer.measureFont 120) (toString e.m_randomNumber)).1) / 2),
          toLONG (((e.m_height : ℚ) -
            (p.gdiFont.metrics (GDIRenderer.measureFont 120) (toString e.m_randomNumber)).2) / 2)),
       ("Updates every 5 seconds",
          toLONG (((e.m_width : ℚ) -
            (p.gdiFont.metrics (GDIRenderer.measureFont 20) "Updates every 5 seconds").1) / 2),
          toLONG ((e.m_height : ℚ) - 100))] := by
  constructor
  · simp [sceneOn, Renderer.BeginFrame, Renderer.Clear, Renderer.DrawText,
      Renderer.MeasureText, Renderer.EndFrame, GDIRenderer.BeginFrame, GDIRenderer.Clear,
      GDIRenderer.DrawText, GDIRenderer.MeasureText, GDIRenderer.EndFrame, Run.bind, Run.map,
      Run.andThen]
  · simp [sceneOn, Renderer.BeginFrame, Renderer.Clear, Renderer.DrawText,
      Renderer.MeasureText, Renderer.EndFrame, GDIRenderer.BeginFrame, GDIRenderer.Clear,
      GDIRenderer.DrawText, GDIRenderer.MeasureText, GDIRenderer.EndFrame, Run.bind, Run.map,
      Run.andThen, Call.textRect?]

/-- The platform calls of `RenderScene` are those of the frame it drives on the active
renderer, and it returns exactly when that frame does. -/
theorem RenderScene_scene (e : Engine) (a : Nat) (rd : Renderer) (p : Platform)
    (hr : e.m_renderer = some { addr := a, obj := rd }) :
    platformCalls (e.RenderScene p).events = (e.sceneOn rd.GetName rd p).calls ∧
    ((∃ e', (e.RenderScene p).out = .ok e') ↔
      ∃ rd', (e.sceneOn rd.GetName rd p).out = .ok rd') := by
  have hn : e.GetRendererName = rd.GetName := by simp [GetRendererName, hr]
  simp only [RenderScene, hr, invoke, hn, List.nil_append]
  constructor
  · cases (e.sceneOn rd.GetName rd p).out <;> exact platformCalls_map _ _
  · cases (e.sceneOn rd.GetName rd p).out <;> simp

end Engine

/-- C16: `Engine::RenderScene` centres the text for every canvas size `(W, H)` and every
size `(w, h)` that `MeasureText` reports.  On the software renderer the frame always
returns and its four `DrawTextW` calls get the corners `(40, 30)` for the renderer name,
`((W - w) / 2, 80)` for the title, `((W - w) / 2, (H - h) / 2)` for the number and
`((W - w) / 2, H - 100)` for the helper string, each coordinate converted by `(LONG)`.
On the hardware renderer a frame that returns makes four `DrawString` calls at exactly
these positions, and the frame returns at a frame boundary of an operational renderer on
a responsive GPU.  With these anchors the measured box `[x, x + w] x [y, y + h]` of the
number has its centre at `(W / 2, H / 2)`; the `(LONG)` conversion of the software
renderer moves an anchor of magnitude at most `2 ^ 30` by less than one pixel.  The
arithmetic of `float` is taken as exact. -/
theorem C16_centred_anchors (e : Engine) (a : Nat) (rd : Renderer) (p : Platform)
    (hr : e.m_renderer = some { addr := a, obj := rd }) :
    (∀ g, rd = .gdi g →
      (∃ e', (e.RenderScene p).out = .ok e') ∧
      (platformCalls (e.RenderScene p).events).filterMap Call.textRect? =
        [("GDI Renderer", toLONG 40, toLONG 30),
         ("Random Number Generator",
            toLONG (((e.m_width : ℚ) -
              (p.gdiFont.metrics (GDIRenderer.measureFont 24) "Random Number Generator").1) / 2),
            toLONG 80),
         (toString e.m_randomNumber,
            toLONG (((e.m_width : ℚ) -
              (p.gdiFont.metrics (GDIRenderer.measureFont 120)
                (toString e.m_randomNumber)).1) / 2),
            toLONG (((e.m_height : ℚ) -
              (p.gdiFont.metrics (GDIRenderer.measureFont 120)
                (toString e.m_randomNumber)).2) / 2)),
         ("Updates every 5 seconds",
            toLONG (((e.m_width : ℚ) -
              (p.gdiFont.metrics (GDIRenderer.measureFont 20) "Updates every 5 seconds").1) / 2),
            toLONG ((e.m_height : ℚ) - 100))]) ∧
    (∀ d, rd = .dx12 d → (∃ e', (e.RenderScene p).out = .ok e') →
      ∃ fb fl, d.m_font = some fb ∧ d.m_largeFont = some fl ∧
        (platformCalls (e.RenderScene p).events).filterMap Call.glyphAnchor? =
          [("DirectX 12 Renderer", 40, 30),
           ("Random Number Generator",
              ((e.m_width : ℚ) -
                (p.spriteMetrics fb.variant "Random Number Generator").1) / 2, 80),
           (toString e.m_randomNumber,
              ((e.m_width : ℚ) -
                (p.spriteMetrics fl.variant (toString e.m_randomNumber)).1) / 2,
              ((e.m_height : ℚ) -
                (p.spriteMetrics fl.variant (toString e.m_randomNumber)).2) / 2),
           ("Updates every 5 seconds",
              ((e.m_width : ℚ) -
                (p.spriteMetrics fb.variant "Updates every 5 seconds").1) / 2,
              (e.m_height : ℚ) - 100)]) ∧
    (∀ d, rd = .dx12 d → d.AtFrameBoundary → d.Operational → p.pace1.responsive = true →
      ∃ e', (e.RenderScene p).out = .ok e') ∧
    (∀ w h : ℚ,
      (((e.m_width : ℚ) - w) / 2 + (((e.m_width : ℚ) - w) / 2 + w)) / 2 = (e.m_width : ℚ) / 2 ∧
      (((e.m_height : ℚ) - h) / 2 + (((e.m_height : ℚ) - h) / 2 + h)) / 2 =
        (e.m_height : ℚ) / 2 ∧
      (|((e.m_width : ℚ) - w) / 2| ≤ 2 ^ 30 →
        |((toLONG (((e.m_width : ℚ) - w) / 2) : ℤ) : ℚ) + w / 2 - (e.m_width : ℚ) / 2| < 1) ∧
      (|((e.m_height : ℚ) - h) / 2| ≤ 2 ^ 30 →
        |((toLONG (((e.m_height : ℚ) - h) / 2) : ℤ) : ℚ) + h / 2 - (e.m_height : ℚ) / 2| < 1)) := by
  obtain ⟨hc, hret⟩ := Engine.RenderScene_scene e a rd p hr
  refine ⟨?_, ?_, ?_, ?_⟩
  · rintro g rfl
    obtain ⟨h1, h2⟩ := Engine.sceneOn_gdi e (Renderer.gdi g).GetName g p
    exact ⟨hret.mpr ⟨_, h1⟩, by rw [hc]; exact h2⟩
  · rintro d rfl hok
    obtain ⟨rd', h⟩ := hret.mp hok
    obtain ⟨fb, fl, h1, h2, h3⟩ := Engine.sceneOn_dx12 e _ d p rd' h
    exact ⟨fb, fl, h1, h2, by rw [hc]; exact h3⟩
  · rintro d rfl hb ho hp
    exact hret.mpr (Engine.sceneOn_dx12_returns e _ d p hb ho hp)
  · intro w h
    refine ⟨by ring, by ring, fun hx => ?_, fun hy => ?_⟩
    · have := toLONG_near _ hx
      have e1 : ((toLONG (((e.m_width : ℚ) - w) / 2) : ℤ) : ℚ) + w / 2 - (e.m_width : ℚ) / 2 =
          ((toLONG (((e.m_width : ℚ) - w) / 2) : ℤ) : ℚ) - ((e.m_width : ℚ) - w) / 2 := by ring
      rw [e1]
      exact this
    · have := toLONG_near _ hy
      have e1 : ((toLONG (((e.m_height : ℚ) - h) / 2) : ℤ) : ℚ) + h / 2 - (e.m_height : ℚ) / 2 =
          ((toLONG (((e.m_height : ℚ) - h) / 2) : ℤ) : ℚ) - ((e.m_height : ℚ) - h) / 2 := by ring
      rw [e1]
      exact this


theorem toLONG_eq (q : ℚ) (n : Int) (hq : q = (n : ℚ)) (h1 : -(2 : Int) ^ 31 ≤ n)
    (h2 : n < (2 : Int) ^ 31) : toLONG q = n := by
  rw [hq]
  exact toLONG_intCast n h1 h2

theorem sample_text_lengths :
    (toString (1234 : Int)) = "1234" ∧ ("1234" : String).length = 4 ∧
    ("Random Number Generator" : String).length = 23 ∧
    ("Updates every 5 seconds" : String).length = 23 := by
  refine ⟨by rfl, by rfl, by rfl, by rfl⟩

theorem sampleEngine_anchors :
    [(("GDI Renderer" : String), toLONG 40, toLONG 30),
         ("Random Number Generator",
            toLONG (((sampleEngine.m_width : ℚ) -
              (goodPlatform.gdiFont.metrics (GDIRenderer.measureFont 24) "Random Number Generator").1) / 2),
            toLONG 80),
         (toString sampleEngine.m_randomNumber,
            toLONG (((sampleEngine.m_width : ℚ) -
              (goodPlatform.gdiFont.metrics (GDIRenderer.measureFont 120)
                (toString sampleEngine.m_randomNumber)).1) / 2),
            toLONG (((sampleEngine.m_height : ℚ) -
              (goodPlatform.gdiFont.metrics (GDIRenderer.measureFont 120)
                (toString sampleEngine.m_randomNumber)).2) / 2)),
         ("Updates every 5 seconds",
            toLONG (((sampleEngine.m_width : ℚ) -
              (goodPlatform.gdiFont.metrics (GDIRenderer.measureFont 20) "Updates every 5 seconds").1) / 2),
            toLONG ((sampleEngine.m_height : ℚ) - 100))] =
     [("GDI Renderer", 40, 30), ("Random Number Generator", -119, 80), ("1234", 508, 291),
         ("Updates every 5 seconds", -119, 620)] := by
  obtain ⟨t1, t2, t3, t4⟩ := sample_text_lengths
  have hn : toString sampleEngine.m_randomNumber = "1234" := t1
  rw [hn]
  simp only [sampleEngine, goodPlatform, sampleFonts, GDIRenderer.measureFont, t2, t3, t4,
    FW_NORMAL, FW_BOLD]
  rw [toLONG_eq 40 40 (by norm_num) (by norm_num) (by norm_num),
    toLONG_eq 30 30 (by norm_num) (by norm_num) (by norm_num),
    toLONG_eq 80 80 (by norm_num) (by norm_num) (by norm_num)]
  rw [toLONG_eq _ (-119) (by norm_num) (by norm_num) (by norm_num),
    toLONG_eq _ 508 (by norm_num) (by norm_num) (by norm_num),
    toLONG_eq _ 291 (by norm_num) (by norm_num) (by norm_num),
    toLONG_eq _ 620 (by norm_num) (by norm_num) (by norm_num)]

theorem smallEngine_anchors :
    [(("GDI Renderer" : String), toLONG 40, toLONG 30),
         ("Random Number Generator",
            toLONG (((smallEngine.m_width : ℚ) -
              (goodPlatform.gdiFont.metrics (GDIRenderer.measureFont 24) "Random Number Generator").1) / 2),
            toLONG 80),
         (toString smallEngine.m_randomNumber,
            toLONG (((smallEngine.m_width : ℚ) -
              (goodPlatform.gdiFont.metrics (GDIRenderer.measureFont 120)
                (toString smallEngine.m_randomNumber)).1) / 2),
            toLONG (((smallEngine.m_height : ℚ) -
              (goodPlatform.gdiFont.metrics (GDIRenderer.measureFont 120)
                (toString smallEngine.m_randomNumber)).2) / 2)),
         ("Updates every 5 seconds",
            toLONG (((smallEngine.m_width : ℚ) -
              (goodPlatform.gdiFont.metrics (GDIRenderer.measureFont 20) "Updates every 5 seconds").1) / 2),
            toLONG ((smallEngine.m_height : ℚ) - 100))] =
     [("GDI Renderer", 40, 30), ("Random Number Generator", -359, 80), ("1234", 268, 231),
         ("Updates every 5 seconds", -359, 500)] := by
  obtain ⟨t1, t2, t3, t4⟩ := sample_text_lengths
  have hn : toString smallEngine.m_randomNumber = "1234" := t1
  rw [hn]
  simp only [smallEngine, goodPlatform, sampleFonts, GDIRenderer.measureFont, t2, t3, t4,
    FW_NORMAL, FW_BOLD]
  rw [toLONG_eq 40 40 (by norm_num) (by norm_num) (by norm_num),
    toLONG_eq 30 30 (by norm_num) (by norm_num) (by norm_num),
    toLONG_eq 80 80 (by norm_num) (by norm_num) (by norm_num)]
  rw [toLONG_eq _ (-359) (by norm_num) (by norm_num) (by norm_num),
    toLONG_eq _ 268 (by norm_num) (by norm_num) (by norm_num),
    toLONG_eq _ 231 (by norm_num) (by norm_num) (by norm_num),
    toLONG_eq _ 500 (by norm_num) (by norm_num) (by norm_num)]

theorem sampleHardwareEngine_anchors :
    [(("DirectX 12 Renderer" : String), (40 : ℚ), (30 : ℚ)),
     ("Random Number Generator",
        ((sampleHardwareEngine.m_width : ℚ) -
          (goodPlatform.spriteMetrics bodyVariant "Random Number Generator").1) / 2, 80),
     (toString sampleHardwareEngine.m_randomNumber,
        ((sampleHardwareEngine.m_width : ℚ) -
          (goodPlatform.spriteMetrics displayVariant
            (toString sampleHardwareEngine.m_randomNumber)).1) / 2,
        ((sampleHardwareEngine.m_height : ℚ) -
          (goodPlatform.spriteMetrics displayVariant
            (toString sampleHardwareEngine.m_randomNumber)).2) / 2),
     ("Updates every 5 seconds",
        ((sampleHardwareEngine.m_width : ℚ) -
          (goodPlatform.spriteMetrics bodyVariant "Updates every 5 seconds").1) / 2,
        (sampleHardwareEngine.m_height : ℚ) - 100)] =
    [("DirectX 12 Renderer", 40, 30), ("Random Number Generator", 502, 80),
     ("1234", 520, 300), ("Updates every 5 seconds", 502, 620)] := by
  obtain ⟨t1, t2, t3, t4⟩ := sample_text_lengths
  have hn : toString sampleHardwareEngine.m_randomNumber = "1234" := t1
  rw [hn]
  simp only [sampleHardwareEngine, sampleEngine, goodPlatform, bodyVariant, displayVariant,
    t2, t3, t4]
  norm_num

/-- C16 at concrete inputs: the software renderer on the 1280 x 720 and the 800 x 600
canvas, and the hardware renderer on the 1280 x 720 canvas, each showing `1234`. -/
theorem C16_centred_anchors_witness :
    ((∃ e', (sampleEngine.RenderScene goodPlatform).out = .ok e') ∧
      (platformCalls (sampleEngine.RenderScene goodPlatform).events).filterMap Call.textRect? =
        [("GDI Renderer", 40, 30), ("Random Number Generator", -119, 80), ("1234", 508, 291),
         ("Updates every 5 seconds", -119, 620)]) ∧
    ((∃ e', (smallEngine.RenderScene goodPlatform).out = .ok e') ∧
      (platformCalls (smallEngine.RenderScene goodPlatform).events).filterMap Call.textRect? =
        [("GDI Renderer", 40, 30), ("Random Number Generator", -359, 80), ("1234", 268, 231),
         ("Updates every 5 seconds", -359, 500)]) ∧
    ((∃ e', (sampleHardwareEngine.RenderScene goodPlatform).out = .ok e') ∧
      (platformCalls (sampleHardwareEngine.RenderScene goodPlatform).events).filterMap
          Call.glyphAnchor? =
        [("DirectX 12 Renderer", 40, 30), ("Random Number Generator", 502, 80),
         ("1234", 520, 300), ("Updates every 5 seconds", 502, 620)]) := by
  have h1 := (C16_centred_anchors sampleEngine 1 (.gdi sampleGDI) goodPlatform rfl).1
    sampleGDI rfl
  have h2 := (C16_centred_anchors smallEngine 1
    (.gdi { sampleGDI with m_width := 800, m_height := 600 }) goodPlatform rfl).1
    { sampleGDI with m_width := 800, m_height := 600 } rfl
  have h3 := C16_centred_anchors sampleHardwareEngine 2 (.dx12 sampleState) goodPlatform rfl
  have r3 := h3.2.2.1 sampleState rfl sampleState_boundary.1 sampleState_boundary.2.1 rfl
  obtain ⟨fb, fl, f1, f2, a3⟩ := h3.2.1 sampleState rfl r3
  have e1 : fb = { ptr := 15, variant := bodyVariant } := (Option.some.inj f1).symm
  have e2 : fl = { ptr := 16, variant := displayVariant } := (Option.some.inj f2).symm
  subst e1 e2
  exact ⟨⟨h1.1, h1.2.trans sampleEngine_anchors⟩, ⟨h2.1, h2.2.trans smallEngine_anchors⟩,
    ⟨r3, a3.trans sampleHardwareEngine_anchors⟩⟩

/-! ## C17: the wait in `EndFrame` -/

namespace DX12Renderer

/-- `WaitForPreviousFrame` never returns exactly when the queue and the fence are there,
the fence has not reached the value signalled when it is polled, and the GPU never
completes; its last call is then the `WaitForSingleObject` on the fence event. -/
theorem WaitForPreviousFrame_hung (s : DX12Renderer) (pace : GpuPace) :
    ((s.WaitForPreviousFrame pace).out = .hung ↔
      pace.responsive = false ∧ ∃ q f, s.m_commandQueue = some q ∧ s.m_fence = some f ∧
        (({ s.gpu with pending := s.gpu.pending ++ [.signal s.m_fenceValue] } : Gpu).retire
          pace.retired).fenceCompleted < s.m_fenceValue) ∧
    ((s.WaitForPreviousFrame pace).out = .hung →
      (s.WaitForPreviousFrame pace).calls.getLast? =
        some (.WaitForSingleObject s.m_fenceEvent)) ∧
    (pace.responsive = false →
      (∃ ev, Call.WaitForSingleObject ev ∈ (s.WaitForPreviousFrame pace).calls) →
      (s.WaitForPreviousFrame pace).out = .hung) ∧
    (∀ s' w, (s.WaitForPreviousFrame pace).out ≠ .threw s' w) := by
  rcases hq : s.m_commandQueue with _ | q
  · simp [WaitForPreviousFrame, hq]
  rcases hf : s.m_fence with _ | f
  · simp [WaitForPreviousFrame, hq, hf]
  have hr := Gpu.retire_signal_last pace.retired
    ({ s.gpu with pending := s.gpu.pending ++ [.signal s.m_fenceValue] } : Gpu) s.gpu.pending
    s.m_fenceValue rfl
  simp only at hr
  by_cases hlt : (({ s.gpu with pending := s.gpu.pending ++ [.signal s.m_fenceValue] } : Gpu).retire
          pace.retired).fenceCompleted < s.m_fenceValue
  · cases hp : pace.responsive
    · simp [WaitForPreviousFrame, hq, hf, hlt, hp, Run.bind]
    · rcases hr with ⟨ops', h'⟩ | ⟨h1, _⟩
      · obtain ⟨rest, done, hw⟩ := waitFence_signal_last s.m_fenceValue ops'
          (({ s.gpu with pending := s.gpu.pending ++ [.signal s.m_fenceValue] } : Gpu).retire
            pace.retired).fenceCompleted
        rcases hsc : s.m_swapChain with _ | sc <;>
          simp [WaitForPreviousFrame, hq, hf, hlt, hp, Run.bind, h', hw, hsc]
      · have hlt2 := hlt
        simp only at hlt2
        omega
  · rcases hsc : s.m_swapChain with _ | sc <;>
      simp [WaitForPreviousFrame, hq, hf, hlt, Run.bind, hsc]

end DX12Renderer

namespace DX12Renderer

/-- `EndFrame` after its submission: the wait for the frame and the commit of the
graphics memory, given the run of `WaitForPreviousFrame`. -/
theorem EndFrame_wait (s : DX12Renderer) (pace : GpuPace) (sb list q sc t : Nat)
    (h1 : s.m_spriteBatch = some sb) (h2 : s.gpu.batchOpen = true)
    (h3 : s.m_renderTargets[s.m_frameIndex]? = some (some t))
    (h4 : s.m_commandList = some list) (h5 : s.m_commandQueue = some q)
    (h6 : s.m_swapChain = some sc) :
    ∃ s1 : DX12Renderer, s1.m_fenceEvent = s.m_fenceEvent ∧
      s1.m_commandQueue = s.m_commandQueue ∧ s1.m_fence = s.m_fence ∧
      ((s1.WaitForPreviousFrame pace).out = .hung →
        (s.EndFrame pace).out = .hung ∧
        (s.EndFrame pace).calls =
          [.SpriteBatchEnd, .ResourceBarrier s.m_frameIndex .RENDER_TARGET .PRESENT,
           .CommandListClose, .ExecuteCommandLists, .Present] ++
            (s1.WaitForPreviousFrame pace).calls) ∧
      ((s1.WaitForPreviousFrame pace).out ≠ .hung →
        (s.EndFrame pace).out ≠ .hung ∧
        (∀ s' w, (s.EndFrame pace).out ≠ .threw s' w) ∧
        ∀ c ∈ (s.EndFrame pace).calls, c ∈ (s1.WaitForPreviousFrame pace).calls ∨
          c ∈ [Call.SpriteBatchEnd, .ResourceBarrier s.m_frameIndex .RENDER_TARGET .PRESENT,
            .CommandListClose, .ExecuteCommandLists, .Present, .GraphicsMemoryCommit]) := by
  refine ⟨{ s with gpu :=
      { recordBarrier ({ s.gpu with batchOpen := false } : Gpu) s.m_frameIndex
          .RENDER_TARGET .PRESENT with
        pending := (recordBarrier ({ s.gpu with batchOpen := false } : Gpu) s.m_frameIndex
          .RENDER_TARGET .PRESENT).pending ++ [.execute, .present]
        backBuffer := ((recordBarrier ({ s.gpu with batchOpen := false } : Gpu) s.m_frameIndex
          .RENDER_TARGET .PRESENT).backBuffer + 1) % FRAME_COUNT } }, rfl, rfl, rfl, ?_, ?_⟩
  · intro hw
    simp only [EndFrame, List.get?_eq_getElem?, h1, h2, h3, h4, h5, h6, Run.bind,
      Bool.not_true, Bool.false_eq_true, if_false]
    simp only [h1, h4, h5, h6] at hw
    simp only [hw]
    exact ⟨trivial, rfl⟩
  · intro hw
    have hthrew := (WaitForPreviousFrame_hung ({ s with gpu :=
      { recordBarrier ({ s.gpu with batchOpen := false } : Gpu) s.m_frameIndex
          .RENDER_TARGET .PRESENT with
        pending := (recordBarrier ({ s.gpu with batchOpen := false } : Gpu) s.m_frameIndex
          .RENDER_TARGET .PRESENT).pending ++ [.execute, .present]
        backBuffer := ((recordBarrier ({ s.gpu with batchOpen := false } : Gpu) s.m_frameIndex
          .RENDER_TARGET .PRESENT).backBuffer + 1) % FRAME_COUNT } } : DX12Renderer) pace).2.2.2
    simp only [h1, h4, h5, h6] at hw hthrew
    simp only [EndFrame, List.get?_eq_getElem?, h1, h2, h3, h4, h5, h6, Run.bind,
      Bool.not_true, Bool.false_eq_true, if_false]
    generalize (WaitForPreviousFrame _ pace) = W at hw hthrew ⊢
    rcases hW : W.out with s2 | ⟨s2, w⟩ | w | _
    · rcases hg : s2.m_graphicsMemory with _ | gm <;>
        simp only [hW, hg] <;>
        refine ⟨by simp, by simp, ?_⟩ <;>
        intro c hc <;>
        simp only [List.mem_append, List.mem_cons, List.mem_singleton, List.not_mem_nil,
          or_false, List.append_nil, List.cons_append, List.nil_append] at hc ⊢ <;>
        tauto
    · exact absurd hW (hthrew s2 w)
    · simp only [hW]
      refine ⟨by simp, by simp, ?_⟩
      intro c hc
      simp only [List.mem_append, List.mem_cons, List.mem_singleton, List.not_mem_nil,
        or_false, List.append_nil, List.cons_append, List.nil_append] at hc ⊢
      tauto
    · exact absurd hW hw

end DX12Renderer

/-- C17 (amended): on the hardware backend the wait for GPU completion in `EndFrame` has
no timeout.  The only failure `EndFrame` surfaces to its caller is the one of the sprite
batch, "Begin must be called before End", raised before anything is submitted; no
failure stands for a wait that took too long.  When `EndFrame` reaches
`WaitForSingleObject` on a device that never completes the signalled fence value it
never returns; `EndFrame` never returns only in that way, its last call being the
`WaitForSingleObject` on the fence event; and on a device that does complete its work
`EndFrame` returns whenever the batch is open and the objects it uses are there. -/
theorem C17_wait_unbounded (s : DX12Renderer) (pace : GpuPace) :
    (∀ s' w, (s.EndFrame pace).out = .threw s' w →
      w = "Begin must be called before End" ∧ (s.EndFrame pace).calls = [.SpriteBatchEnd]) ∧
    ((s.EndFrame pace).out = .hung →
      pace.responsive = false ∧
      (s.EndFrame pace).calls.getLast? = some (.WaitForSingleObject s.m_fenceEvent)) ∧
    (pace.responsive = false →
      (∃ ev, Call.WaitForSingleObject ev ∈ (s.EndFrame pace).calls) →
      (s.EndFrame pace).out = .hung) ∧
    (pace.responsive = true → s.m_spriteBatch.isSome → s.gpu.batchOpen = true →
      (∃ t, s.m_renderTargets[s.m_frameIndex]? = some (some t)) → s.m_commandList.isSome →
      s.m_commandQueue.isSome → s.m_swapChain.isSome → s.m_fence.isSome →
      s.m_graphicsMemory.isSome → ∃ s', (s.EndFrame pace).out = .ok s') := by
  refine ⟨?_, ?_, ?_, fun hp a1 a2 a3 a4 a5 a6 a7 a8 =>
    DX12Renderer.EndFrame_returns s pace a1 a2 a3 a4 a5 a6 a7 a8 hp⟩
  all_goals
    rcases h1 : s.m_spriteBatch with _ | sb
    · simp [DX12Renderer.EndFrame, h1]
    by_cases h2 : s.gpu.batchOpen = true
    swap
    · simp [DX12Renderer.EndFrame, h1, h2]
    rcases h3 : s.m_renderTargets[s.m_frameIndex]? with _ | t
    · simp [DX12Renderer.EndFrame, h1, h2, h3]
    rcases h4 : s.m_commandList with _ | list
    · simp [DX12Renderer.EndFrame, h1, h2, h3, h4]
    rcases t with _ | t
    · simp [DX12Renderer.EndFrame, h1, h2, h3, h4]
    rcases h5 : s.m_commandQueue with _ | q
    · simp [DX12Renderer.EndFrame, h1, h2, h3, h4, h5]
    rcases h6 : s.m_swapChain with _ | sc
    · simp [DX12Renderer.EndFrame, h1, h2, h3, h4, h5, h6]
    obtain ⟨s1, e1, -, -, hh, hn⟩ :=
      DX12Renderer.EndFrame_wait s pace sb list q sc t h1 h2 h3 h4 h5 h6
    obtain ⟨w1, w2, w3, -⟩ := DX12Renderer.WaitForPreviousFrame_hung s1 pace
    by_cases hW : (s1.WaitForPreviousFrame pace).out = .hung
    · obtain ⟨ho, hc⟩ := hh hW
      first
        | (intro s' w hthrew
           rw [ho] at hthrew
           cases hthrew)
        | (intro _
           refine ⟨(w1.mp hW).1, ?_⟩
           rw [hc, List.getLast?_append, w2 hW, e1]
           rfl)
        | exact fun _ _ => ho
    · obtain ⟨hnh, hnt, hmem⟩ := hn hW
      first
        | (intro s' w hthrew
           exact absurd hthrew (hnt s' w))
        | (intro hhung
           exact absurd hhung hnh)
        | (rintro hp ⟨ev, hev⟩
           rcases hmem _ hev with h | h
           · exact absurd (w3 hp ⟨ev, h⟩) hW
           · simp at h)

/-- C17 fails on the code: `EndFrame` on the sample renderer after `BeginFrame`, `Clear`
and two `DrawText` calls, with a device that never completes the submitted work, waits on
the fence event with `WaitForSingleObject` and never returns; no failure reaches the
caller. -/
theorem C17_counterexample :
    (sampleRecorded.EndFrame stalledPace).out = .hung ∧
    (∀ s' w, (sampleRecorded.EndFrame stalledPace).out ≠ .threw s' w) ∧
    (sampleRecorded.EndFrame stalledPace).calls =
      [.SpriteBatchEnd, .ResourceBarrier 0 .RENDER_TARGET .PRESENT, .CommandListClose,
       .ExecuteCommandLists, .Present, .Signal 4 (some 11) 1, .GetCompletedValue 11 0,
       .SetEventOnCompletion 11 1 (some 12), .WaitForSingleObject (some 12)] := by
  have h : (sampleRecorded.EndFrame stalledPace).out = .hung := by rfl
  refine ⟨h, ?_, by rfl⟩
  intro s' w hw
  rw [h] at hw
  cases hw

/-- C17 (amended) at a concrete input: the sample renderer with the frame recorded, on a
device that never completes and on one that does. -/
theorem C17_wait_unbounded_witness :
    stalledPace.responsive = false ∧
    (∃ ev, Call.WaitForSingleObject ev ∈ (sampleRecorded.EndFrame stalledPace).calls) ∧
    (sampleRecorded.EndFrame stalledPace).out = .hung ∧
    samplePace.responsive = true ∧
    (∃ s', (sampleRecorded.EndFrame samplePace).out = .ok s') :=
  have hin : ∃ ev, Call.WaitForSingleObject ev ∈ (sampleRecorded.EndFrame stalledPace).calls :=
    ⟨some 12, by
      have hc : (sampleRecorded.EndFrame stalledPace).calls =
          [.SpriteBatchEnd, .ResourceBarrier 0 .RENDER_TARGET .PRESENT, .CommandListClose,
           .ExecuteCommandLists, .Present, .Signal 4 (some 11) 1, .GetCompletedValue 11 0,
           .SetEventOnCompletion 11 1 (some 12), .WaitForSingleObject (some 12)] := by rfl
      rw [hc]
      simp⟩
  ⟨rfl, hin, (C17_wait_unbounded sampleRecorded stalledPace).2.2.1 rfl hin, rfl,
    (C17_wait_unbounded sampleRecorded samplePace).2.2.2 rfl (by rfl) (by rfl)
      ⟨7, by rfl⟩ (by rfl) (by rfl) (by rfl) (by rfl) (by rfl)⟩

/-! ## C18: the background colour -/

theorem roundHalfEven_bounds (x : ℚ) : ⌊x⌋ ≤ roundHalfEven x ∧ roundHalfEven x ≤ ⌊x⌋ + 1 := by
  unfold roundHalfEven
  split_ifs <;> omega

theorem roundHalfEven_intCast (m : Int) : roundHalfEven (m : ℚ) = m := by
  simp [roundHalfEven]

theorem roundHalfEven_mono {x y : ℚ} (h : x ≤ y) : roundHalfEven x ≤ roundHalfEven y := by
  have hf : ⌊x⌋ ≤ ⌊y⌋ := Int.floor_mono h
  rcases lt_or_eq_of_le hf with hlt | heq
  · have h1 := (roundHalfEven_bounds x).2
    have h2 := (roundHalfEven_bounds y).1
    omega
  · unfold roundHalfEven
    rw [← heq]
    split_ifs <;> first | omega | linarith

theorem roundHalfEven_eq (x : ℚ) (m : Int) (h1 : (m : ℚ) - 1 / 2 < x) (h2 : x < (m : ℚ) + 1 / 2) :
    roundHalfEven x = m := by
  have hle : ⌊x⌋ ≤ m := by
    have : ⌊x⌋ < m + 1 := by
      rw [Int.floor_lt]
      push_cast
      linarith
    omega
  have hge : m - 1 ≤ ⌊x⌋ := by
    rw [Int.le_floor]
    push_cast
    linarith
  have hfl : (⌊x⌋ : ℚ) ≤ x := Int.floor_le x
  have hfl2 : x < (⌊x⌋ : ℚ) + 1 := Int.lt_floor_add_one x
  rcases (by omega : ⌊x⌋ = m ∨ ⌊x⌋ = m - 1) with hm | hm
  · unfold roundHalfEven
    rw [hm]
    rw [if_pos (by linarith)]
  · unfold roundHalfEven
    rw [hm]
    have e1 : ((m - 1 : Int) : ℚ) = (m : ℚ) - 1 := by push_cast; ring
    rw [e1, if_neg (by linarith), if_pos (by linarith)]
    ring

/-- The exponent `toFloat` works at: that of the binade of `q`, no smaller than `-126`. -/
theorem toFloat_of_pos (q : ℚ) (hq : 0 < q) :
    toFloat q = (roundHalfEven (q / (2 : ℚ) ^ (max (Int.log 2 q) (-126) - 23)) : ℚ) *
      (2 : ℚ) ^ (max (Int.log 2 q) (-126) - 23) := by
  unfold toFloat
  rw [if_neg hq.ne', abs_of_pos hq]

theorem two_zpow_split (e : Int) : (2 : ℚ) ^ (e + 1) = 2 ^ 24 * (2 : ℚ) ^ (e - 23) := by
  have h : e + 1 = 24 + (e - 23) := by ring
  rw [h, zpow_add₀ (two_ne_zero)]
  norm_num

theorem two_zpow_split_low (e : Int) : (2 : ℚ) ^ e = 2 ^ 23 * (2 : ℚ) ^ (e - 23) := by
  have h : e = 23 + (e - 23) := by ring
  nth_rewrite 1 [h]
  rw [zpow_add₀ (two_ne_zero)]
  norm_num

theorem toFloat_nonneg (q : ℚ) (hq : 0 ≤ q) : 0 ≤ toFloat q := by
  rcases eq_or_lt_of_le hq with h0 | hpos
  · rw [← h0]
    simp [toFloat]
  · rw [toFloat_of_pos q hpos]
    have hu : (0 : ℚ) < (2 : ℚ) ^ (max (Int.log 2 q) (-126) - 23) := zpow_pos (by norm_num) _
    have h1 : roundHalfEven 0 ≤ roundHalfEven (q / (2 : ℚ) ^ (max (Int.log 2 q) (-126) - 23)) :=
      roundHalfEven_mono (div_nonneg hq hu.le)
    have h2 : roundHalfEven 0 = 0 := by
      have := roundHalfEven_intCast 0
      simpa using this
    rw [h2] at h1
    have h3 : (0 : ℚ) ≤ (roundHalfEven (q / (2 : ℚ) ^ (max (Int.log 2 q) (-126) - 23)) : ℚ) := by
      exact_mod_cast h1
    exact mul_nonneg h3 hu.le

/-- A positive number rounds to at most the top of its binade. -/
theorem toFloat_le_top (q : ℚ) (hq : 0 < q) :
    toFloat q ≤ (2 : ℚ) ^ (max (Int.log 2 q) (-126) + 1) := by
  rw [toFloat_of_pos q hq, two_zpow_split]
  have hu : (0 : ℚ) < (2 : ℚ) ^ (max (Int.log 2 q) (-126) - 23) := zpow_pos (by norm_num) _
  have hlt : q < (2 : ℚ) ^ (Int.log 2 q + 1) := by
    have := Int.lt_zpow_succ_log_self (by norm_num : 1 < 2) q
    simpa using this
  have hle : (2 : ℚ) ^ (Int.log 2 q + 1) ≤ (2 : ℚ) ^ (max (Int.log 2 q) (-126) + 1) :=
    zpow_le_zpow_right₀ (by norm_num) (by omega)
  have hq2 : q / (2 : ℚ) ^ (max (Int.log 2 q) (-126) - 23) ≤ ((2 ^ 24 : Int) : ℚ) := by
    have hc : ((2 ^ 24 : Int) : ℚ) = 2 ^ 24 := by norm_num
    rw [div_le_iff₀ hu, hc, ← two_zpow_split]
    linarith
  have h1 := roundHalfEven_mono hq2
  rw [roundHalfEven_intCast] at h1
  have h3 : (roundHalfEven (q / (2 : ℚ) ^ (max (Int.log 2 q) (-126) - 23)) : ℚ) ≤ 2 ^ 24 := by
    exact_mod_cast h1
  exact mul_le_mul_of_nonneg_right h3 hu.le

/-- A positive number in a normal binade rounds to at least the bottom of the binade. -/
theorem toFloat_ge_bottom (q : ℚ) (hq : 0 < q) (he : -126 ≤ Int.log 2 q) :
    (2 : ℚ) ^ (Int.log 2 q) ≤ toFloat q := by
  rw [toFloat_of_pos q hq, max_eq_left he]
  nth_rewrite 1 [two_zpow_split_low]
  have hu : (0 : ℚ) < (2 : ℚ) ^ (Int.log 2 q - 23) := zpow_pos (by norm_num) _
  have hlo : (2 : ℚ) ^ (Int.log 2 q) ≤ q := by
    have := Int.zpow_log_le_self (by norm_num : 1 < 2) hq
    simpa using this
  have hq2 : ((2 ^ 23 : Int) : ℚ) ≤ q / (2 : ℚ) ^ (Int.log 2 q - 23) := by
    have hc : ((2 ^ 23 : Int) : ℚ) = 2 ^ 23 := by norm_num
    rw [le_div_iff₀ hu, hc, ← two_zpow_split_low]
    exact hlo
  have h1 := roundHalfEven_mono hq2
  rw [roundHalfEven_intCast] at h1
  have h3 : (2 : ℚ) ^ 23 ≤ (roundHalfEven (q / (2 : ℚ) ^ (Int.log 2 q - 23)) : ℚ) := by
    exact_mod_cast h1
  exact mul_le_mul_of_nonneg_right h3 hu.le

/-- Rounding to `float` keeps the order of numbers that are not negative. -/
theorem toFloat_mono {x y : ℚ} (hx : 0 ≤ x) (h : x ≤ y) : toFloat x ≤ toFloat y := by
  rcases eq_or_lt_of_le hx with h0 | hpos
  · rw [← h0]
    have : toFloat 0 = 0 := by simp [toFloat]
    rw [this]
    exact toFloat_nonneg y (le_trans hx h)
  have hy : 0 < y := lt_of_lt_of_le hpos h
  have hlog : Int.log 2 x ≤ Int.log 2 y := Int.log_mono_right hpos h
  rcases lt_or_eq_of_le (max_le_max hlog (le_refl (-126 : Int))) with hlt | heq
  · have h1 := toFloat_le_top x hpos
    have he : -126 ≤ Int.log 2 y := by
      rcases le_total (Int.log 2 y) (-126) with hc | hc
      · rw [max_eq_right hc] at hlt
        have := le_max_right (Int.log 2 x) (-126)
        omega
      · exact hc
    have h2 := toFloat_ge_bottom y hy he
    rw [max_eq_left he] at hlt
    have h3 : (2 : ℚ) ^ (max (Int.log 2 x) (-126) + 1) ≤ (2 : ℚ) ^ (Int.log 2 y) :=
      zpow_le_zpow_right₀ (by norm_num) (by omega)
    linarith
  · rw [toFloat_of_pos x hpos, toFloat_of_pos y hy, heq]
    have hu : (0 : ℚ) < (2 : ℚ) ^ (max (Int.log 2 y) (-126) - 23) := zpow_pos (by norm_num) _
    have hd : x / (2 : ℚ) ^ (max (Int.log 2 y) (-126) - 23) ≤
        y / (2 : ℚ) ^ (max (Int.log 2 y) (-126) - 23) := div_le_div_of_nonneg_right h hu.le
    have h1 := roundHalfEven_mono hd
    have h3 : (roundHalfEven (x / (2 : ℚ) ^ (max (Int.log 2 y) (-126) - 23)) : ℚ) ≤
        (roundHalfEven (y / (2 : ℚ) ^ (max (Int.log 2 y) (-126) - 23)) : ℚ) := by
      exact_mod_cast h1
    exact mul_le_mul_of_nonneg_right h3 hu.le

/-- The `float` nearest to a positive number of the binade of exponent `e`, given the
integer nearest to it in units of the last place. -/
theorem toFloat_eq (q : ℚ) (e m : Int) (hlo : (2 : ℚ) ^ e ≤ q) (hhi : q < (2 : ℚ) ^ (e + 1))
    (he : -126 ≤ e) (h1 : (m : ℚ) - 1 / 2 < q / (2 : ℚ) ^ (e - 23))
    (h2 : q / (2 : ℚ) ^ (e - 23) < (m : ℚ) + 1 / 2) :
    toFloat q = (m : ℚ) * (2 : ℚ) ^ (e - 23) := by
  have hq : 0 < q := lt_of_lt_of_le (zpow_pos (by norm_num) _) hlo
  have hlog : Int.log 2 q = e := by
    apply le_antisymm
    · have : Int.log 2 q < e + 1 := by
        rw [← Int.lt_zpow_iff_log_lt (by norm_num) hq]
        simpa using hhi
      omega
    · rw [← Int.zpow_le_iff_le_log (by norm_num) hq]
      simpa using hlo
  rw [toFloat_of_pos q hq, hlog, max_eq_left he, roundHalfEven_eq _ m h1 h2]

theorem toFloat_zero : toFloat 0 = 0 := by simp [toFloat]

theorem toFloat_three_tenths : toFloat (3 / 10) = 5033165 / 16777216 := by
  rw [toFloat_eq (3 / 10) (-2) 10066330 (by norm_num) (by norm_num) (by norm_num)
    (by norm_num) (by norm_num)]
  norm_num

theorem toFloat_four_tenths : toFloat (4 / 10) = 13421773 / 33554432 := by
  rw [toFloat_eq (4 / 10) (-2) 13421773 (by norm_num) (by norm_num) (by norm_num)
    (by norm_num) (by norm_num)]
  norm_num

theorem toFloat_six_tenths : toFloat (6 / 10) = 5033165 / 8388608 := by
  rw [toFloat_eq (6 / 10) (-1) 10066330 (by norm_num) (by norm_num) (by norm_num)
    (by norm_num) (by norm_num)]
  norm_num

theorem toFloat_ninety_nine : toFloat (((99 : Int) : ℚ) / 300) = 11072963 / 33554432 := by
  rw [toFloat_eq (((99 : Int) : ℚ) / 300) (-2) 11072963 (by norm_num) (by norm_num)
    (by norm_num) (by norm_num) (by norm_num)]
  norm_num

theorem toFloat_ninety_eight : toFloat (((98 : Int) : ℚ) / 300) = 5480557 / 16777216 := by
  rw [toFloat_eq (((98 : Int) : ℚ) / 300) (-2) 10961114 (by norm_num) (by norm_num)
    (by norm_num) (by norm_num) (by norm_num)]
  norm_num

theorem roundHalfEven_tie (m : Int) (x : ℚ) (hx : x = (m : ℚ) + 1 / 2) :
    roundHalfEven x = if m % 2 = 0 then m else m + 1 := by
  have hf : ⌊x⌋ = m := by
    rw [Int.floor_eq_iff]
    constructor <;> linarith
  unfold roundHalfEven
  rw [hf, if_neg (by linarith), if_neg (by linarith)]

/-- The `float` nearest to a positive number of the binade of exponent `e`, given the
rounding of the number in units of the last place. -/
theorem toFloat_eq_of_round (q : ℚ) (e m : Int) (hlo : (2 : ℚ) ^ e ≤ q)
    (hhi : q < (2 : ℚ) ^ (e + 1)) (he : -126 ≤ e)
    (hm : roundHalfEven (q / (2 : ℚ) ^ (e - 23)) = m) :
    toFloat q = (m : ℚ) * (2 : ℚ) ^ (e - 23) := by
  have hq : 0 < q := lt_of_lt_of_le (zpow_pos (by norm_num) _) hlo
  have hlog : Int.log 2 q = e := by
    apply le_antisymm
    · have : Int.log 2 q < e + 1 := by
        rw [← Int.lt_zpow_iff_log_lt (by norm_num) hq]
        simpa using hhi
      omega
    · rw [← Int.zpow_le_iff_le_log (by norm_num) hq]
      simpa using hlo
  rw [toFloat_of_pos q hq, hlog, max_eq_left he, hm]

/-- The largest red component: `0.3f + 99 / 300.0f`, a tie that goes to the even
significand. -/
theorem red_top :
    toFloat (toFloat (3 / 10) + toFloat (((99 : Int) : ℚ) / 300)) = 5284823 / 8388608 := by
  rw [toFloat_three_tenths, toFloat_ninety_nine]
  rw [toFloat_eq_of_round _ (-1) 10569646 (by norm_num) (by norm_num) (by norm_num)
    (by rw [roundHalfEven_tie 10569646 _ (by norm_num)]; rfl)]
  norm_num

theorem green_top :
    toFloat (toFloat (4 / 10) + toFloat (((99 : Int) : ℚ) / 300)) = 1530921 / 2097152 := by
  rw [toFloat_four_tenths, toFloat_ninety_nine]
  rw [toFloat_eq _ (-1) 12247368 (by norm_num) (by norm_num) (by norm_num)
    (by norm_num) (by norm_num)]
  norm_num

theorem blue_top :
    toFloat (toFloat (6 / 10) + toFloat (((99 : Int) : ℚ) / 300)) = 3900703 / 4194304 := by
  rw [toFloat_six_tenths, toFloat_ninety_nine]
  rw [toFloat_eq_of_round _ (-1) 15602812 (by norm_num) (by norm_num) (by norm_num)
    (by rw [roundHalfEven_tie 15602811 _ (by norm_num)]; rfl)]
  norm_num

theorem green_next :
    toFloat (toFloat (4 / 10) + toFloat (((98 : Int) : ℚ) / 300)) = 3047861 / 4194304 := by
  rw [toFloat_four_tenths, toFloat_ninety_eight]
  rw [toFloat_eq_of_round _ (-1) 12191444 (by norm_num) (by norm_num) (by norm_num)
    (by rw [roundHalfEven_tie 12191443 _ (by norm_num)]; rfl)]
  norm_num

theorem blue_next :
    toFloat (toFloat (6 / 10) + toFloat (((98 : Int) : ℚ) / 300)) = 15546887 / 16777216 := by
  rw [toFloat_six_tenths, toFloat_ninety_eight]
  rw [toFloat_eq _ (-1) 15546887 (by norm_num) (by norm_num) (by norm_num)
    (by norm_num) (by norm_num)]
  norm_num

theorem red_bottom : toFloat (toFloat (3 / 10)) = 5033165 / 16777216 := by
  rw [toFloat_three_tenths]
  rw [toFloat_eq _ (-2) 10066330 (by norm_num) (by norm_num) (by norm_num)
    (by norm_num) (by norm_num)]
  norm_num

theorem green_bottom : toFloat (toFloat (4 / 10)) = 13421773 / 33554432 := by
  rw [toFloat_four_tenths]
  rw [toFloat_eq _ (-2) 13421773 (by norm_num) (by norm_num) (by norm_num)
    (by norm_num) (by norm_num)]
  norm_num

theorem blue_bottom : toFloat (toFloat (6 / 10)) = 5033165 / 8388608 := by
  rw [toFloat_six_tenths]
  rw [toFloat_eq _ (-1) 10066330 (by norm_num) (by norm_num) (by norm_num)
    (by norm_num) (by norm_num)]
  norm_num

/-- One colour component, `base + k / 300.0f` with `0 <= k <= K`, lies between the
component for `0` and the component for `K`. -/
theorem channel_bounds (c : ℚ) (hc : 0 ≤ c) (k K : Int) (h0 : 0 ≤ k) (hK : k ≤ K) :
    toFloat c ≤ toFloat (c + toFloat ((k : ℚ) / 300)) ∧
    toFloat (c + toFloat ((k : ℚ) / 300)) ≤ toFloat (c + toFloat ((K : ℚ) / 300)) := by
  have hk : (0 : ℚ) ≤ (k : ℚ) / 300 := div_nonneg (by exact_mod_cast h0) (by norm_num)
  have hkK : (k : ℚ) / 300 ≤ (K : ℚ) / 300 :=
    div_le_div_of_nonneg_right (by exact_mod_cast hK) (by norm_num)
  have h1 : 0 ≤ toFloat ((k : ℚ) / 300) := toFloat_nonneg _ hk
  have h2 : toFloat ((k : ℚ) / 300) ≤ toFloat ((K : ℚ) / 300) := toFloat_mono hk hkK
  exact ⟨toFloat_mono hc (by linarith), toFloat_mono (by linarith) (by linarith)⟩

theorem tmod_hundred_range (m : Int) (h : 0 ≤ m) : 0 ≤ Int.tmod m 100 ∧ Int.tmod m 100 ≤ 99 := by
  have h1 : 0 ≤ Int.tmod m 100 := Int.tmod_nonneg _ h
  have h2 : Int.tmod m 100 < 100 := Int.tmod_lt_of_pos _ (by norm_num)
  exact ⟨h1, by omega⟩

/-- One colour component `base + k / 300.0f` for `0 <= k <= 99`: it lies between the
component for `0` and the one for `99`, below the one for `98` unless `k` is `99`. -/
theorem channel_range (c lo top next : ℚ) (k : Int) (hc : 0 ≤ toFloat c)
    (hlo : toFloat (toFloat c) = lo)
    (htop : toFloat (toFloat c + toFloat (((99 : Int) : ℚ) / 300)) = top)
    (hnext : toFloat (toFloat c + toFloat (((98 : Int) : ℚ) / 300)) = next)
    (h0 : 0 ≤ k) (h99 : k ≤ 99) :
    lo ≤ toFloat (toFloat c + toFloat ((k : ℚ) / 300)) ∧
    toFloat (toFloat c + toFloat ((k : ℚ) / 300)) ≤ top ∧
    (k ≠ 99 → toFloat (toFloat c + toFloat ((k : ℚ) / 300)) ≤ next) ∧
    (k = 99 → toFloat (toFloat c + toFloat ((k : ℚ) / 300)) = top) := by
  obtain ⟨b1, b2⟩ := channel_bounds (toFloat c) hc k 99 h0 h99
  rw [hlo] at b1
  rw [htop] at b2
  refine ⟨b1, b2, fun hne => ?_, fun heq => ?_⟩
  · have b3 := (channel_bounds (toFloat c) hc k 98 h0 (by omega)).2
    rw [hnext] at b3
    exact b3
  · rw [heq]
    exact htop

namespace Engine

/-- The colour `RenderScene` hands to `Clear` on the software renderer arrives, as the
first call of the frame, in the `GradientFill`. -/
theorem sceneOn_gdi_clear (e : Engine) (name : String) (g : GDIRenderer) (p : Platform) :
    (e.sceneOn name (.gdi g) p).calls.head? =
      some (.GradientFill g.m_memoryDC
        (GDIRenderer.gradientStops (backgroundColor e.m_randomNumber).1
          (backgroundColor e.m_randomNumber).2.1 (backgroundColor e.m_randomNumber).2.2).1
        (GDIRenderer.gradientStops (backgroundColor e.m_randomNumber).1
          (backgroundColor e.m_randomNumber).2.1 (backgroundColor e.m_randomNumber).2.2).2) := by
  simp [sceneOn, Renderer.BeginFrame, Renderer.Clear, Renderer.DrawText,
    Renderer.MeasureText, Renderer.EndFrame, GDIRenderer.BeginFrame, GDIRenderer.Clear,
    GDIRenderer.DrawText, GDIRenderer.MeasureText, GDIRenderer.EndFrame, Run.bind, Run.map,
    Run.andThen]

/-- The colour `RenderScene` hands to `Clear` on the hardware renderer arrives in the
`ClearRenderTargetView` of a frame that returns. -/
theorem sceneOn_dx12_clear (e : Engine) (name : String) (d : DX12Renderer) (p : Platform)
    (rd' : Renderer) (h : (e.sceneOn name (.dx12 d) p).out = .ok rd') :
    Call.ClearRenderTargetView d.m_frameIndex
      ((backgroundColor e.m_randomNumber).1, (backgroundColor e.m_randomNumber).2.1,
        (backgroundColor e.m_randomNumber).2.2, 1) ∈ (e.sceneOn name (.dx12 d) p).calls := by
  unfold sceneOn at h ⊢
  simp only at h ⊢
  obtain ⟨rdA, hA, -, c1⟩ := Run.bind_calls _ _ _ h
  rw [c1]
  apply List.mem_append_left
  obtain ⟨rd1, h1, h2, hc⟩ := Run.bind_calls _ _ _ hA
  simp only [Renderer.BeginFrame, Run.map_out_ok] at h1
  obtain ⟨d1, hd1, rfl⟩ := h1
  simp only [Renderer.Clear, Run.map_out_ok] at h2
  obtain ⟨d2, hd2, rfl⟩ := h2
  have e1 := DX12Renderer.BeginFrame_ok _ _ hd1
  have k2 := DX12Renderer.Clear_calls _ _ _ _ _ hd2
  have hfi : d1.m_frameIndex = d.m_frameIndex := by rw [e1]
  rw [hc]
  apply List.mem_append_right
  simp only [Renderer.Clear, Run.map_calls, k2, hfi]
  exact List.mem_cons_self _ _

end Engine

/-- C18 fails on the code: for the value `9999`, which `Engine::UpdateRandomNumber` can
draw, the `float` arithmetic of `Engine::RenderScene` gives the colour
`(0.62999999523, 0.73000001907, 0.93000006676)`, whose green component is above `0.73`
and whose blue component is above `0.93`. -/
theorem C18_counterexample :
    (0 : Int) ≤ 9999 ∧ (9999 : Int) ≤ 9999 ∧
    Engine.backgroundColor 9999 =
      (5284823 / 8388608, 1530921 / 2097152, 3900703 / 4194304) ∧
    ¬ (Engine.backgroundColor 9999).2.1 ≤ 73 / 100 ∧
    ¬ (Engine.backgroundColor 9999).2.2 ≤ 93 / 100 := by
  have t1 : Int.tmod 9999 100 = 99 := by decide
  have t2 : Int.tmod (Int.tdiv 9999 10) 100 = 99 := by decide
  have t3 : Int.tmod (Int.tdiv 9999 100) 100 = 99 := by decide
  have hv : Engine.backgroundColor 9999 =
      (5284823 / 8388608, 1530921 / 2097152, 3900703 / 4194304) := by
    simp only [Engine.backgroundColor, t1, t2, t3, red_top, green_top, blue_top]
  refine ⟨by norm_num, by norm_num, hv, ?_, ?_⟩
  · rw [hv]
    norm_num
  · rw [hv]
    norm_num

/-- C18 (amended): for every displayed value `n` that is not negative, so for every `n`
with `0 <= n <= 9999`, the background colour that `Engine::RenderScene` computes in
`float` arithmetic satisfies `0.3 <= r <= 0.63`, `0.4 <= g <= 0.73000002` and
`0.6 <= b <= 0.93000007`; `g` is at most `0.73` exactly when `(n / 10) % 100` is not
`99`, and `b` is at most `0.93` exactly when `(n / 100) % 100` is not `99`.  So every
component lies in `[0.0, 1.0]` and clamping to that interval leaves it as it is.
`Engine::UpdateRandomNumber` always leaves a value from `0` to `9999` in
`m_randomNumber`, and the colour is the one `Clear` is given: it arrives in the
`GradientFill` of the software renderer and in the `ClearRenderTargetView` of the
hardware renderer. -/
theorem C18_background_in_range (n : Int) (h0 : 0 ≤ n) :
    (3 / 10 ≤ (Engine.backgroundColor n).1 ∧ (Engine.backgroundColor n).1 ≤ 63 / 100) ∧
    (4 / 10 ≤ (Engine.backgroundColor n).2.1 ∧
      (Engine.backgroundColor n).2.1 ≤ 73000002 / 100000000 ∧
      ((Engine.backgroundColor n).2.1 ≤ 73 / 100 ↔ Int.tmod (Int.tdiv n 10) 100 ≠ 99)) ∧
    (6 / 10 ≤ (Engine.backgroundColor n).2.2 ∧
      (Engine.backgroundColor n).2.2 ≤ 93000007 / 100000000 ∧
      ((Engine.backgroundColor n).2.2 ≤ 93 / 100 ↔ Int.tmod (Int.tdiv n 100) 100 ≠ 99)) ∧
    (0 ≤ (Engine.backgroundColor n).1 ∧ (Engine.backgroundColor n).1 ≤ 1 ∧
      0 ≤ (Engine.backgroundColor n).2.1 ∧ (Engine.backgroundColor n).2.1 ≤ 1 ∧
      0 ≤ (Engine.backgroundColor n).2.2 ∧ (Engine.backgroundColor n).2.2 ≤ 1) ∧
    (clamp01 (Engine.backgroundColor n).1 = (Engine.backgroundColor n).1 ∧
      clamp01 (Engine.backgroundColor n).2.1 = (Engine.backgroundColor n).2.1 ∧
      clamp01 (Engine.backgroundColor n).2.2 = (Engine.backgroundColor n).2.2) ∧
    (∀ (e : Engine) (draw : Fin 10000), ∃ e', (e.UpdateRandomNumber draw).out = .ok e' ∧
      e'.m_randomNumber = (draw.val : Int) ∧ 0 ≤ e'.m_randomNumber ∧
      e'.m_randomNumber ≤ 9999) ∧
    (∀ (e : Engine) (name : String) (g : GDIRenderer) (p : Platform), e.m_randomNumber = n →
      (e.sceneOn name (.gdi g) p).calls.head? =
        some (.GradientFill g.m_memoryDC
          (GDIRenderer.gradientStops (Engine.backgroundColor n).1 (Engine.backgroundColor n).2.1
            (Engine.backgroundColor n).2.2).1
          (GDIRenderer.gradientStops (Engine.backgroundColor n).1 (Engine.backgroundColor n).2.1
            (Engine.backgroundColor n).2.2).2)) ∧
    (∀ (e : Engine) (name : String) (d : DX12Renderer) (p : Platform) (rd' : Renderer),
      e.m_randomNumber = n → (e.sceneOn name (.dx12 d) p).out = .ok rd' →
      Call.ClearRenderTargetView d.m_frameIndex
        ((Engine.backgroundColor n).1, (Engine.backgroundColor n).2.1,
          (Engine.backgroundColor n).2.2, 1) ∈ (e.sceneOn name (.dx12 d) p).calls) := by
  obtain ⟨kr0, kr1⟩ := tmod_hundred_range n h0
  obtain ⟨kg0, kg1⟩ := tmod_hundred_range (Int.tdiv n 10) (Int.tdiv_nonneg h0 (by norm_num))
  obtain ⟨kb0, kb1⟩ := tmod_hundred_range (Int.tdiv n 100) (Int.tdiv_nonneg h0 (by norm_num))
  obtain ⟨r1, r2, -, -⟩ := channel_range (3 / 10) _ _ _ (Int.tmod n 100)
    (toFloat_nonneg _ (by norm_num)) red_bottom red_top rfl kr0 kr1
  obtain ⟨g1, g2, g3, g4⟩ := channel_range (4 / 10) _ _ _ (Int.tmod (Int.tdiv n 10) 100)
    (toFloat_nonneg _ (by norm_num)) green_bottom green_top green_next kg0 kg1
  obtain ⟨b1, b2, b3, b4⟩ := channel_range (6 / 10) _ _ _ (Int.tmod (Int.tdiv n 100) 100)
    (toFloat_nonneg _ (by norm_num)) blue_bottom blue_top blue_next kb0 kb1
  have hr : (Engine.backgroundColor n).1 =
      toFloat (toFloat (3 / 10) + toFloat (((Int.tmod n 100 : Int) : ℚ) / 300)) := rfl
  have hg : (Engine.backgroundColor n).2.1 =
      toFloat (toFloat (4 / 10) + toFloat (((Int.tmod (Int.tdiv n 10) 100 : Int) : ℚ) / 300)) :=
    rfl
  have hb : (Engine.backgroundColor n).2.2 =
      toFloat (toFloat (6 / 10) + toFloat (((Int.tmod (Int.tdiv n 100) 100 : Int) : ℚ) / 300)) :=
    rfl
  rw [← hr] at r1 r2
  rw [← hg] at g1 g2 g3 g4
  rw [← hb] at b1 b2 b3 b4
  have zr : 0 ≤ (Engine.backgroundColor n).1 ∧ (Engine.backgroundColor n).1 ≤ 1 :=
    ⟨by linarith, by linarith⟩
  have zg : 0 ≤ (Engine.backgroundColor n).2.1 ∧ (Engine.backgroundColor n).2.1 ≤ 1 :=
    ⟨by linarith, by linarith⟩
  have zb : 0 ≤ (Engine.backgroundColor n).2.2 ∧ (Engine.backgroundColor n).2.2 ≤ 1 :=
    ⟨by linarith, by linarith⟩
  refine ⟨⟨by linarith, by linarith⟩, ⟨by linarith, by linarith, ?_⟩,
    ⟨by linarith, by linarith, ?_⟩, ⟨zr.1, zr.2, zg.1, zg.2, zb.1, zb.2⟩,
    ⟨clamp01_of_mem _ zr.1 zr.2, clamp01_of_mem _ zg.1 zg.2, clamp01_of_mem _ zb.1 zb.2⟩,
    ?_, ?_, ?_⟩
  · constructor
    · intro hle heq
      rw [g4 heq] at hle
      norm_num at hle
    · intro hne
      have := g3 hne
      linarith
  · constructor
    · intro hle heq
      rw [b4 heq] at hle
      norm_num at hle
    · intro hne
      have := b3 hne
      linarith
  · intro e draw
    have hd : ((draw.val : Nat) : Int) ≤ 9999 := by
      have := draw.isLt
      omega
    refine ⟨{ e with m_randomNumber := (draw.val : Int) }, ?_, rfl, Int.ofNat_nonneg _, hd⟩
    rcases hh : e.m_hwnd with _ | hwnd <;> simp [Engine.UpdateRandomNumber, hh]
  · intro e name g p hn
    rw [← hn]
    exact Engine.sceneOn_gdi_clear e name g p
  · intro e name d p rd' hn h
    rw [← hn]
    exact Engine.sceneOn_dx12_clear e name d p rd' h

/-- C18 (amended) at concrete inputs: the value `9999`, for which green and blue are
above `0.73` and `0.93`, and the value `1234`, for which they are not. -/
theorem C18_background_in_range_witness :
    (0 : Int) ≤ 9999 ∧
    (3 / 10 ≤ (Engine.backgroundColor 9999).1 ∧ (Engine.backgroundColor 9999).1 ≤ 63 / 100) ∧
    (Engine.backgroundColor 9999).2.1 ≤ 73000002 / 100000000 ∧
    (Engine.backgroundColor 9999).2.2 ≤ 93000007 / 100000000 ∧
    (0 : Int) ≤ 1234 ∧
    (Engine.backgroundColor 1234).2.1 ≤ 73 / 100 ∧
    (Engine.backgroundColor 1234).2.2 ≤ 93 / 100 :=
  have h := C18_background_in_range 9999 (by norm_num)
  have k := C18_background_in_range 1234 (by norm_num)
  ⟨by norm_num, h.1, h.2.1.2.1, h.2.2.1.2.1, by norm_num,
    k.2.1.2.2.mpr (by decide), k.2.2.1.2.2.mpr (by decide)⟩
